import Mathlib

/-!
# vulkan-base: memory allocator, command runner and frame cycle

A shallow embedding of `vulkan_utilities.cpp` and `main.cpp`.  Native handles are
natural numbers, `VK_NULL_HANDLE` is `0`, `VkResult` is an integer.  Every native call a
function issues is appended to a trace; the answers of the driver are given by a `Driver`
record whose fields see the calls issued so far.
-/

namespace VulkanBase

/-! ## Native types and constants -/

abbrev VkResult := Int
abbrev VkDevice := Nat
abbrev VkPhysicalDevice := Nat
abbrev VkDeviceMemory := Nat
abbrev VkDeviceSize := Nat

def VK_SUCCESS : VkResult := 0
def VK_SUBOPTIMAL_KHR : VkResult := 1000001003
def VK_ERROR_OUT_OF_DATE_KHR : VkResult := -1000001004
def VK_NULL_HANDLE : Nat := 0
def UINT32_MAX : Nat := 4294967295
def UINT64_MAX : Nat := 18446744073709551615

def VK_MEMORY_PROPERTY_DEVICE_LOCAL_BIT : Nat := 0x00000001
def VK_MEMORY_PROPERTY_HOST_VISIBLE_BIT : Nat := 0x00000002
def VK_MEMORY_PROPERTY_HOST_COHERENT_BIT : Nat := 0x00000004

structure VkMemoryType where
  propertyFlags : Nat
  heapIndex : Nat

/-- The table `vkGetPhysicalDeviceMemoryProperties` fills in: `memoryTypes` is the fixed
array of the C struct, of which the first `memoryTypeCount` entries are meaningful. -/
structure VkPhysicalDeviceMemoryProperties where
  memoryTypeCount : Nat
  memoryTypes : Nat → VkMemoryType

structure VkMemoryRequirements where
  size : VkDeviceSize
  alignment : VkDeviceSize
  memoryTypeBits : Nat

/-- Modelled from the spec: `error` is declared in common.h, which is not among the
sources; a fatal error "terminates the process immediately with a descriptive message".
The termination is the `Except.error` outcome carrying the message. -/
def error {α : Type} (message : String) : Except String α :=
  Except.error message

/-- Modelled from the spec: `check_vk_result` is declared in common.h, which is not among
the sources; "any native call returning a negative/error status" is fatal. This is the
test `VK_CHECK` of vk.h makes. -/
def check_vk_result (result : VkResult) (function_name : String) : Except String Unit :=
  if result < 0 then error (function_name ++ " has returned an error code") else Except.ok ()

/-! ## Memory-type selection (vulkan_utilities.cpp, lines 4-16) -/

/-- The condition of the `if` in the loop body. `1 << i` is a 32-bit shift: for `i < 32`
it is `2 ^ i`. -/
def memory_type_matches (memory_properties : VkPhysicalDeviceMemoryProperties)
    (memory_type_bits properties i : Nat) : Bool :=
  (memory_type_bits &&& ((1 <<< i) % 2 ^ 32)) != 0 &&
    ((memory_properties.memoryTypes i).propertyFlags &&& properties) == properties

/-- The `for` loop: `remaining` iterations are left and the loop variable is `i`. -/
def find_memory_type_loop (memory_properties : VkPhysicalDeviceMemoryProperties)
    (memory_type_bits properties : Nat) : Nat → Nat → Option Nat
  | 0, _ => none
  | remaining + 1, i =>
    if memory_type_matches memory_properties memory_type_bits properties i then some i
    else find_memory_type_loop memory_properties memory_type_bits properties remaining (i + 1)

def find_memory_type_with_properties (memory_properties : VkPhysicalDeviceMemoryProperties)
    (memory_type_bits properties : Nat) : Except String Nat :=
  match find_memory_type_loop memory_properties memory_type_bits properties
      memory_properties.memoryTypeCount 0 with
  | some i => Except.ok i
  | none => error "failed to find matching memory type with requested properties"

/-! ## Device_Memory_Allocator (vulkan_utilities.cpp, lines 18-94) -/

/-- The calls of the allocator that change driver state, with what the driver answered. -/
inductive MemoryCall where
  | vkFreeMemory (device : VkDevice) (memory : VkDeviceMemory)
  | vkAllocateMemory (device : VkDevice) (allocationSize : VkDeviceSize)
      (memoryTypeIndex : Nat) (result : VkResult) (memory : VkDeviceMemory)
  deriving DecidableEq, Repr

/-- The driver: the memory table of a physical device, and the answer (result code and
handle written to the out-parameter) of `vkAllocateMemory`, which may depend on all
calls issued before. -/
structure Driver where
  vkGetPhysicalDeviceMemoryProperties : VkPhysicalDevice → VkPhysicalDeviceMemoryProperties
  vkAllocateMemory : List MemoryCall → VkDevice → VkDeviceSize → Nat → VkResult × VkDeviceMemory

structure Device_Memory_Allocator where
  physical_device : VkPhysicalDevice
  device : VkDevice
  device_local_chunks : List VkDeviceMemory
  staging_chunk : VkDeviceMemory
  staging_chunk_size : VkDeviceSize
  staging_memory_type_index : Nat
  deriving DecidableEq, Repr

/-- Modelled from the spec: the class declaration (vulkan_utilities.h) is not among the
sources. The constructor of the source only sets the two handles; the remaining members
start as "no staging chunk": an empty chunk list, a null handle, size 0 and type index -1,
the values `allocate_staging_memory` resets them to. -/
def Device_Memory_Allocator.construct (physical_device : VkPhysicalDevice) (device : VkDevice) :
    Device_Memory_Allocator :=
  { physical_device := physical_device
    device := device
    device_local_chunks := []
    staging_chunk := VK_NULL_HANDLE
    staging_chunk_size := 0
    staging_memory_type_index := UINT32_MAX }

/-- What a member function leaves behind: its return value or the fatal error, the
allocator afterwards, and the native calls it issued, in order. -/
structure Outcome (α : Type) where
  result : Except String α
  allocator : Device_Memory_Allocator
  calls : List MemoryCall

/-- `Device_Memory_Allocator::allocate_staging_memory(const VkMemoryRequirements&)`.
`history` holds the calls issued before this one. `vkAllocateMemory` is handed the address
of `staging_chunk`, so the member holds what the driver wrote there even when the check of
the result ends the process. -/
def allocate_staging_memory (driver : Driver) (history : List MemoryCall)
    (self : Device_Memory_Allocator) (memory_requirements : VkMemoryRequirements) :
    Outcome VkDeviceMemory :=
  match find_memory_type_with_properties
      (driver.vkGetPhysicalDeviceMemoryProperties self.physical_device)
      memory_requirements.memoryTypeBits
      (VK_MEMORY_PROPERTY_HOST_VISIBLE_BIT ||| VK_MEMORY_PROPERTY_HOST_COHERENT_BIT) with
  | Except.error message => { result := Except.error message, allocator := self, calls := [] }
  | Except.ok memory_type_index =>
    if self.staging_chunk_size < memory_requirements.size ∨
        self.staging_memory_type_index ≠ memory_type_index then
      let freed : List MemoryCall :=
        if self.staging_chunk ≠ VK_NULL_HANDLE then
          [MemoryCall.vkFreeMemory self.device self.staging_chunk]
        else []
      let answer := driver.vkAllocateMemory (history ++ freed) self.device
        memory_requirements.size memory_type_index
      let calls := freed ++ [MemoryCall.vkAllocateMemory self.device memory_requirements.size
        memory_type_index answer.1 answer.2]
      match check_vk_result answer.1 "vkAllocateMemory" with
      | Except.error message =>
        { result := Except.error message
          allocator := { self with
            staging_chunk := answer.2
            staging_chunk_size := 0
            staging_memory_type_index := UINT32_MAX }
          calls := calls }
      | Except.ok _ =>
        { result := Except.ok answer.2
          allocator := { self with
            staging_chunk := answer.2
            staging_chunk_size := memory_requirements.size
            staging_memory_type_index := memory_type_index }
          calls := calls }
    else
      { result := Except.ok self.staging_chunk, allocator := self, calls := [] }

/-- `Device_Memory_Allocator::allocate_device_local_memory(const VkMemoryRequirements&)`. -/
def allocate_device_local_memory (driver : Driver) (history : List MemoryCall)
    (self : Device_Memory_Allocator) (memory_requirements : VkMemoryRequirements) :
    Outcome VkDeviceMemory :=
  match find_memory_type_with_properties
      (driver.vkGetPhysicalDeviceMemoryProperties self.physical_device)
      memory_requirements.memoryTypeBits VK_MEMORY_PROPERTY_DEVICE_LOCAL_BIT with
  | Except.error message => { result := Except.error message, allocator := self, calls := [] }
  | Except.ok memory_type_index =>
    let answer := driver.vkAllocateMemory history self.device
      memory_requirements.size memory_type_index
    let calls := [MemoryCall.vkAllocateMemory self.device memory_requirements.size
      memory_type_index answer.1 answer.2]
    match check_vk_result answer.1 "vkAllocateMemory" with
    | Except.error message => { result := Except.error message, allocator := self, calls := calls }
    | Except.ok _ =>
      { result := Except.ok answer.2
        allocator := { self with device_local_chunks := self.device_local_chunks ++ [answer.2] }
        calls := calls }

/-! ### Client code: a sequence of allocation requests -/

/-- One request to the allocator, by pool. -/
inductive Request where
  | staging (memory_requirements : VkMemoryRequirements)
  | device_local (memory_requirements : VkMemoryRequirements)

def Request.memory_requirements : Request → VkMemoryRequirements
  | Request.staging memory_requirements => memory_requirements
  | Request.device_local memory_requirements => memory_requirements

def Request.is_device_local : Request → Bool
  | Request.staging _ => false
  | Request.device_local _ => true

def serve (driver : Driver) (history : List MemoryCall) (self : Device_Memory_Allocator) :
    Request → Outcome VkDeviceMemory
  | Request.staging memory_requirements =>
    allocate_staging_memory driver history self memory_requirements
  | Request.device_local memory_requirements =>
    allocate_device_local_memory driver history self memory_requirements

/-- The record of one request that returned: the allocator it was made on, the handle it
returned and the native calls it issued. -/
structure Served where
  request : Request
  before : Device_Memory_Allocator
  memory : VkDeviceMemory
  calls : List MemoryCall

/-- Requests made one after the other on the same allocator. A fatal error ends the
process, so the requests after it are not made. -/
def serve_all (driver : Driver) :
    List MemoryCall → Device_Memory_Allocator → List Request → Outcome (List Served)
  | _, self, [] => { result := Except.ok [], allocator := self, calls := [] }
  | history, self, request :: later =>
    let first := serve driver history self request
    match first.result with
    | Except.error message =>
      { result := Except.error message, allocator := first.allocator, calls := first.calls }
    | Except.ok memory =>
      let rest := serve_all driver (history ++ first.calls) first.allocator later
      { result :=
          match rest.result with
          | Except.error message => Except.error message
          | Except.ok served =>
            Except.ok ({ request := request, before := self, memory := memory,
                         calls := first.calls } :: served)
        allocator := rest.allocator
        calls := first.calls ++ rest.calls }

/-- The handles that are allocated and not freed after the given calls. -/
def live_memory (calls : List MemoryCall) : List VkDeviceMemory :=
  calls.foldl
    (fun live call =>
      match call with
      | MemoryCall.vkFreeMemory _ memory => live.erase memory
      | MemoryCall.vkAllocateMemory _ _ _ result memory =>
        if result = VK_SUCCESS then memory :: live else live)
    []

/-- What the Vulkan specification promises of `vkAllocateMemory`: the result is
`VK_SUCCESS` or an error code, and on success the handle is not null and is not the handle
of an allocation that is still live. -/
def Driver.well_behaved (driver : Driver) : Prop :=
  ∀ (history : List MemoryCall) (device : VkDevice) (size : VkDeviceSize) (index : Nat),
    ((driver.vkAllocateMemory history device size index).1 = VK_SUCCESS ∨
      (driver.vkAllocateMemory history device size index).1 < 0) ∧
    ((driver.vkAllocateMemory history device size index).1 = VK_SUCCESS →
      (driver.vkAllocateMemory history device size index).2 ≠ VK_NULL_HANDLE ∧
      (driver.vkAllocateMemory history device size index).2 ∉ live_memory history)

/-! ## Command runner (vulkan_utilities.cpp, lines 96-138) -/

abbrev VkCommandPool := Nat
abbrev VkCommandBuffer := Nat
abbrev VkQueue := Nat
abbrev VkSemaphore := Nat
abbrev VkFence := Nat
abbrev VkSwapchainKHR := Nat
abbrev VkImage := Nat
abbrev VkImageView := Nat
abbrev VkSurfaceKHR := Nat
abbrev VkInstance := Nat

def VK_COMMAND_BUFFER_LEVEL_PRIMARY : Nat := 0
def VK_COMMAND_BUFFER_USAGE_ONE_TIME_SUBMIT_BIT : Nat := 0x00000001
def VK_PIPELINE_STAGE_TRANSFER_BIT : Nat := 0x00001000

/-- The fields of `VkSubmitInfo` the program sets; a pointer with its count is a list. -/
structure VkSubmitInfo where
  waitSemaphoreCount : Nat
  pWaitSemaphores : List VkSemaphore
  pWaitDstStageMask : List Nat
  commandBufferCount : Nat
  pCommandBuffers : List VkCommandBuffer
  signalSemaphoreCount : Nat
  pSignalSemaphores : List VkSemaphore
  deriving DecidableEq, Repr

/-- The calls `record_and_run_commands` makes. The call of the recorder is one of them;
`recorded` is whatever the recorder did with the buffer. -/
inductive RunnerCall (κ : Type) where
  | vkAllocateCommandBuffers (device : VkDevice) (commandPool : VkCommandPool) (level : Nat)
      (commandBufferCount : Nat) (result : VkResult) (command_buffer : VkCommandBuffer)
  | vkBeginCommandBuffer (command_buffer : VkCommandBuffer) (flags : Nat) (result : VkResult)
  | recorder (command_buffer : VkCommandBuffer) (recorded : κ)
  | vkEndCommandBuffer (command_buffer : VkCommandBuffer) (result : VkResult)
  | vkQueueSubmit (queue : VkQueue) (submitCount : Nat) (submit_info : VkSubmitInfo)
      (fence : VkFence) (result : VkResult)
  | vkQueueWaitIdle (queue : VkQueue) (result : VkResult)
  | vkFreeCommandBuffers (device : VkDevice) (commandPool : VkCommandPool)
      (commandBufferCount : Nat) (pCommandBuffers : List VkCommandBuffer)
  deriving DecidableEq, Repr

/-- The answers of the driver to the calls of the command runner. -/
structure RunnerDriver (κ : Type) where
  vkAllocateCommandBuffers :
    List (RunnerCall κ) → VkDevice → VkCommandPool → Nat → Nat → VkResult × VkCommandBuffer
  vkBeginCommandBuffer : List (RunnerCall κ) → VkCommandBuffer → Nat → VkResult
  vkEndCommandBuffer : List (RunnerCall κ) → VkCommandBuffer → VkResult
  vkQueueSubmit : List (RunnerCall κ) → VkQueue → Nat → VkSubmitInfo → VkFence → VkResult
  vkQueueWaitIdle : List (RunnerCall κ) → VkQueue → VkResult

structure RunnerOutcome (κ : Type) where
  result : Except String Unit
  calls : List (RunnerCall κ)

def record_and_run_commands {κ : Type} (driver : RunnerDriver κ) (history : List (RunnerCall κ))
    (device : VkDevice) (command_pool : VkCommandPool) (queue : VkQueue)
    (recorder : VkCommandBuffer → κ) : RunnerOutcome κ :=
  let allocated := driver.vkAllocateCommandBuffers history device command_pool
    VK_COMMAND_BUFFER_LEVEL_PRIMARY 1
  let command_buffer := allocated.2
  let calls1 := [RunnerCall.vkAllocateCommandBuffers device command_pool
    VK_COMMAND_BUFFER_LEVEL_PRIMARY 1 allocated.1 command_buffer]
  match check_vk_result allocated.1 "vkAllocateCommandBuffers" with
  | Except.error message => { result := Except.error message, calls := calls1 }
  | Except.ok _ =>
  let begun := driver.vkBeginCommandBuffer (history ++ calls1) command_buffer
    VK_COMMAND_BUFFER_USAGE_ONE_TIME_SUBMIT_BIT
  let calls2 := calls1 ++ [RunnerCall.vkBeginCommandBuffer command_buffer
    VK_COMMAND_BUFFER_USAGE_ONE_TIME_SUBMIT_BIT begun]
  match check_vk_result begun "vkBeginCommandBuffer" with
  | Except.error message => { result := Except.error message, calls := calls2 }
  | Except.ok _ =>
  let calls3 := calls2 ++ [RunnerCall.recorder command_buffer (recorder command_buffer)]
  let ended := driver.vkEndCommandBuffer (history ++ calls3) command_buffer
  let calls4 := calls3 ++ [RunnerCall.vkEndCommandBuffer command_buffer ended]
  match check_vk_result ended "vkEndCommandBuffer" with
  | Except.error message => { result := Except.error message, calls := calls4 }
  | Except.ok _ =>
  let submit_info : VkSubmitInfo :=
    { waitSemaphoreCount := 0
      pWaitSemaphores := []
      pWaitDstStageMask := []
      commandBufferCount := 1
      pCommandBuffers := [command_buffer]
      signalSemaphoreCount := 0
      pSignalSemaphores := [] }
  let submitted := driver.vkQueueSubmit (history ++ calls4) queue 1 submit_info VK_NULL_HANDLE
  let calls5 := calls4 ++ [RunnerCall.vkQueueSubmit queue 1 submit_info VK_NULL_HANDLE submitted]
  match check_vk_result submitted "vkQueueSubmit" with
  | Except.error message => { result := Except.error message, calls := calls5 }
  | Except.ok _ =>
  let idle := driver.vkQueueWaitIdle (history ++ calls5) queue
  let calls6 := calls5 ++ [RunnerCall.vkQueueWaitIdle queue idle]
  match check_vk_result idle "vkQueueWaitIdle" with
  | Except.error message => { result := Except.error message, calls := calls6 }
  | Except.ok _ =>
    { result := Except.ok ()
      calls := calls6 ++ [RunnerCall.vkFreeCommandBuffers device command_pool 1 [command_buffer]] }

/-! ## Frame cycle (main.cpp, lines 23-48 and 157-218) -/

/-- The members of `SwapchainInfo` (swapchain_initialization.h) that main.cpp uses. -/
structure SwapchainInfo where
  handle : VkSwapchainKHR
  imageFormat : Nat
  images : List VkImage
  imageViews : List VkImageView
  deriving DecidableEq, Repr

structure VulkanState where
  vkInstance : VkInstance
  device : VkDevice
  graphicsQueue : VkQueue
  presentQueue : VkQueue
  surface : VkSurfaceKHR
  swapchainInfo : SwapchainInfo
  imageAvailableSemaphore : VkSemaphore
  renderingFinishedSemaphore : VkSemaphore
  presentQueueCommandPool : VkCommandPool
  presentQueueCommandBuffers : List VkCommandBuffer
  deriving DecidableEq, Repr

/-- The submit of `RunFrame`. `pCommandBuffers` is the address of
`presentQueueCommandBuffers[imageIndex]`: what is stored there, `none` when the index is
outside the vector. -/
structure FrameSubmitInfo where
  waitSemaphoreCount : Nat
  pWaitSemaphores : List VkSemaphore
  pWaitDstStageMask : List Nat
  commandBufferCount : Nat
  pCommandBuffers : List (Option VkCommandBuffer)
  signalSemaphoreCount : Nat
  pSignalSemaphores : List VkSemaphore
  deriving DecidableEq, Repr

structure VkPresentInfoKHR where
  waitSemaphoreCount : Nat
  pWaitSemaphores : List VkSemaphore
  swapchainCount : Nat
  pSwapchains : List VkSwapchainKHR
  pImageIndices : List Nat
  deriving DecidableEq, Repr

/-- The calls of main.cpp that the frame cycle is about. `CreateSwapchain` is the call
that builds a swapchain (main.cpp, line 268). -/
inductive MainCall where
  | CreateSwapchain (physicalDevice : VkPhysicalDevice) (device : VkDevice)
      (surface : VkSurfaceKHR)
  | vkAcquireNextImageKHR (device : VkDevice) (swapchain : VkSwapchainKHR) (timeout : Nat)
      (semaphore : VkSemaphore) (fence : VkFence) (result : VkResult) (imageIndex : Nat)
  | vkQueueSubmit (queue : VkQueue) (submitCount : Nat) (submitInfo : FrameSubmitInfo)
      (fence : VkFence) (result : VkResult)
  | vkQueuePresentKHR (queue : VkQueue) (presentInfo : VkPresentInfoKHR) (result : VkResult)
  | SDL_Delay (ms : Nat)
  deriving DecidableEq, Repr

/-- The answers of the driver to the calls of the frame cycle. -/
structure FrameDriver where
  vkAcquireNextImageKHR :
    List MainCall → VkDevice → VkSwapchainKHR → Nat → VkSemaphore → VkFence → VkResult × Nat
  vkQueueSubmit : List MainCall → VkQueue → Nat → FrameSubmitInfo → VkFence → VkResult
  vkQueuePresentKHR : List MainCall → VkQueue → VkPresentInfoKHR → VkResult

/-- Modelled from the spec: `CheckVkResult` is declared in common.h, which is not among
the sources; "any native call returning a negative/error status" is fatal. This is the
test `VK_CHECK` of vk.h makes. -/
def CheckVkResult (result : VkResult) (function_name : String) : Except String Unit :=
  if result < 0 then error (function_name ++ " has returned an error code") else Except.ok ()

structure FrameOutcome where
  result : Except String Unit
  calls : List MainCall

def RunFrame (driver : FrameDriver) (history : List MainCall) (vulkanState : VulkanState) :
    FrameOutcome :=
  let acquired := driver.vkAcquireNextImageKHR history vulkanState.device
    vulkanState.swapchainInfo.handle UINT64_MAX vulkanState.imageAvailableSemaphore VK_NULL_HANDLE
  let imageIndex := acquired.2
  let calls1 := [MainCall.vkAcquireNextImageKHR vulkanState.device
    vulkanState.swapchainInfo.handle UINT64_MAX vulkanState.imageAvailableSemaphore VK_NULL_HANDLE
    acquired.1 imageIndex]
  match CheckVkResult acquired.1 "vkAcquireNextImageKHR" with
  | Except.error message => { result := Except.error message, calls := calls1 }
  | Except.ok _ =>
  let submitInfo : FrameSubmitInfo :=
    { waitSemaphoreCount := 1
      pWaitSemaphores := [vulkanState.imageAvailableSemaphore]
      pWaitDstStageMask := [VK_PIPELINE_STAGE_TRANSFER_BIT]
      commandBufferCount := 1
      pCommandBuffers := [vulkanState.presentQueueCommandBuffers[imageIndex]?]
      signalSemaphoreCount := 1
      pSignalSemaphores := [vulkanState.renderingFinishedSemaphore] }
  let submitted := driver.vkQueueSubmit (history ++ calls1) vulkanState.presentQueue 1
    submitInfo VK_NULL_HANDLE
  let calls2 := calls1 ++ [MainCall.vkQueueSubmit vulkanState.presentQueue 1 submitInfo
    VK_NULL_HANDLE submitted]
  match CheckVkResult submitted "vkQueueSubmit" with
  | Except.error message => { result := Except.error message, calls := calls2 }
  | Except.ok _ =>
  let presentInfo : VkPresentInfoKHR :=
    { waitSemaphoreCount := 1
      pWaitSemaphores := [vulkanState.renderingFinishedSemaphore]
      swapchainCount := 1
      pSwapchains := [vulkanState.swapchainInfo.handle]
      pImageIndices := [imageIndex] }
  let presented := driver.vkQueuePresentKHR (history ++ calls2) vulkanState.presentQueue
    presentInfo
  let calls3 := calls2 ++ [MainCall.vkQueuePresentKHR vulkanState.presentQueue presentInfo
    presented]
  match CheckVkResult presented "vkQueuePresentKHR" with
  | Except.error message => { result := Except.error message, calls := calls3 }
  | Except.ok _ => { result := Except.ok (), calls := calls3 }

structure SDL_Event where
  type : Nat
  deriving DecidableEq, Repr

def SDL_QUIT : Nat := 0x100

/-- How a run of the main loop over a finite schedule of events ends: the loop returned,
or the schedule ended with the loop still running. -/
inductive LoopStatus where
  | returned
  | running
  deriving DecidableEq, Repr

structure LoopOutcome where
  result : Except String LoopStatus
  calls : List MainCall

/-- The inner `while (SDL_PollEvent(&event))` loop over the events that are pending. -/
def poll_events (pending : List SDL_Event) (running : Bool) : Bool :=
  pending.foldl (fun running event => if event.type = SDL_QUIT then false else running) running

/-- `RunMainLoop`. The schedule gives, for each pass of the outer loop, the events that
`SDL_PollEvent` delivers in that pass. -/
def RunMainLoop (driver : FrameDriver) (vulkanState : VulkanState) :
    List MainCall → List (List SDL_Event) → LoopOutcome
  | _, [] => { result := Except.ok LoopStatus.running, calls := [] }
  | history, pending :: later =>
    if poll_events pending true then
      let frame := RunFrame driver history vulkanState
      match frame.result with
      | Except.error message => { result := Except.error message, calls := frame.calls }
      | Except.ok _ =>
        let calls := frame.calls ++ [MainCall.SDL_Delay 1]
        let rest := RunMainLoop driver vulkanState (history ++ calls) later
        { result := rest.result, calls := calls ++ rest.calls }
    else { result := Except.ok LoopStatus.returned, calls := [] }

/-- The acquire, submit and present calls of a trace. -/
def is_cycle_call : MainCall → Bool
  | MainCall.vkAcquireNextImageKHR _ _ _ _ _ _ _ => true
  | MainCall.vkQueueSubmit _ _ _ _ _ => true
  | MainCall.vkQueuePresentKHR _ _ _ => true
  | _ => false

def is_acquire : MainCall → Bool
  | MainCall.vkAcquireNextImageKHR _ _ _ _ _ _ _ => true
  | _ => false

def is_submit : MainCall → Bool
  | MainCall.vkQueueSubmit _ _ _ _ _ => true
  | _ => false

def is_present : MainCall → Bool
  | MainCall.vkQueuePresentKHR _ _ _ => true
  | _ => false

def is_rebuild : MainCall → Bool
  | MainCall.CreateSwapchain _ _ _ => true
  | _ => false

/-- The kind of a call: what a mock that only records the order of calls sees. -/
inductive CallKind where
  | rebuild
  | acquire
  | submit
  | present
  | delay
  deriving DecidableEq, Repr

def MainCall.kind : MainCall → CallKind
  | MainCall.CreateSwapchain _ _ _ => CallKind.rebuild
  | MainCall.vkAcquireNextImageKHR _ _ _ _ _ _ _ => CallKind.acquire
  | MainCall.vkQueueSubmit _ _ _ _ _ => CallKind.submit
  | MainCall.vkQueuePresentKHR _ _ _ => CallKind.present
  | MainCall.SDL_Delay _ => CallKind.delay

/-! ## Staging texture upload (vulkan_utilities.cpp, lines 181-189) -/

/-- The value of an `int` expression: the exact result reduced to the 32-bit signed range,
which is what an overflowing `int` multiplication yields on the targets of the program. -/
def wrap_int (x : Int) : Int :=
  (x + 2 ^ 31) % 2 ^ 32 - 2 ^ 31

/-- Conversion of an `int` to a 64-bit unsigned type (`VkDeviceSize`, `size_t`). -/
def to_uint64 (x : Int) : Nat :=
  (x % 2 ^ 64).toNat

/-- Mapped memory: the byte at each offset from `data`. -/
abbrev MappedMemory := Nat → UInt8

/-- The source buffer: the byte at each offset from `pixels`. -/
abbrev PixelBuffer := Int → UInt8

/-- `memcpy(&data[dst], &pixels[src], count)`. -/
def memcpy (data : MappedMemory) (dst : Nat) (pixels : PixelBuffer) (src : Int) (count : Nat) :
    MappedMemory :=
  fun offset =>
    if dst ≤ offset ∧ offset < dst + count then pixels (src + ((offset - dst : Nat) : Int))
    else data offset

/-- The `for` loop of the row-by-row branch: `remaining` iterations are left and the loop
variable is `i`. -/
def copy_rows (rowPitch : Nat) (bytes_per_row : Int) (pixels : PixelBuffer) :
    Nat → Int → MappedMemory → MappedMemory
  | 0, _, data => data
  | remaining + 1, i, data =>
    copy_rows rowPitch bytes_per_row pixels remaining (i + 1)
      (memcpy data ((to_uint64 i * rowPitch) % 2 ^ 64) pixels (wrap_int (i * bytes_per_row))
        (to_uint64 bytes_per_row))

/-- The copy of `create_staging_texture` into the mapped memory (lines 181-189), with
`rowPitch` the `staging_image_layout.rowPitch` the driver reported. -/
def create_staging_texture_copy (image_width image_height bytes_per_pixel : Int)
    (rowPitch : Nat) (pixels : PixelBuffer) (data : MappedMemory) : MappedMemory :=
  let bytes_per_row := wrap_int (image_width * bytes_per_pixel)
  if rowPitch = to_uint64 bytes_per_row then
    memcpy data 0 pixels 0 (to_uint64 (wrap_int (bytes_per_row * image_height)))
  else
    copy_rows rowPitch bytes_per_row pixels image_height.toNat 0 data

/-- The handles the allocator holds are live after the given calls, and the staging chunk
is not one of the device-local chunks. -/
def Device_Memory_Allocator.consistent (self : Device_Memory_Allocator)
    (history : List MemoryCall) : Prop :=
  (self.staging_chunk ≠ VK_NULL_HANDLE →
    self.staging_chunk ∈ live_memory history ∧
      self.staging_chunk ∉ self.device_local_chunks) ∧
  ∀ chunk ∈ self.device_local_chunks, chunk ∈ live_memory history

/-! ## Result checks of vk.h (lines 18-25) -/

/-- `VK_CHECK(function_call)` on the result the call returned. `function_call` is the
text of the macro argument (`#function_call`); `string_VkResult` is declared in
vk_enum_string_helper.h, which is not among the sources, and is a parameter. -/
def VK_CHECK (string_VkResult : VkResult → String) (result : VkResult)
    (function_call : String) : Except String Unit :=
  if result < 0 then
    error ("Vulkan: " ++ string_VkResult result ++ " returned by " ++ function_call)
  else Except.ok ()

/-- `VK_CHECK_RESULT(vk_result, error_message)`. -/
def VK_CHECK_RESULT (string_VkResult : VkResult → String) (vk_result : VkResult)
    (error_message : String) : Except String Unit :=
  if vk_result < 0 then
    error ("Vulkan error " ++ string_VkResult vk_result ++ ":  " ++ error_message)
  else Except.ok ()

/-! ## Teardown (main.cpp, lines 48-51 and 114-155) -/

abbrev VkRenderPass := Nat
abbrev VkFramebuffer := Nat

/-- The globals of main.cpp: `vulkanState`, `renderPass` and `framebuffers`. -/
structure Globals where
  vulkanState : VulkanState
  renderPass : VkRenderPass
  framebuffers : List VkFramebuffer
  deriving DecidableEq, Repr

/-- Modelled from the spec: the declaration of `SwapchainInfo` (swapchain_initialization.h)
is not among the sources; `SwapchainInfo()` is the value-initialised record, a null handle
and no images and image views. -/
def SwapchainInfo.default : SwapchainInfo :=
  { handle := VK_NULL_HANDLE, imageFormat := 0, images := [], imageViews := [] }

/-- The native calls of `CleanupVulkanResources`. -/
inductive CleanupCall where
  | vkDeviceWaitIdle (device : VkDevice) (result : VkResult)
  | vkDestroyFramebuffer (device : VkDevice) (framebuffer : VkFramebuffer)
  | vkDestroyImageView (device : VkDevice) (imageView : VkImageView)
  | vkDestroyRenderPass (device : VkDevice) (renderPass : VkRenderPass)
  | vkDestroySemaphore (device : VkDevice) (semaphore : VkSemaphore)
  | vkDestroyCommandPool (device : VkDevice) (commandPool : VkCommandPool)
  | vkDestroySwapchainKHR (device : VkDevice) (swapchain : VkSwapchainKHR)
  | vkDestroySurfaceKHR (vkInstance : VkInstance) (surface : VkSurfaceKHR)
  | vkDestroyDevice (device : VkDevice)
  | vkDestroyInstance (vkInstance : VkInstance)
  deriving DecidableEq, Repr

structure CleanupOutcome where
  result : Except String Unit
  globals : Globals
  calls : List CleanupCall

/-- `CleanupVulkanResources`. `vkDeviceWaitIdle` is the answer of the driver to the wait. -/
def CleanupVulkanResources (vkDeviceWaitIdle : VkDevice → VkResult) (globals : Globals) :
    CleanupOutcome :=
  let vulkanState := globals.vulkanState
  let waited := vkDeviceWaitIdle vulkanState.device
  let calls1 := [CleanupCall.vkDeviceWaitIdle vulkanState.device waited]
  match CheckVkResult waited "vkDeviceWaitIdle" with
  | Except.error message => { result := Except.error message, globals := globals, calls := calls1 }
  | Except.ok _ =>
    let calls2 := calls1 ++
      globals.framebuffers.map (CleanupCall.vkDestroyFramebuffer vulkanState.device)
    let calls3 := calls2 ++
      vulkanState.swapchainInfo.imageViews.map (CleanupCall.vkDestroyImageView vulkanState.device)
    let calls4 := calls3 ++
      [CleanupCall.vkDestroyRenderPass vulkanState.device globals.renderPass,
       CleanupCall.vkDestroySemaphore vulkanState.device vulkanState.imageAvailableSemaphore,
       CleanupCall.vkDestroySemaphore vulkanState.device vulkanState.renderingFinishedSemaphore,
       CleanupCall.vkDestroyCommandPool vulkanState.device vulkanState.presentQueueCommandPool,
       CleanupCall.vkDestroySwapchainKHR vulkanState.device vulkanState.swapchainInfo.handle,
       CleanupCall.vkDestroySurfaceKHR vulkanState.vkInstance vulkanState.surface,
       CleanupCall.vkDestroyDevice vulkanState.device,
       CleanupCall.vkDestroyInstance vulkanState.vkInstance]
    { result := Except.ok ()
      globals :=
        { vulkanState := { vulkanState with
            vkInstance := VK_NULL_HANDLE
            device := VK_NULL_HANDLE
            surface := VK_NULL_HANDLE
            swapchainInfo := SwapchainInfo.default
            imageAvailableSemaphore := VK_NULL_HANDLE
            renderingFinishedSemaphore := VK_NULL_HANDLE
            presentQueueCommandPool := VK_NULL_HANDLE }
          renderPass := VK_NULL_HANDLE
          framebuffers := [] }
      calls := calls4 }

/-- In the list `calls` the call `b` occurs exactly once, and `a` occurs before it. -/
def comes_before {α : Type} (a b : α) (calls : List α) : Prop :=
  ∃ first last, calls = first ++ b :: last ∧ a ∈ first ∧ b ∉ first ∧ b ∉ last

def is_destroy_image_view : CleanupCall → Bool
  | CleanupCall.vkDestroyImageView _ _ => true
  | _ => false

def is_destroy_swapchain : CleanupCall → Bool
  | CleanupCall.vkDestroySwapchainKHR _ _ => true
  | _ => false

/-! ## Allocator teardown (vulkan_utilities.cpp, lines 22-28) -/

/-- `Device_Memory_Allocator::~Device_Memory_Allocator`: the calls it issues. -/
def Device_Memory_Allocator.destroy (self : Device_Memory_Allocator) : List MemoryCall :=
  self.device_local_chunks.map (MemoryCall.vkFreeMemory self.device) ++
    (if self.staging_chunk ≠ VK_NULL_HANDLE then
      [MemoryCall.vkFreeMemory self.device self.staging_chunk]
    else [])

/-- The staging chunks the allocator holds: the one in `staging_chunk`, when that is not
null. -/
def Device_Memory_Allocator.staging_chunks (self : Device_Memory_Allocator) :
    List VkDeviceMemory :=
  if self.staging_chunk ≠ VK_NULL_HANDLE then [self.staging_chunk] else []

/-- What the Vulkan specification promises of the answer of `vkAllocateMemory`, without
any promise on the handles being new: the result is `VK_SUCCESS` or an error code, and on
success the handle is not null. -/
def Driver.valid (driver : Driver) : Prop :=
  ∀ (history : List MemoryCall) (device : VkDevice) (size : VkDeviceSize) (index : Nat),
    ((driver.vkAllocateMemory history device size index).1 = VK_SUCCESS ∨
      (driver.vkAllocateMemory history device size index).1 < 0) ∧
    ((driver.vkAllocateMemory history device size index).1 = VK_SUCCESS →
      (driver.vkAllocateMemory history device size index).2 ≠ VK_NULL_HANDLE)

/-- No double free: every `vkFreeMemory` of the calls frees a handle that is live when it
is issued. -/
def frees_only_live (calls : List MemoryCall) : Prop :=
  ∀ (before : List MemoryCall) (device : VkDevice) (memory : VkDeviceMemory)
    (after : List MemoryCall),
    calls = before ++ MemoryCall.vkFreeMemory device memory :: after →
      memory ∈ live_memory before

/-- How often `vkAllocateMemory` returned the handle with success. -/
def times_allocated (memory : VkDeviceMemory) (calls : List MemoryCall) : Nat :=
  calls.countP fun call =>
    match call with
    | MemoryCall.vkAllocateMemory _ _ _ result allocated =>
      decide (result = VK_SUCCESS ∧ allocated = memory)
    | _ => false

/-- How often the handle was passed to `vkFreeMemory`. -/
def times_freed (memory : VkDeviceMemory) (calls : List MemoryCall) : Nat :=
  calls.countP fun call =>
    match call with
    | MemoryCall.vkFreeMemory _ freed => decide (freed = memory)
    | _ => false

/-- The live allocations are the device-local chunks and the staging chunk, and no call so
far freed a handle that was not live. -/
def Device_Memory_Allocator.accounts (self : Device_Memory_Allocator)
    (history : List MemoryCall) : Prop :=
  List.Perm (live_memory history) (self.device_local_chunks ++ self.staging_chunks) ∧
    frees_only_live history

/-- The bookkeeping of the staging chunk: without a chunk the recorded type index is -1;
with one, the calls so far hold the allocation that returned it, made with the recorded
size and type index, and no `vkFreeMemory` was issued since. -/
def Device_Memory_Allocator.records_staging (self : Device_Memory_Allocator)
    (history : List MemoryCall) : Prop :=
  (self.staging_chunk = VK_NULL_HANDLE → self.staging_memory_type_index = UINT32_MAX) ∧
  (self.staging_chunk ≠ VK_NULL_HANDLE →
    ∃ (earlier later : List MemoryCall) (result : VkResult),
      history = earlier ++
        MemoryCall.vkAllocateMemory self.device self.staging_chunk_size
          self.staging_memory_type_index result self.staging_chunk :: later ∧
      0 ≤ result ∧
      ∀ call ∈ later, ∀ device memory, call ≠ MemoryCall.vkFreeMemory device memory)

/-! ### The two branches of the upload, and the `memcpy` calls of the row loop -/

/-- The bulk branch (line 183). -/
def create_staging_texture_bulk (image_width image_height bytes_per_pixel : Int)
    (pixels : PixelBuffer) (data : MappedMemory) : MappedMemory :=
  let bytes_per_row := wrap_int (image_width * bytes_per_pixel)
  memcpy data 0 pixels 0 (to_uint64 (wrap_int (bytes_per_row * image_height)))

/-- The row-by-row branch (lines 185-188). -/
def create_staging_texture_rows (image_width image_height bytes_per_pixel : Int)
    (rowPitch : Nat) (pixels : PixelBuffer) (data : MappedMemory) : MappedMemory :=
  let bytes_per_row := wrap_int (image_width * bytes_per_pixel)
  copy_rows rowPitch bytes_per_row pixels image_height.toNat 0 data

/-- The arguments of one `memcpy` call: offset into the mapped memory, offset into the
source buffer, byte count. -/
structure MemcpyCall where
  dst : Nat
  src : Int
  count : Nat
  deriving DecidableEq, Repr

/-- The `memcpy` calls of the row loop, in order. The source index `i * bytes_per_row` is
an `int` product: the offset given here is the one of the source while the product stays
within `int`; beyond that the source leaves its value open. -/
def copy_rows_calls (rowPitch : Nat) (bytes_per_row : Int) : Nat → Int → List MemcpyCall
  | 0, _ => []
  | remaining + 1, i =>
    { dst := (to_uint64 i * rowPitch) % 2 ^ 64
      src := wrap_int (i * bytes_per_row)
      count := to_uint64 bytes_per_row } ::
      copy_rows_calls rowPitch bytes_per_row remaining (i + 1)

def window_width : Nat := 640
def window_height : Nat := 480

def VK_COMMAND_BUFFER_USAGE_SIMULTANEOUS_USE_BIT : Nat := 0x00000004
def VK_ACCESS_TRANSFER_WRITE_BIT : Nat := 0x00001000
def VK_ACCESS_MEMORY_READ_BIT : Nat := 0x00008000
def VK_IMAGE_LAYOUT_UNDEFINED : Nat := 0
def VK_IMAGE_LAYOUT_TRANSFER_DST_OPTIMAL : Nat := 7
def VK_IMAGE_LAYOUT_PRESENT_SRC_KHR : Nat := 1000001002
def VK_PIPELINE_STAGE_BOTTOM_OF_PIPE_BIT : Nat := 0x00002000

/-- `std::vector::resize(count)` on a vector of handles; new elements are null. -/
def vector_resize (vector : List Nat) (count : Nat) : List Nat :=
  vector.take count ++ List.replicate (count - vector.length) VK_NULL_HANDLE

/-- The fields of `VkFramebufferCreateInfo` main.cpp sets. `pAttachments` is the address
of `imageViews[i]`: what is stored there, `none` when the index is outside the vector. -/
structure VkFramebufferCreateInfo where
  renderPass : VkRenderPass
  attachmentCount : Nat
  pAttachments : List (Option VkImageView)
  width : Nat
  height : Nat
  layers : Nat
  deriving DecidableEq, Repr

structure VkImageMemoryBarrier where
  srcAccessMask : Nat
  dstAccessMask : Nat
  oldLayout : Nat
  newLayout : Nat
  image : VkImage
  deriving DecidableEq, Repr

/-- The native calls of lines 274-396 of `main`. -/
inductive InitCall where
  | vkCreateFramebuffer (device : VkDevice) (createInfo : VkFramebufferCreateInfo)
      (result : VkResult) (framebuffer : VkFramebuffer)
  | vkCreateSemaphore (device : VkDevice) (result : VkResult) (semaphore : VkSemaphore)
  | vkCreateCommandPool (device : VkDevice) (queueFamilyIndex : Nat) (result : VkResult)
      (commandPool : VkCommandPool)
  | vkAllocateCommandBuffers (device : VkDevice) (commandPool : VkCommandPool) (level : Nat)
      (commandBufferCount : Nat) (result : VkResult) (commandBuffers : List VkCommandBuffer)
  | vkBeginCommandBuffer (commandBuffer : VkCommandBuffer) (flags : Nat) (result : VkResult)
  | vkCmdPipelineBarrier (commandBuffer : VkCommandBuffer) (srcStageMask dstStageMask : Nat)
      (barrier : VkImageMemoryBarrier)
  | vkCmdClearColorImage (commandBuffer : VkCommandBuffer) (image : VkImage)
      (imageLayout : Nat)
  | vkEndCommandBuffer (commandBuffer : VkCommandBuffer) (result : VkResult)
  deriving DecidableEq, Repr

/-- The answers of the driver: to the `vkCreateFramebuffer`, `vkBeginCommandBuffer` and
`vkEndCommandBuffer` call of pass `i` of a loop, to the first (0) and the second (1)
`vkCreateSemaphore`, to `vkCreateCommandPool`, and to the one `vkAllocateCommandBuffers`
(the result and the handle written to each element of the array). -/
structure InitDriver where
  vkCreateFramebuffer : Nat → VkResult × VkFramebuffer
  vkCreateSemaphore : Nat → VkResult × VkSemaphore
  vkCreateCommandPool : VkResult × VkCommandPool
  vkAllocateCommandBuffers : VkResult × (Nat → VkCommandBuffer)
  vkBeginCommandBuffer : Nat → VkResult
  vkEndCommandBuffer : Nat → VkResult

structure InitOutcome where
  result : Except String Unit
  globals : Globals
  calls : List InitCall

/-- The loop of lines 275-290: `remaining` passes are left and the loop variable is `i`. -/
def create_framebuffers_loop (driver : InitDriver) :
    Nat → Nat → Globals → InitOutcome
  | 0, _, globals => { result := Except.ok (), globals := globals, calls := [] }
  | remaining + 1, i, globals =>
    let framebufferCreateInfo : VkFramebufferCreateInfo :=
      { renderPass := globals.renderPass
        attachmentCount := 1
        pAttachments := [globals.vulkanState.swapchainInfo.imageViews[i]?]
        width := window_width
        height := window_height
        layers := 1 }
    let answer := driver.vkCreateFramebuffer i
    let call := InitCall.vkCreateFramebuffer globals.vulkanState.device framebufferCreateInfo
      answer.1 answer.2
    let created := { globals with framebuffers := globals.framebuffers.set i answer.2 }
    match CheckVkResult answer.1 "vkCreateFramebuffer" with
    | Except.error message => { result := Except.error message, globals := created, calls := [call] }
    | Except.ok _ =>
      let rest := create_framebuffers_loop driver remaining (i + 1) created
      { result := rest.result, globals := rest.globals, calls := call :: rest.calls }

/-- Lines 270 and 274-290 of `main`: the framebuffers, one for each swapchain image. The
render pass is the one `CreateRenderPass` stored in `renderPass` (line 272). -/
def main_create_framebuffers (driver : InitDriver) (globals : Globals) : InitOutcome :=
  let imagesCount := globals.vulkanState.swapchainInfo.images.length % 2 ^ 32
  create_framebuffers_loop driver imagesCount 0
    { globals with framebuffers := vector_resize globals.framebuffers imagesCount }

/-- Lines 292-310 of `main`: the two semaphores and the command pool of the present
queue. `presentationQueueFamilyIndex` is a local of `main` set before. -/
def main_create_semaphores_and_command_pool (driver : InitDriver)
    (presentationQueueFamilyIndex : Nat) (globals : Globals) : InitOutcome :=
  let first := driver.vkCreateSemaphore 0
  let call1 := InitCall.vkCreateSemaphore globals.vulkanState.device first.1 first.2
  let globals1 := { globals with vulkanState := { globals.vulkanState with
    imageAvailableSemaphore := first.2 } }
  match CheckVkResult first.1 "vkCreateSemaphore" with
  | Except.error message => { result := Except.error message, globals := globals1, calls := [call1] }
  | Except.ok _ =>
  let second := driver.vkCreateSemaphore 1
  let call2 := InitCall.vkCreateSemaphore globals1.vulkanState.device second.1 second.2
  let globals2 := { globals1 with vulkanState := { globals1.vulkanState with
    renderingFinishedSemaphore := second.2 } }
  match CheckVkResult second.1 "vkCreateSemaphore" with
  | Except.error message =>
    { result := Except.error message, globals := globals2, calls := [call1, call2] }
  | Except.ok _ =>
  let pool := driver.vkCreateCommandPool
  let call3 := InitCall.vkCreateCommandPool globals2.vulkanState.device
    presentationQueueFamilyIndex pool.1 pool.2
  let globals3 := { globals2 with vulkanState := { globals2.vulkanState with
    presentQueueCommandPool := pool.2 } }
  match CheckVkResult pool.1 "vkCreateCommandPool" with
  | Except.error message =>
    { result := Except.error message, globals := globals3, calls := [call1, call2, call3] }
  | Except.ok _ => { result := Except.ok (), globals := globals3, calls := [call1, call2, call3] }

/-- The calls of one pass of the loop of lines 339-396, but for the last. -/
def record_pass (vulkanState : VulkanState) (i : Nat) (begun : VkResult) : List InitCall :=
  let commandBuffer := vulkanState.presentQueueCommandBuffers.getD i VK_NULL_HANDLE
  let image := vulkanState.swapchainInfo.images.getD i VK_NULL_HANDLE
  let barrierFromPresentToClear : VkImageMemoryBarrier :=
    { srcAccessMask := 0
      dstAccessMask := VK_ACCESS_TRANSFER_WRITE_BIT
      oldLayout := VK_IMAGE_LAYOUT_UNDEFINED
      newLayout := VK_IMAGE_LAYOUT_TRANSFER_DST_OPTIMAL
      image := image }
  let barrierFromClearToPresent : VkImageMemoryBarrier :=
    { srcAccessMask := VK_ACCESS_TRANSFER_WRITE_BIT
      dstAccessMask := VK_ACCESS_MEMORY_READ_BIT
      oldLayout := VK_IMAGE_LAYOUT_TRANSFER_DST_OPTIMAL
      newLayout := VK_IMAGE_LAYOUT_PRESENT_SRC_KHR
      image := image }
  [InitCall.vkBeginCommandBuffer commandBuffer VK_COMMAND_BUFFER_USAGE_SIMULTANEOUS_USE_BIT
      begun,
    InitCall.vkCmdPipelineBarrier commandBuffer VK_PIPELINE_STAGE_TRANSFER_BIT
      VK_PIPELINE_STAGE_TRANSFER_BIT barrierFromPresentToClear,
    InitCall.vkCmdClearColorImage commandBuffer image VK_IMAGE_LAYOUT_TRANSFER_DST_OPTIMAL,
    InitCall.vkCmdPipelineBarrier commandBuffer VK_PIPELINE_STAGE_TRANSFER_BIT
      VK_PIPELINE_STAGE_BOTTOM_OF_PIPE_BIT barrierFromClearToPresent]

/-- The loop of lines 339-396. In it `i` is below the size of `images` and of
`presentQueueCommandBuffers`, so the elements read exist. The result of
`vkBeginCommandBuffer` is not checked. -/
def record_command_buffers_loop (driver : InitDriver) (vulkanState : VulkanState) :
    Nat → Nat → Except String Unit × List InitCall
  | 0, _ => (Except.ok (), [])
  | remaining + 1, i =>
    let commandBuffer := vulkanState.presentQueueCommandBuffers.getD i VK_NULL_HANDLE
    let ended := driver.vkEndCommandBuffer i
    let calls := record_pass vulkanState i (driver.vkBeginCommandBuffer i) ++
      [InitCall.vkEndCommandBuffer commandBuffer ended]
    match CheckVkResult ended "vkEndCommandBuffer" with
    | Except.error message => (Except.error message, calls)
    | Except.ok _ =>
      let rest := record_command_buffers_loop driver vulkanState remaining (i + 1)
      (rest.1, calls ++ rest.2)

/-- Lines 312-396 of `main`: the command buffers, one for each swapchain image.
`vkAllocateCommandBuffers` writes `commandBufferCount` handles to the array of the resized
vector, from its first element on. -/
def main_record_command_buffers (driver : InitDriver) (globals : Globals) : InitOutcome :=
  let imagesCount := globals.vulkanState.swapchainInfo.images.length % 2 ^ 32
  let resized := vector_resize globals.vulkanState.presentQueueCommandBuffers imagesCount
  let answer := driver.vkAllocateCommandBuffers
  let written := (List.range imagesCount).map answer.2 ++ resized.drop imagesCount
  let call := InitCall.vkAllocateCommandBuffers globals.vulkanState.device
    globals.vulkanState.presentQueueCommandPool VK_COMMAND_BUFFER_LEVEL_PRIMARY imagesCount
    answer.1 written
  let allocated :=
    { globals with vulkanState := { globals.vulkanState with
        presentQueueCommandBuffers := written } }
  match CheckVkResult answer.1 "vkAllocateCommandBuffers" with
  | Except.error message => { result := Except.error message, globals := allocated, calls := [call] }
  | Except.ok _ =>
    let recorded := record_command_buffers_loop driver allocated.vulkanState imagesCount 0
    { result := recorded.1, globals := allocated, calls := call :: recorded.2 }

/-- Lines 270 and 274-396 of `main`, from the swapchain to the main loop. -/
def main_per_image_resources (driver : InitDriver) (presentationQueueFamilyIndex : Nat)
    (globals : Globals) : InitOutcome :=
  let created := main_create_framebuffers driver globals
  match created.result with
  | Except.error message =>
    { result := Except.error message, globals := created.globals, calls := created.calls }
  | Except.ok _ =>
  let pooled := main_create_semaphores_and_command_pool driver presentationQueueFamilyIndex
    created.globals
  match pooled.result with
  | Except.error message =>
    { result := Except.error message, globals := pooled.globals,
      calls := created.calls ++ pooled.calls }
  | Except.ok _ =>
  let recorded := main_record_command_buffers driver pooled.globals
  { result := recorded.result, globals := recorded.globals,
    calls := created.calls ++ pooled.calls ++ recorded.calls }

/-! ## Descriptor sets of Copy_To_Swapchain (copy_to_swapchain.cpp, lines 78-102) -/

abbrev VkDescriptorSet := Nat
abbrev VkDescriptorPool := Nat
abbrev VkDescriptorSetLayout := Nat
abbrev VkPipelineLayout := Nat
abbrev VkPipeline := Nat
abbrev VkSampler := Nat

def VK_IMAGE_LAYOUT_SHADER_READ_ONLY_OPTIMAL : Nat := 5

/-- `Swapchain_Info` of vk.h (lines 85-89). -/
structure Swapchain_Info where
  handle : VkSwapchainKHR
  images : List VkImage
  image_views : List VkImageView
  deriving DecidableEq, Repr

/-- Modelled from the spec: the members of the global `vk` that
`update_resolution_dependent_descriptors` uses. `device` and `swapchain_info` are members
of `Vk_Instance` in vk.h; the declaration of `descriptor_pool` is not among the
sources. -/
structure Vk_Instance where
  device : VkDevice
  descriptor_pool : VkDescriptorPool
  swapchain_info : Swapchain_Info
  deriving DecidableEq, Repr

/-- Modelled from the spec: copy_to_swapchain.h is not among the sources; these are the
members copy_to_swapchain.cpp uses, `sets` being a vector of descriptor sets. -/
structure Copy_To_Swapchain where
  set_layout : VkDescriptorSetLayout
  pipeline_layout : VkPipelineLayout
  pipeline : VkPipeline
  point_sampler : VkSampler
  sets : List VkDescriptorSet
  deriving DecidableEq, Repr

/-- One method call on a `Descriptor_Writes` object. The image view of `storage_image` is
read from `image_views[i]`: `none` when the index is outside the vector. -/
inductive Descriptor_Write where
  | sampler (binding : Nat) (sampler : VkSampler)
  | sampled_image (binding : Nat) (image_view : VkImageView) (layout : Nat)
  | storage_image (binding : Nat) (image_view : Option VkImageView)
  deriving DecidableEq, Repr

/-- The calls of `update_resolution_dependent_descriptors`. `Descriptor_Writes` (utils.h,
not among the sources) is kept as the statement the source has: the descriptor set the
object is built on, `none` when it is read from outside `sets`, and the chain of method
calls. -/
inductive DescriptorCall where
  | vkAllocateDescriptorSets (device : VkDevice) (descriptorPool : VkDescriptorPool)
      (descriptorSetCount : Nat) (pSetLayouts : List VkDescriptorSetLayout)
      (result : VkResult) (set : VkDescriptorSet)
  | Descriptor_Writes (set : Option VkDescriptorSet) (writes : List Descriptor_Write)
  deriving DecidableEq, Repr

structure DescriptorOutcome where
  result : Except String Unit
  self : Copy_To_Swapchain
  calls : List DescriptorCall

/-- Subtraction of two `size_t` values. -/
def size_t_sub (a b : Nat) : Nat := (a + 2 ^ 64 - b % 2 ^ 64) % 2 ^ 64

/-- The loop of lines 82-93: `remaining` passes are left and the loop variable is `i`.
`vkAllocateDescriptorSets i` is the answer of the driver to the call of pass `i`. -/
def allocate_sets_loop (string_VkResult : VkResult → String)
    (vkAllocateDescriptorSets : Nat → VkResult × VkDescriptorSet) (vk : Vk_Instance) :
    Nat → Nat → Copy_To_Swapchain → DescriptorOutcome
  | 0, _, self => { result := Except.ok (), self := self, calls := [] }
  | remaining + 1, i, self =>
    let answer := vkAllocateDescriptorSets i
    let set := answer.2
    let call := DescriptorCall.vkAllocateDescriptorSets vk.device vk.descriptor_pool 1
      [self.set_layout] answer.1 set
    match VK_CHECK string_VkResult answer.1
        "vkAllocateDescriptorSets(vk.device, &alloc_info, &set)" with
    | Except.error message => { result := Except.error message, self := self, calls := [call] }
    | Except.ok _ =>
      let pushed := { self with sets := self.sets ++ [set] }
      let rest := allocate_sets_loop string_VkResult vkAllocateDescriptorSets vk remaining
        (i + 1) pushed
      { result := rest.result, self := rest.self,
        calls := call ::
          DescriptorCall.Descriptor_Writes (some set)
            [Descriptor_Write.sampler 0 pushed.point_sampler] :: rest.calls }

/-- The loop of lines 97-101: one `Descriptor_Writes` on `sets[i]` for each swapchain
image. -/
def write_sets (vk : Vk_Instance) (self : Copy_To_Swapchain) (output_image_view : VkImageView) :
    List DescriptorCall :=
  (List.range vk.swapchain_info.images.length).map (fun i =>
    DescriptorCall.Descriptor_Writes self.sets[i]?
      [Descriptor_Write.sampled_image 1 output_image_view
        VK_IMAGE_LAYOUT_SHADER_READ_ONLY_OPTIMAL,
       Descriptor_Write.storage_image 2 vk.swapchain_info.image_views[i]?])

/-- `Copy_To_Swapchain::update_resolution_dependent_descriptors`. -/
def Copy_To_Swapchain.update_resolution_dependent_descriptors
    (string_VkResult : VkResult → String)
    (vkAllocateDescriptorSets : Nat → VkResult × VkDescriptorSet) (vk : Vk_Instance)
    (self : Copy_To_Swapchain) (output_image_view : VkImageView) : DescriptorOutcome :=
  let allocated : DescriptorOutcome :=
    if self.sets.length < vk.swapchain_info.images.length then
      let n := size_t_sub vk.swapchain_info.images.length self.sets.length
      allocate_sets_loop string_VkResult vkAllocateDescriptorSets vk n 0 self
    else { result := Except.ok (), self := self, calls := [] }
  match allocated.result with
  | Except.error message =>
    { result := Except.error message, self := allocated.self, calls := allocated.calls }
  | Except.ok _ =>
    { result := Except.ok (), self := allocated.self,
      calls := allocated.calls ++ write_sets vk allocated.self output_image_view }


/-! ## Concrete inputs -/

/-- A table of three memory types: device-local, host-visible and host-coherent, and all
three properties. -/
def sample_memory_properties : VkPhysicalDeviceMemoryProperties :=
  { memoryTypeCount := 3
    memoryTypes := fun i =>
      if i = 0 then { propertyFlags := 1, heapIndex := 0 }
      else if i = 1 then { propertyFlags := 6, heapIndex := 1 }
      else { propertyFlags := 7, heapIndex := 1 } }

/-- The largest handle that occurs in a list of calls. -/
def largest_handle : List MemoryCall → Nat
  | [] => 0
  | MemoryCall.vkFreeMemory _ memory :: calls => max memory (largest_handle calls)
  | MemoryCall.vkAllocateMemory _ _ _ _ memory :: calls => max memory (largest_handle calls)

/-- A driver whose allocations all succeed, each with a handle larger than every handle
seen before. -/
def sample_driver : Driver :=
  { vkGetPhysicalDeviceMemoryProperties := fun _ => sample_memory_properties
    vkAllocateMemory := fun history _ _ _ => (VK_SUCCESS, largest_handle history + 1) }

/-- A table in which no type is host-visible. -/
def device_only_memory_properties : VkPhysicalDeviceMemoryProperties :=
  { memoryTypeCount := 2
    memoryTypes := fun _ => { propertyFlags := 1, heapIndex := 0 } }

def device_only_driver : Driver :=
  { vkGetPhysicalDeviceMemoryProperties := fun _ => device_only_memory_properties
    vkAllocateMemory := fun history _ _ _ => (VK_SUCCESS, largest_handle history + 1) }

def sample_allocator : Device_Memory_Allocator :=
  Device_Memory_Allocator.construct 1 1

/-- An allocator that holds staging chunk 5, of 64 bytes and of memory type 2. -/
def holding_allocator : Device_Memory_Allocator :=
  { physical_device := 1
    device := 1
    device_local_chunks := []
    staging_chunk := 5
    staging_chunk_size := 64
    staging_memory_type_index := 2 }

/-- Two device-local requests interleaved with two staging requests, the second of which
outgrows the staging chunk. -/
def sample_requests : List Request :=
  [Request.device_local { size := 32, alignment := 1, memoryTypeBits := 1 },
   Request.staging { size := 16, alignment := 1, memoryTypeBits := 6 },
   Request.device_local { size := 8, alignment := 1, memoryTypeBits := 5 },
   Request.staging { size := 64, alignment := 1, memoryTypeBits := 6 }]

/-- A driver of the command runner whose calls all succeed; it hands out the command
buffer 9. -/
def sample_runner_driver : RunnerDriver String :=
  { vkAllocateCommandBuffers := fun _ _ _ _ _ => (VK_SUCCESS, 9)
    vkBeginCommandBuffer := fun _ _ _ => VK_SUCCESS
    vkEndCommandBuffer := fun _ _ => VK_SUCCESS
    vkQueueSubmit := fun _ _ _ _ _ => VK_SUCCESS
    vkQueueWaitIdle := fun _ _ => VK_SUCCESS }

/-- A driver of the frame cycle whose calls all succeed; the images are acquired in
turn, three of them. -/
def sample_frame_driver : FrameDriver :=
  { vkAcquireNextImageKHR := fun calls _ _ _ _ _ => (VK_SUCCESS, List.countP is_acquire calls % 3)
    vkQueueSubmit := fun _ _ _ _ _ => VK_SUCCESS
    vkQueuePresentKHR := fun _ _ _ => VK_SUCCESS }

/-- A state with a swapchain of three images and one command buffer for each. -/
def sample_state : VulkanState :=
  { vkInstance := 1
    device := 2
    graphicsQueue := 3
    presentQueue := 4
    surface := 5
    swapchainInfo := { handle := 6, imageFormat := 44, images := [10, 11, 12],
                       imageViews := [20, 21, 22] }
    imageAvailableSemaphore := 7
    renderingFinishedSemaphore := 8
    presentQueueCommandPool := 9
    presentQueueCommandBuffers := [30, 31, 32] }

/-- A driver whose third acquire reports that the swapchain is out of date; every other
call succeeds. -/
def stale_frame_driver : FrameDriver :=
  { vkAcquireNextImageKHR := fun calls _ _ _ _ _ =>
      (if List.countP is_acquire calls = 2 then VK_ERROR_OUT_OF_DATE_KHR else VK_SUCCESS,
        List.countP is_acquire calls % 3)
    vkQueueSubmit := fun _ _ _ _ _ => VK_SUCCESS
    vkQueuePresentKHR := fun _ _ _ => VK_SUCCESS }

/-- The claim of recoverable staleness, in the words of the spec, on the outcome of a run:
the swapchain is rebuilt exactly once and the process is not terminated. -/
def recovers_from_staleness (outcome : LoopOutcome) : Prop :=
  List.countP is_rebuild outcome.calls = 1 ∧
    ∃ status : LoopStatus, outcome.result = Except.ok status

/-- A source buffer in which every byte is 255. -/
def white_pixels : PixelBuffer := fun _ => 255

/-- Mapped memory in which every byte is 0. -/
def zeroed_memory : MappedMemory := fun _ => 0

/-- A source buffer whose byte at offset `n` is `n` modulo 256. -/
def counting_pixels : PixelBuffer := fun offset => UInt8.ofNat offset.toNat

/-- A few names of `string_VkResult`. -/
def sample_string_VkResult (result : VkResult) : String :=
  if result = 0 then "VK_SUCCESS"
  else if result = -4 then "VK_ERROR_DEVICE_LOST"
  else if result = -1000001004 then "VK_ERROR_OUT_OF_DATE_KHR"
  else if result = 1000001003 then "VK_SUBOPTIMAL_KHR"
  else "Unhandled VkResult"

/-- Globals with two framebuffers and a swapchain of two image views. -/
def sample_globals : Globals :=
  { vulkanState :=
      { vkInstance := 1
        device := 2
        graphicsQueue := 3
        presentQueue := 4
        surface := 5
        swapchainInfo := { handle := 6, imageFormat := 44, images := [10, 11],
                           imageViews := [20, 21] }
        imageAvailableSemaphore := 7
        renderingFinishedSemaphore := 8
        presentQueueCommandPool := 9
        presentQueueCommandBuffers := [30, 31] }
    renderPass := 40
    framebuffers := [50, 51] }

/-- Globals as `CreateSwapchain` leaves them: a swapchain of two images, no framebuffer,
no semaphore, no command pool and no command buffer yet. -/
def swapchain_globals : Globals :=
  { vulkanState :=
      { vkInstance := 1
        device := 2
        graphicsQueue := 3
        presentQueue := 4
        surface := 5
        swapchainInfo := { handle := 6, imageFormat := 44, images := [10, 11],
                           imageViews := [20, 21] }
        imageAvailableSemaphore := VK_NULL_HANDLE
        renderingFinishedSemaphore := VK_NULL_HANDLE
        presentQueueCommandPool := VK_NULL_HANDLE
        presentQueueCommandBuffers := [] }
    renderPass := 40
    framebuffers := [] }

/-- A driver every call of which succeeds; framebuffers are 50, 51, ..., semaphores 7 and
8, the command pool 9 and the command buffers 30, 31, .... -/
def sample_init_driver : InitDriver :=
  { vkCreateFramebuffer := fun i => (VK_SUCCESS, 50 + i)
    vkCreateSemaphore := fun k => (VK_SUCCESS, 7 + k)
    vkCreateCommandPool := (VK_SUCCESS, 9)
    vkAllocateCommandBuffers := (VK_SUCCESS, fun i => 30 + i)
    vkBeginCommandBuffer := fun _ => VK_SUCCESS
    vkEndCommandBuffer := fun _ => VK_SUCCESS }


/-- A `vk` with a swapchain of three images and their views. -/
def sample_vk : Vk_Instance :=
  { device := 2
    descriptor_pool := 60
    swapchain_info := { handle := 6, images := [10, 11, 12], image_views := [20, 21, 22] } }

/-- A `Copy_To_Swapchain` that holds one descriptor set. -/
def sample_copy_to_swapchain : Copy_To_Swapchain :=
  { set_layout := 61, pipeline_layout := 62, pipeline := 63, point_sampler := 64, sets := [70] }

/-- A driver every allocation of which succeeds, with sets 71, 72, .... -/
def sample_vkAllocateDescriptorSets (i : Nat) : VkResult × VkDescriptorSet :=
  (VK_SUCCESS, 71 + i)


/-! ## Lemmas on bit masks and memory-type selection -/

theorem and_two_pow_ne_zero_iff (bits i : Nat) :
    bits &&& 2 ^ i ≠ 0 ↔ bits.testBit i = true := by
  constructor
  · intro h
    by_contra hbit
    apply h
    apply Nat.eq_of_testBit_eq
    intro j
    simp only [Nat.testBit_and, Nat.testBit_two_pow, Nat.zero_testBit]
    by_cases hij : i = j
    · subst hij
      simp [hbit]
    · simp [hij]
  · intro hbit h
    have h1 : (bits &&& 2 ^ i).testBit i = true := by
      simp [Nat.testBit_and, Nat.testBit_two_pow, hbit]
    rw [h] at h1
    simp at h1

theorem mask_test_iff (bits i : Nat) (h : i < 32 ∨ bits < 2 ^ 32) :
    bits &&& ((1 <<< i) % 2 ^ 32) ≠ 0 ↔ bits.testBit i = true := by
  rw [Nat.one_shiftLeft]
  by_cases hi : i < 32
  · have hlt : 2 ^ i < 2 ^ 32 := Nat.pow_lt_pow_right (by norm_num) hi
    rw [Nat.mod_eq_of_lt hlt]
    exact and_two_pow_ne_zero_iff bits i
  · have hbits : bits < 2 ^ 32 := by
      rcases h with h | h
      · exact absurd h hi
      · exact h
    have hdvd : 2 ^ 32 ∣ 2 ^ i := Nat.pow_dvd_pow 2 (by omega)
    have hfalse : bits.testBit i = false :=
      Nat.testBit_lt_two_pow (lt_of_lt_of_le hbits (Nat.pow_le_pow_right (by norm_num) (by omega)))
    rw [Nat.mod_eq_zero_of_dvd hdvd, hfalse]
    simp

theorem flags_superset_iff (flags properties : Nat) :
    flags &&& properties = properties ↔
      ∀ b, properties.testBit b = true → flags.testBit b = true := by
  constructor
  · intro h b hb
    rw [← h, Nat.testBit_and] at hb
    simp only [Bool.and_eq_true] at hb
    exact hb.1
  · intro h
    apply Nat.eq_of_testBit_eq
    intro b
    rw [Nat.testBit_and]
    cases hp : properties.testBit b
    · simp
    · simp [h b hp]

theorem flags_superset_left (flags p q : Nat) (h : flags &&& (p ||| q) = p ||| q) :
    flags &&& p = p := by
  rw [flags_superset_iff] at h ⊢
  intro b hb
  apply h
  rw [Nat.testBit_or, hb]
  rfl

theorem flags_superset_right (flags p q : Nat) (h : flags &&& (p ||| q) = p ||| q) :
    flags &&& q = q := by
  rw [flags_superset_iff] at h ⊢
  intro b hb
  apply h
  rw [Nat.testBit_or, hb]
  simp

/-- The test of the loop body, in words: bit `i` of the mask is set and the flags of type
`i` contain the requested properties. -/
theorem memory_type_matches_iff (memory_properties : VkPhysicalDeviceMemoryProperties)
    (memory_type_bits properties i : Nat) (h : i < 32 ∨ memory_type_bits < 2 ^ 32) :
    memory_type_matches memory_properties memory_type_bits properties i = true ↔
      memory_type_bits.testBit i = true ∧
        (memory_properties.memoryTypes i).propertyFlags &&& properties = properties := by
  unfold memory_type_matches
  rw [Bool.and_eq_true, bne_iff_ne, beq_iff_eq, mask_test_iff memory_type_bits i h]

theorem find_memory_type_loop_some (memory_properties : VkPhysicalDeviceMemoryProperties)
    (memory_type_bits properties : Nat) (remaining i found : Nat) :
    find_memory_type_loop memory_properties memory_type_bits properties remaining i = some found ↔
      i ≤ found ∧ found < i + remaining ∧
        memory_type_matches memory_properties memory_type_bits properties found = true ∧
        ∀ j, i ≤ j → j < found →
          memory_type_matches memory_properties memory_type_bits properties j = false := by
  induction remaining generalizing i with
  | zero =>
    simp only [find_memory_type_loop]
    constructor
    · intro h
      cases h
    · rintro ⟨h1, h2, _⟩
      omega
  | succ n ih =>
    simp only [find_memory_type_loop]
    by_cases hm : memory_type_matches memory_properties memory_type_bits properties i = true
    · rw [if_pos hm]
      constructor
      · intro h
        cases h
        refine ⟨le_refl _, by omega, hm, ?_⟩
        intro j h1 h2
        omega
      · rintro ⟨h1, _, _, h4⟩
        by_cases hlt : i < found
        · have := h4 i (le_refl _) hlt
          rw [hm] at this
          cases this
        · congr 1
          omega
    · rw [if_neg hm, ih (i + 1)]
      have hm2 : memory_type_matches memory_properties memory_type_bits properties i = false := by
        simpa using hm
      constructor
      · rintro ⟨h1, h2, h3, h4⟩
        refine ⟨by omega, by omega, h3, ?_⟩
        intro j hj1 hj2
        by_cases hji : j = i
        · rw [hji]
          exact hm2
        · exact h4 j (by omega) hj2
      · rintro ⟨h1, h2, h3, h4⟩
        have hne : i ≠ found := by
          intro heq
          rw [heq] at hm2
          rw [hm2] at h3
          cases h3
        refine ⟨by omega, by omega, h3, ?_⟩
        intro j hj1 hj2
        exact h4 j (by omega) hj2

theorem find_memory_type_loop_none (memory_properties : VkPhysicalDeviceMemoryProperties)
    (memory_type_bits properties : Nat) (remaining i : Nat) :
    find_memory_type_loop memory_properties memory_type_bits properties remaining i = none ↔
      ∀ j, i ≤ j → j < i + remaining →
        memory_type_matches memory_properties memory_type_bits properties j = false := by
  induction remaining generalizing i with
  | zero =>
    simp only [find_memory_type_loop]
    constructor
    · intro _ j h1 h2
      omega
    · intro _
      trivial
  | succ n ih =>
    simp only [find_memory_type_loop]
    by_cases hm : memory_type_matches memory_properties memory_type_bits properties i = true
    · rw [if_pos hm]
      constructor
      · intro h
        cases h
      · intro h
        have := h i (le_refl _) (by omega)
        rw [hm] at this
        cases this
    · rw [if_neg hm, ih (i + 1)]
      have hm2 : memory_type_matches memory_properties memory_type_bits properties i = false := by
        simpa using hm
      constructor
      · intro h j hj1 hj2
        by_cases hji : j = i
        · rw [hji]
          exact hm2
        · exact h j (by omega) (by omega)
      · intro h j hj1 hj2
        exact h j (by omega) (by omega)

theorem find_memory_type_ok_iff (memory_properties : VkPhysicalDeviceMemoryProperties)
    (memory_type_bits properties found : Nat) :
    find_memory_type_with_properties memory_properties memory_type_bits properties =
        Except.ok found ↔
      find_memory_type_loop memory_properties memory_type_bits properties
        memory_properties.memoryTypeCount 0 = some found := by
  unfold find_memory_type_with_properties
  cases hloop : find_memory_type_loop memory_properties memory_type_bits properties
      memory_properties.memoryTypeCount 0 with
  | none => simp [error]
  | some i => simp

theorem find_memory_type_error_iff (memory_properties : VkPhysicalDeviceMemoryProperties)
    (memory_type_bits properties : Nat) :
    (∃ message, find_memory_type_with_properties memory_properties memory_type_bits properties =
        Except.error message) ↔
      find_memory_type_loop memory_properties memory_type_bits properties
        memory_properties.memoryTypeCount 0 = none := by
  unfold find_memory_type_with_properties
  cases hloop : find_memory_type_loop memory_properties memory_type_bits properties
      memory_properties.memoryTypeCount 0 with
  | none => simp [error]
  | some i => simp

/-! ## The allocator, one request at a time -/

theorem allocate_staging_memory_fatal (driver : Driver) (history : List MemoryCall)
    (self : Device_Memory_Allocator) (memory_requirements : VkMemoryRequirements)
    (message : String)
    (h : find_memory_type_with_properties
      (driver.vkGetPhysicalDeviceMemoryProperties self.physical_device)
      memory_requirements.memoryTypeBits
      (VK_MEMORY_PROPERTY_HOST_VISIBLE_BIT ||| VK_MEMORY_PROPERTY_HOST_COHERENT_BIT) =
        Except.error message) :
    allocate_staging_memory driver history self memory_requirements =
      { result := Except.error message, allocator := self, calls := [] } := by
  simp only [allocate_staging_memory, h]

theorem allocate_device_local_memory_fatal (driver : Driver) (history : List MemoryCall)
    (self : Device_Memory_Allocator) (memory_requirements : VkMemoryRequirements)
    (message : String)
    (h : find_memory_type_with_properties
      (driver.vkGetPhysicalDeviceMemoryProperties self.physical_device)
      memory_requirements.memoryTypeBits VK_MEMORY_PROPERTY_DEVICE_LOCAL_BIT =
        Except.error message) :
    allocate_device_local_memory driver history self memory_requirements =
      { result := Except.error message, allocator := self, calls := [] } := by
  simp only [allocate_device_local_memory, h]

theorem allocate_staging_memory_reuse (driver : Driver) (history : List MemoryCall)
    (self : Device_Memory_Allocator) (memory_requirements : VkMemoryRequirements)
    (memory_type_index : Nat)
    (h : find_memory_type_with_properties
      (driver.vkGetPhysicalDeviceMemoryProperties self.physical_device)
      memory_requirements.memoryTypeBits
      (VK_MEMORY_PROPERTY_HOST_VISIBLE_BIT ||| VK_MEMORY_PROPERTY_HOST_COHERENT_BIT) =
        Except.ok memory_type_index)
    (hsize : memory_requirements.size ≤ self.staging_chunk_size)
    (htype : self.staging_memory_type_index = memory_type_index) :
    allocate_staging_memory driver history self memory_requirements =
      { result := Except.ok self.staging_chunk, allocator := self, calls := [] } := by
  have hcond : ¬ (self.staging_chunk_size < memory_requirements.size ∨
      self.staging_memory_type_index ≠ memory_type_index) := by
    rintro (h1 | h1)
    · exact absurd hsize (Nat.not_le.mpr h1)
    · exact h1 htype
  simp only [allocate_staging_memory, h, if_neg hcond]

theorem check_vk_result_success (function_name : String) :
    check_vk_result VK_SUCCESS function_name = Except.ok () := by
  simp [check_vk_result, VK_SUCCESS]

theorem check_vk_result_ok_iff (result : VkResult) (function_name : String) :
    check_vk_result result function_name = Except.ok () ↔ 0 ≤ result := by
  unfold check_vk_result error
  by_cases h : result < 0
  · simp [h]
  · simp [h]
    exact not_lt.mp h

theorem allocate_staging_memory_replace (driver : Driver) (history : List MemoryCall)
    (self : Device_Memory_Allocator) (memory_requirements : VkMemoryRequirements)
    (memory_type_index : Nat)
    (h : find_memory_type_with_properties
      (driver.vkGetPhysicalDeviceMemoryProperties self.physical_device)
      memory_requirements.memoryTypeBits
      (VK_MEMORY_PROPERTY_HOST_VISIBLE_BIT ||| VK_MEMORY_PROPERTY_HOST_COHERENT_BIT) =
        Except.ok memory_type_index)
    (hcond : self.staging_chunk_size < memory_requirements.size ∨
      self.staging_memory_type_index ≠ memory_type_index) :
    ∃ (result : VkResult) (memory : VkDeviceMemory),
      (result, memory) = driver.vkAllocateMemory
        (history ++ if self.staging_chunk ≠ VK_NULL_HANDLE then
          [MemoryCall.vkFreeMemory self.device self.staging_chunk] else [])
        self.device memory_requirements.size memory_type_index ∧
      (allocate_staging_memory driver history self memory_requirements).calls =
        (if self.staging_chunk ≠ VK_NULL_HANDLE then
          [MemoryCall.vkFreeMemory self.device self.staging_chunk] else []) ++
        [MemoryCall.vkAllocateMemory self.device memory_requirements.size memory_type_index
          result memory] ∧
      (0 ≤ result →
        (allocate_staging_memory driver history self memory_requirements).result =
          Except.ok memory ∧
        (allocate_staging_memory driver history self memory_requirements).allocator =
          { self with
            staging_chunk := memory
            staging_chunk_size := memory_requirements.size
            staging_memory_type_index := memory_type_index }) ∧
      (result < 0 →
        ∃ message, (allocate_staging_memory driver history self memory_requirements).result =
          Except.error message) := by
  simp only [allocate_staging_memory, h, if_pos hcond]
  generalize driver.vkAllocateMemory _ _ _ _ = answer
  refine ⟨answer.1, answer.2, rfl, ?_⟩
  cases hcheck : check_vk_result answer.1 "vkAllocateMemory" with
  | error message =>
    have hneg : ¬ 0 ≤ answer.1 := by
      intro hle
      rw [(check_vk_result_ok_iff _ _).mpr hle] at hcheck
      cases hcheck
    exact ⟨rfl, fun hle => absurd hle hneg, fun _ => ⟨message, rfl⟩⟩
  | ok u =>
    have hle : 0 ≤ answer.1 := by
      cases u
      exact (check_vk_result_ok_iff _ _).mp hcheck
    exact ⟨rfl, fun _ => ⟨rfl, rfl⟩, fun hlt => absurd hle (not_le.mpr hlt)⟩

/-- After a staging request that returned, the returned handle is the recorded chunk, the
recorded type index is the selected one and the recorded size covers the request. -/
theorem allocate_staging_memory_returned (driver : Driver) (history : List MemoryCall)
    (self : Device_Memory_Allocator) (memory_requirements : VkMemoryRequirements)
    (memory : VkDeviceMemory)
    (h : (allocate_staging_memory driver history self memory_requirements).result =
      Except.ok memory) :
    (allocate_staging_memory driver history self memory_requirements).allocator.staging_chunk =
        memory ∧
      find_memory_type_with_properties
        (driver.vkGetPhysicalDeviceMemoryProperties self.physical_device)
        memory_requirements.memoryTypeBits
        (VK_MEMORY_PROPERTY_HOST_VISIBLE_BIT ||| VK_MEMORY_PROPERTY_HOST_COHERENT_BIT) =
        Except.ok (allocate_staging_memory driver history self
          memory_requirements).allocator.staging_memory_type_index ∧
      memory_requirements.size ≤
        (allocate_staging_memory driver history self
          memory_requirements).allocator.staging_chunk_size := by
  cases hfind : find_memory_type_with_properties
      (driver.vkGetPhysicalDeviceMemoryProperties self.physical_device)
      memory_requirements.memoryTypeBits
      (VK_MEMORY_PROPERTY_HOST_VISIBLE_BIT ||| VK_MEMORY_PROPERTY_HOST_COHERENT_BIT) with
  | error message =>
    rw [allocate_staging_memory_fatal driver history self memory_requirements message hfind] at h
    cases h
  | ok memory_type_index =>
    by_cases hcond : self.staging_chunk_size < memory_requirements.size ∨
        self.staging_memory_type_index ≠ memory_type_index
    · obtain ⟨result, handle, _, _, hok, herr⟩ :=
        allocate_staging_memory_replace driver history self memory_requirements
          memory_type_index hfind hcond
      by_cases hres : 0 ≤ result
      · obtain ⟨h1, h2⟩ := hok hres
        rw [h1] at h
        cases h
        rw [h2]
        exact ⟨rfl, rfl, le_refl _⟩
      · obtain ⟨message, h1⟩ := herr (not_le.mp hres)
        rw [h1] at h
        cases h
    · have hsize : memory_requirements.size ≤ self.staging_chunk_size := by
        by_contra hlt
        exact hcond (Or.inl (Nat.not_le.mp hlt))
      have htype : self.staging_memory_type_index = memory_type_index := by
        by_contra hne
        exact hcond (Or.inr hne)
      rw [allocate_staging_memory_reuse driver history self memory_requirements
        memory_type_index hfind hsize htype] at h ⊢
      cases h
      exact ⟨rfl, by rw [htype], hsize⟩

theorem allocate_device_local_memory_calls (driver : Driver) (history : List MemoryCall)
    (self : Device_Memory_Allocator) (memory_requirements : VkMemoryRequirements)
    (memory_type_index : Nat)
    (h : find_memory_type_with_properties
      (driver.vkGetPhysicalDeviceMemoryProperties self.physical_device)
      memory_requirements.memoryTypeBits VK_MEMORY_PROPERTY_DEVICE_LOCAL_BIT =
        Except.ok memory_type_index) :
    ∃ (result : VkResult) (memory : VkDeviceMemory),
      (result, memory) = driver.vkAllocateMemory history self.device
        memory_requirements.size memory_type_index ∧
      (allocate_device_local_memory driver history self memory_requirements).calls =
        [MemoryCall.vkAllocateMemory self.device memory_requirements.size memory_type_index
          result memory] ∧
      (0 ≤ result →
        (allocate_device_local_memory driver history self memory_requirements).result =
          Except.ok memory ∧
        (allocate_device_local_memory driver history self memory_requirements).allocator =
          { self with device_local_chunks := self.device_local_chunks ++ [memory] }) ∧
      (result < 0 →
        (allocate_device_local_memory driver history self memory_requirements).allocator =
          self ∧
        ∃ message,
          (allocate_device_local_memory driver history self memory_requirements).result =
            Except.error message) := by
  simp only [allocate_device_local_memory, h]
  generalize driver.vkAllocateMemory _ _ _ _ = answer
  refine ⟨answer.1, answer.2, rfl, ?_⟩
  cases hcheck : check_vk_result answer.1 "vkAllocateMemory" with
  | error message =>
    have hneg : ¬ 0 ≤ answer.1 := by
      intro hle
      rw [(check_vk_result_ok_iff _ _).mpr hle] at hcheck
      cases hcheck
    exact ⟨rfl, fun hle => absurd hle hneg, fun _ => ⟨rfl, message, rfl⟩⟩
  | ok u =>
    have hle : 0 ≤ answer.1 := by
      cases u
      exact (check_vk_result_ok_iff _ _).mp hcheck
    exact ⟨rfl, fun _ => ⟨rfl, rfl⟩, fun hlt => absurd hle (not_le.mpr hlt)⟩

/-- The type a selection returns has the requested properties. -/
theorem find_memory_type_flags (memory_properties : VkPhysicalDeviceMemoryProperties)
    (memory_type_bits properties found : Nat)
    (h : find_memory_type_with_properties memory_properties memory_type_bits properties =
      Except.ok found) :
    (memory_properties.memoryTypes found).propertyFlags &&& properties = properties := by
  rw [find_memory_type_ok_iff, find_memory_type_loop_some] at h
  obtain ⟨_, _, hm, _⟩ := h
  unfold memory_type_matches at hm
  rw [Bool.and_eq_true, beq_iff_eq] at hm
  exact hm.2

/-- The only allocation a staging request makes is one of the selected type. -/
theorem allocate_staging_memory_allocation (driver : Driver) (history : List MemoryCall)
    (self : Device_Memory_Allocator) (memory_requirements : VkMemoryRequirements)
    (device : VkDevice) (size : VkDeviceSize) (index : Nat) (result : VkResult)
    (memory : VkDeviceMemory)
    (h : MemoryCall.vkAllocateMemory device size index result memory ∈
      (allocate_staging_memory driver history self memory_requirements).calls) :
    find_memory_type_with_properties
      (driver.vkGetPhysicalDeviceMemoryProperties self.physical_device)
      memory_requirements.memoryTypeBits
      (VK_MEMORY_PROPERTY_HOST_VISIBLE_BIT ||| VK_MEMORY_PROPERTY_HOST_COHERENT_BIT) =
        Except.ok index ∧ size = memory_requirements.size := by
  cases hfind : find_memory_type_with_properties
      (driver.vkGetPhysicalDeviceMemoryProperties self.physical_device)
      memory_requirements.memoryTypeBits
      (VK_MEMORY_PROPERTY_HOST_VISIBLE_BIT ||| VK_MEMORY_PROPERTY_HOST_COHERENT_BIT) with
  | error message =>
    rw [allocate_staging_memory_fatal driver history self memory_requirements message hfind] at h
    cases h
  | ok memory_type_index =>
    by_cases hcond : self.staging_chunk_size < memory_requirements.size ∨
        self.staging_memory_type_index ≠ memory_type_index
    · obtain ⟨r, m, _, hcalls, _, _⟩ :=
        allocate_staging_memory_replace driver history self memory_requirements
          memory_type_index hfind hcond
      rw [hcalls] at h
      by_cases hnull : self.staging_chunk ≠ VK_NULL_HANDLE
      · rw [if_pos hnull] at h
        simp only [List.singleton_append, List.mem_cons, List.mem_singleton, List.not_mem_nil,
          or_false] at h
        rcases h with h | h
        · cases h
        · cases h
          exact ⟨rfl, rfl⟩
      · rw [if_neg hnull] at h
        simp only [List.nil_append, List.mem_singleton] at h
        cases h
        exact ⟨rfl, rfl⟩
    · have hsize : memory_requirements.size ≤ self.staging_chunk_size := by
        by_contra hlt
        exact hcond (Or.inl (Nat.not_le.mp hlt))
      have htype : self.staging_memory_type_index = memory_type_index := by
        by_contra hne
        exact hcond (Or.inr hne)
      rw [allocate_staging_memory_reuse driver history self memory_requirements
        memory_type_index hfind hsize htype] at h
      cases h

/-- The only allocation a device-local request makes is one of the selected type. -/
theorem allocate_device_local_memory_allocation (driver : Driver) (history : List MemoryCall)
    (self : Device_Memory_Allocator) (memory_requirements : VkMemoryRequirements)
    (call : MemoryCall)
    (h : call ∈ (allocate_device_local_memory driver history self memory_requirements).calls) :
    ∃ (index : Nat) (result : VkResult) (memory : VkDeviceMemory),
      call = MemoryCall.vkAllocateMemory self.device memory_requirements.size index result
        memory ∧
      find_memory_type_with_properties
        (driver.vkGetPhysicalDeviceMemoryProperties self.physical_device)
        memory_requirements.memoryTypeBits VK_MEMORY_PROPERTY_DEVICE_LOCAL_BIT =
          Except.ok index := by
  cases hfind : find_memory_type_with_properties
      (driver.vkGetPhysicalDeviceMemoryProperties self.physical_device)
      memory_requirements.memoryTypeBits VK_MEMORY_PROPERTY_DEVICE_LOCAL_BIT with
  | error message =>
    rw [allocate_device_local_memory_fatal driver history self memory_requirements message
      hfind] at h
    cases h
  | ok memory_type_index =>
    obtain ⟨r, m, _, hcalls, _, _⟩ :=
      allocate_device_local_memory_calls driver history self memory_requirements
        memory_type_index hfind
    rw [hcalls, List.mem_singleton] at h
    exact ⟨memory_type_index, r, m, h, rfl⟩

/-! ## Memory-type selection: the claims -/

/-- C4. Memory-type selection returns the least matching index: when the table has at most
32 types and `find_memory_type_with_properties` returns `i`, then `i` is below
`memoryTypeCount`, bit `i` of the mask is set, the flags of type `i` contain the requested
properties, and no smaller index has both. The type index recorded by a staging request
that returned, and the type index of every allocation a staging request issues, is the
index selected for host-visible and host-coherent and has both flags; the type index of
every allocation a device-local request issues is the index selected for device-local and
has that flag. -/
theorem memory_type_selection_least :
    (∀ (memory_properties : VkPhysicalDeviceMemoryProperties)
        (memory_type_bits properties i : Nat),
      memory_properties.memoryTypeCount ≤ 32 →
      find_memory_type_with_properties memory_properties memory_type_bits properties =
        Except.ok i →
      i < memory_properties.memoryTypeCount ∧
      memory_type_bits.testBit i = true ∧
      (memory_properties.memoryTypes i).propertyFlags &&& properties = properties ∧
      ∀ j, j < i →
        ¬ (memory_type_bits.testBit j = true ∧
          (memory_properties.memoryTypes j).propertyFlags &&& properties = properties)) ∧
    (∀ (driver : Driver) (history : List MemoryCall) (self : Device_Memory_Allocator)
        (memory_requirements : VkMemoryRequirements) (memory : VkDeviceMemory),
      (allocate_staging_memory driver history self memory_requirements).result =
        Except.ok memory →
      find_memory_type_with_properties
        (driver.vkGetPhysicalDeviceMemoryProperties self.physical_device)
        memory_requirements.memoryTypeBits
        (VK_MEMORY_PROPERTY_HOST_VISIBLE_BIT ||| VK_MEMORY_PROPERTY_HOST_COHERENT_BIT) =
        Except.ok (allocate_staging_memory driver history self
          memory_requirements).allocator.staging_memory_type_index ∧
      ((driver.vkGetPhysicalDeviceMemoryProperties self.physical_device).memoryTypes
        (allocate_staging_memory driver history self
          memory_requirements).allocator.staging_memory_type_index).propertyFlags &&&
          VK_MEMORY_PROPERTY_HOST_VISIBLE_BIT = VK_MEMORY_PROPERTY_HOST_VISIBLE_BIT ∧
      ((driver.vkGetPhysicalDeviceMemoryProperties self.physical_device).memoryTypes
        (allocate_staging_memory driver history self
          memory_requirements).allocator.staging_memory_type_index).propertyFlags &&&
          VK_MEMORY_PROPERTY_HOST_COHERENT_BIT = VK_MEMORY_PROPERTY_HOST_COHERENT_BIT) ∧
    (∀ (driver : Driver) (history : List MemoryCall) (self : Device_Memory_Allocator)
        (memory_requirements : VkMemoryRequirements) (device : VkDevice) (size : VkDeviceSize)
        (index : Nat) (result : VkResult) (memory : VkDeviceMemory),
      MemoryCall.vkAllocateMemory device size index result memory ∈
        (allocate_staging_memory driver history self memory_requirements).calls →
      find_memory_type_with_properties
        (driver.vkGetPhysicalDeviceMemoryProperties self.physical_device)
        memory_requirements.memoryTypeBits
        (VK_MEMORY_PROPERTY_HOST_VISIBLE_BIT ||| VK_MEMORY_PROPERTY_HOST_COHERENT_BIT) =
        Except.ok index ∧
      ((driver.vkGetPhysicalDeviceMemoryProperties self.physical_device).memoryTypes
        index).propertyFlags &&& VK_MEMORY_PROPERTY_HOST_VISIBLE_BIT =
          VK_MEMORY_PROPERTY_HOST_VISIBLE_BIT ∧
      ((driver.vkGetPhysicalDeviceMemoryProperties self.physical_device).memoryTypes
        index).propertyFlags &&& VK_MEMORY_PROPERTY_HOST_COHERENT_BIT =
          VK_MEMORY_PROPERTY_HOST_COHERENT_BIT) ∧
    (∀ (driver : Driver) (history : List MemoryCall) (self : Device_Memory_Allocator)
        (memory_requirements : VkMemoryRequirements) (device : VkDevice) (size : VkDeviceSize)
        (index : Nat) (result : VkResult) (memory : VkDeviceMemory),
      MemoryCall.vkAllocateMemory device size index result memory ∈
        (allocate_device_local_memory driver history self memory_requirements).calls →
      find_memory_type_with_properties
        (driver.vkGetPhysicalDeviceMemoryProperties self.physical_device)
        memory_requirements.memoryTypeBits VK_MEMORY_PROPERTY_DEVICE_LOCAL_BIT =
        Except.ok index ∧
      ((driver.vkGetPhysicalDeviceMemoryProperties self.physical_device).memoryTypes
        index).propertyFlags &&& VK_MEMORY_PROPERTY_DEVICE_LOCAL_BIT =
          VK_MEMORY_PROPERTY_DEVICE_LOCAL_BIT) := by
  refine ⟨?_, ?_, ?_, ?_⟩
  · intro memory_properties memory_type_bits properties i hcount h
    have hflags := find_memory_type_flags memory_properties memory_type_bits properties i h
    rw [find_memory_type_ok_iff, find_memory_type_loop_some] at h
    obtain ⟨_, hlt, hm, hleast⟩ := h
    have hi : i < memory_properties.memoryTypeCount := by omega
    rw [memory_type_matches_iff _ _ _ _ (Or.inl (by omega))] at hm
    refine ⟨hi, hm.1, hflags, ?_⟩
    intro j hj hboth
    have hfalse := hleast j (Nat.zero_le _) hj
    rw [(memory_type_matches_iff memory_properties memory_type_bits properties j
      (Or.inl (by omega))).mpr hboth] at hfalse
    cases hfalse
  · intro driver history self memory_requirements memory h
    obtain ⟨_, hfind, _⟩ :=
      allocate_staging_memory_returned driver history self memory_requirements memory h
    have hflags := find_memory_type_flags _ _ _ _ hfind
    exact ⟨hfind, flags_superset_left _ _ _ hflags, flags_superset_right _ _ _ hflags⟩
  · intro driver history self memory_requirements device size index result memory h
    obtain ⟨hfind, _⟩ := allocate_staging_memory_allocation driver history self
      memory_requirements device size index result memory h
    have hflags := find_memory_type_flags _ _ _ _ hfind
    exact ⟨hfind, flags_superset_left _ _ _ hflags, flags_superset_right _ _ _ hflags⟩
  · intro driver history self memory_requirements device size index result memory h
    obtain ⟨index2, r, m, hcall, hfind⟩ := allocate_device_local_memory_allocation driver
      history self memory_requirements _ h
    cases hcall
    exact ⟨hfind, find_memory_type_flags _ _ _ _ hfind⟩

theorem memory_type_selection_least_witness :
    find_memory_type_with_properties sample_memory_properties 6 6 = Except.ok 1 ∧
    (1 < sample_memory_properties.memoryTypeCount ∧
      (6 : Nat).testBit 1 = true ∧
      (sample_memory_properties.memoryTypes 1).propertyFlags &&& 6 = 6 ∧
      ∀ j, j < 1 →
        ¬ ((6 : Nat).testBit j = true ∧
          (sample_memory_properties.memoryTypes j).propertyFlags &&& 6 = 6)) ∧
    (allocate_staging_memory sample_driver [] sample_allocator
      { size := 16, alignment := 1, memoryTypeBits := 7 }).result = Except.ok 1 ∧
    (sample_memory_properties.memoryTypes
      (allocate_staging_memory sample_driver [] sample_allocator
        { size := 16, alignment := 1, memoryTypeBits := 7 }).allocator.staging_memory_type_index
      ).propertyFlags &&& VK_MEMORY_PROPERTY_HOST_VISIBLE_BIT =
        VK_MEMORY_PROPERTY_HOST_VISIBLE_BIT :=
  ⟨rfl,
    memory_type_selection_least.1 sample_memory_properties 6 6 1 (by decide) rfl,
    rfl,
    (memory_type_selection_least.2.1 sample_driver [] sample_allocator
      { size := 16, alignment := 1, memoryTypeBits := 7 } 1 rfl).2.1⟩

/-- C5. Memory-type selection fails fatally exactly when nothing matches: for a 32-bit
mask (or a table of at most 32 types), `find_memory_type_with_properties` ends in the fatal
error if and only if no index below `memoryTypeCount` has its bit set in the mask and
flags that contain the requested properties. When the selection of a staging or of a
device-local request fails, the request ends in that error, issues no native call (no
`vkAllocateMemory`, no `vkFreeMemory`) and leaves the allocator as it was. -/
theorem memory_type_selection_fatal :
    (∀ (memory_properties : VkPhysicalDeviceMemoryProperties)
        (memory_type_bits properties : Nat),
      memory_properties.memoryTypeCount ≤ 32 ∨ memory_type_bits < 2 ^ 32 →
      ((∃ message,
          find_memory_type_with_properties memory_properties memory_type_bits properties =
            Except.error message) ↔
        ¬ ∃ i, i < memory_properties.memoryTypeCount ∧ memory_type_bits.testBit i = true ∧
          (memory_properties.memoryTypes i).propertyFlags &&& properties = properties)) ∧
    (∀ (driver : Driver) (history : List MemoryCall) (self : Device_Memory_Allocator)
        (memory_requirements : VkMemoryRequirements) (message : String),
      find_memory_type_with_properties
        (driver.vkGetPhysicalDeviceMemoryProperties self.physical_device)
        memory_requirements.memoryTypeBits
        (VK_MEMORY_PROPERTY_HOST_VISIBLE_BIT ||| VK_MEMORY_PROPERTY_HOST_COHERENT_BIT) =
          Except.error message →
      allocate_staging_memory driver history self memory_requirements =
        { result := Except.error message, allocator := self, calls := [] }) ∧
    (∀ (driver : Driver) (history : List MemoryCall) (self : Device_Memory_Allocator)
        (memory_requirements : VkMemoryRequirements) (message : String),
      find_memory_type_with_properties
        (driver.vkGetPhysicalDeviceMemoryProperties self.physical_device)
        memory_requirements.memoryTypeBits VK_MEMORY_PROPERTY_DEVICE_LOCAL_BIT =
          Except.error message →
      allocate_device_local_memory driver history self memory_requirements =
        { result := Except.error message, allocator := self, calls := [] }) := by
  refine ⟨?_, ?_, ?_⟩
  · intro memory_properties memory_type_bits properties hwidth
    rw [find_memory_type_error_iff, find_memory_type_loop_none]
    have hbit : ∀ j, j < memory_properties.memoryTypeCount →
        (j < 32 ∨ memory_type_bits < 2 ^ 32) := by
      intro j hj
      rcases hwidth with h | h
      · exact Or.inl (by omega)
      · exact Or.inr h
    constructor
    · rintro h ⟨i, hi, hset, hflags⟩
      have hfalse := h i (Nat.zero_le _) (by omega)
      rw [(memory_type_matches_iff memory_properties memory_type_bits properties i
        (hbit i hi)).mpr ⟨hset, hflags⟩] at hfalse
      cases hfalse
    · intro h j _ hj
      have hj2 : j < memory_properties.memoryTypeCount := by omega
      cases hm : memory_type_matches memory_properties memory_type_bits properties j with
      | false => rfl
      | true =>
        exfalso
        apply h
        have := (memory_type_matches_iff memory_properties memory_type_bits properties j
          (hbit j hj2)).mp hm
        exact ⟨j, hj2, this.1, this.2⟩
  · intro driver history self memory_requirements message h
    exact allocate_staging_memory_fatal driver history self memory_requirements message h
  · intro driver history self memory_requirements message h
    exact allocate_device_local_memory_fatal driver history self memory_requirements message h

theorem memory_type_selection_fatal_witness :
    (¬ ∃ i, i < device_only_memory_properties.memoryTypeCount ∧ (3 : Nat).testBit i = true ∧
      (device_only_memory_properties.memoryTypes i).propertyFlags &&& 6 = 6) ∧
    allocate_staging_memory device_only_driver [] sample_allocator
        { size := 16, alignment := 1, memoryTypeBits := 3 } =
      { result :=
          Except.error "failed to find matching memory type with requested properties"
        allocator := sample_allocator
        calls := [] } :=
  ⟨(memory_type_selection_fatal.1 device_only_memory_properties 3 6
      (Or.inl (by decide))).mp ⟨_, rfl⟩,
    memory_type_selection_fatal.2.1 device_only_driver [] sample_allocator
      { size := 16, alignment := 1, memoryTypeBits := 3 } _ rfl⟩

/-! ## Staging requests: the claims -/

/-- Staging requests that fit the recorded chunk and select its type, one after the
other: each returns the recorded chunk, issues no call and changes nothing. -/
theorem serve_all_staging_reuse (driver : Driver) (self : Device_Memory_Allocator)
    (memory_type_index : Nat) (htype : self.staging_memory_type_index = memory_type_index)
    (later : List VkMemoryRequirements) :
    ∀ (previous : VkMemoryRequirements) (history : List MemoryCall),
      previous.size ≤ self.staging_chunk_size →
      List.Chain' (fun a b : VkMemoryRequirements => b.size ≤ a.size) (previous :: later) →
      (∀ r ∈ later, find_memory_type_with_properties
        (driver.vkGetPhysicalDeviceMemoryProperties self.physical_device) r.memoryTypeBits
        (VK_MEMORY_PROPERTY_HOST_VISIBLE_BIT ||| VK_MEMORY_PROPERTY_HOST_COHERENT_BIT) =
          Except.ok memory_type_index) →
      serve_all driver history self (later.map Request.staging) =
        { result := Except.ok (later.map fun r =>
            { request := Request.staging r, before := self, memory := self.staging_chunk,
              calls := [] })
          allocator := self
          calls := [] } := by
  induction later with
  | nil =>
    intro previous history _ _ _
    rfl
  | cons r rest ih =>
    intro previous history hsize hchain hfind
    rw [List.chain'_cons] at hchain
    have hr : r.size ≤ self.staging_chunk_size := le_trans hchain.1 hsize
    have hreuse := allocate_staging_memory_reuse driver history self r memory_type_index
      (hfind r (List.mem_cons_self _ _)) hr htype
    have hrest := ih r history hr hchain.2
      (fun q hq => hfind q (List.mem_cons_of_mem _ hq))
    simp only [List.map_cons, serve_all, serve, hreuse, List.append_nil, hrest]

/-- C1. Staging reuse. A staging request whose size is at most the recorded chunk size and
whose selected memory-type index is the recorded one returns the recorded chunk handle,
issues no call (no `vkFreeMemory`, no `vkAllocateMemory`) and leaves the allocator, so the
recorded size and type index, unchanged. Consequently, in a sequence of staging requests
of non-increasing size that all select the same type index, of which the first returns,
every request returns the handle the first one returned, and no request after the first
issues a call. -/
theorem staging_reuse :
    (∀ (driver : Driver) (history : List MemoryCall) (self : Device_Memory_Allocator)
        (memory_requirements : VkMemoryRequirements) (memory_type_index : Nat),
      find_memory_type_with_properties
        (driver.vkGetPhysicalDeviceMemoryProperties self.physical_device)
        memory_requirements.memoryTypeBits
        (VK_MEMORY_PROPERTY_HOST_VISIBLE_BIT ||| VK_MEMORY_PROPERTY_HOST_COHERENT_BIT) =
          Except.ok memory_type_index →
      memory_requirements.size ≤ self.staging_chunk_size →
      self.staging_memory_type_index = memory_type_index →
      allocate_staging_memory driver history self memory_requirements =
        { result := Except.ok self.staging_chunk, allocator := self, calls := [] }) ∧
    (∀ (driver : Driver) (history : List MemoryCall) (self : Device_Memory_Allocator)
        (first : VkMemoryRequirements) (later : List VkMemoryRequirements)
        (memory_type_index : Nat) (memory : VkDeviceMemory),
      (∀ r ∈ first :: later, find_memory_type_with_properties
        (driver.vkGetPhysicalDeviceMemoryProperties self.physical_device) r.memoryTypeBits
        (VK_MEMORY_PROPERTY_HOST_VISIBLE_BIT ||| VK_MEMORY_PROPERTY_HOST_COHERENT_BIT) =
          Except.ok memory_type_index) →
      List.Chain' (fun a b : VkMemoryRequirements => b.size ≤ a.size) (first :: later) →
      (allocate_staging_memory driver history self first).result = Except.ok memory →
      ∃ served : List Served,
        (serve_all driver history self ((first :: later).map Request.staging)).result =
          Except.ok served ∧
        served.map (fun s => s.memory) = List.replicate (later.length + 1) memory ∧
        (serve_all driver history self ((first :: later).map Request.staging)).calls =
          (allocate_staging_memory driver history self first).calls) := by
  constructor
  · intro driver history self memory_requirements memory_type_index h hsize htype
    exact allocate_staging_memory_reuse driver history self memory_requirements
      memory_type_index h hsize htype
  · intro driver history self first later memory_type_index memory hfind hchain hfirst
    obtain ⟨hchunk, hindex, hsize⟩ :=
      allocate_staging_memory_returned driver history self first memory hfirst
    rw [hfind first (List.mem_cons_self _ _)] at hindex
    have hphys : (allocate_staging_memory driver history self first).allocator.physical_device =
        self.physical_device := by
      by_cases hcond : self.staging_chunk_size < first.size ∨
          self.staging_memory_type_index ≠ memory_type_index
      · obtain ⟨result, handle, _, _, hok, herr⟩ :=
          allocate_staging_memory_replace driver history self first memory_type_index
            (hfind first (List.mem_cons_self _ _)) hcond
        by_cases hres : 0 ≤ result
        · rw [(hok hres).2]
        · obtain ⟨message, h1⟩ := herr (not_le.mp hres)
          rw [h1] at hfirst
          cases hfirst
      · have hs : first.size ≤ self.staging_chunk_size := by
          by_contra hlt
          exact hcond (Or.inl (Nat.not_le.mp hlt))
        have ht : self.staging_memory_type_index = memory_type_index := by
          by_contra hne
          exact hcond (Or.inr hne)
        rw [allocate_staging_memory_reuse driver history self first memory_type_index
          (hfind first (List.mem_cons_self _ _)) hs ht]
    have hrest := serve_all_staging_reuse driver
      (allocate_staging_memory driver history self first).allocator memory_type_index
      (Except.ok.inj hindex).symm later first
      (history ++ (allocate_staging_memory driver history self first).calls) hsize hchain
      (by
        intro r hr
        rw [hphys]
        exact hfind r (List.mem_cons_of_mem _ hr))
    simp only [List.map_cons, serve_all, serve, hfirst, hrest, List.append_nil]
    refine ⟨_, rfl, ?_, trivial⟩
    simp only [List.map_cons, List.map_map, List.replicate_succ, hchunk]
    congr 1
    rw [List.eq_replicate_iff]
    constructor
    · simp
    · intro b hb
      simp only [List.mem_map, Function.comp] at hb
      obtain ⟨_, _, hb⟩ := hb
      exact hb.symm

theorem staging_reuse_witness :
    allocate_staging_memory sample_driver [] holding_allocator
        { size := 48, alignment := 1, memoryTypeBits := 4 } =
      { result := Except.ok 5, allocator := holding_allocator, calls := [] } ∧
    ∃ served : List Served,
      (serve_all sample_driver [] sample_allocator
        (([{ size := 48, alignment := 1, memoryTypeBits := 6 },
           { size := 48, alignment := 1, memoryTypeBits := 2 },
           { size := 16, alignment := 1, memoryTypeBits := 7 }] :
            List VkMemoryRequirements).map Request.staging)).result = Except.ok served ∧
      served.map (fun s => s.memory) = List.replicate (2 + 1) 1 ∧
      (serve_all sample_driver [] sample_allocator
        (([{ size := 48, alignment := 1, memoryTypeBits := 6 },
           { size := 48, alignment := 1, memoryTypeBits := 2 },
           { size := 16, alignment := 1, memoryTypeBits := 7 }] :
            List VkMemoryRequirements).map Request.staging)).calls =
        (allocate_staging_memory sample_driver [] sample_allocator
          { size := 48, alignment := 1, memoryTypeBits := 6 }).calls :=
  ⟨staging_reuse.1 sample_driver [] holding_allocator
      { size := 48, alignment := 1, memoryTypeBits := 4 } 2 rfl (by decide) rfl,
    staging_reuse.2 sample_driver [] sample_allocator
      { size := 48, alignment := 1, memoryTypeBits := 6 }
      [{ size := 48, alignment := 1, memoryTypeBits := 2 },
       { size := 16, alignment := 1, memoryTypeBits := 7 }] 1 1
      (by
        intro r hr
        simp only [List.mem_cons, List.mem_singleton, List.not_mem_nil, or_false] at hr
        rcases hr with hr | hr | hr <;> (subst hr; rfl))
      (by simp [List.chain'_cons])
      rfl⟩

/-- C2. Staging replacement. When the request is larger than the recorded chunk size, or
selects a memory-type index other than the recorded one, `allocate_staging_memory` issues
exactly these calls: one `vkFreeMemory` of the recorded chunk when that is not null (none
when it is null), then one `vkAllocateMemory` of the requested size and the selected type
index. When that allocation succeeds, the request returns the new handle and the
allocator records the handle, the requested size and the selected type index; nothing
else of the allocator changes. -/
theorem staging_replacement (driver : Driver) (history : List MemoryCall)
    (self : Device_Memory_Allocator) (memory_requirements : VkMemoryRequirements)
    (memory_type_index : Nat)
    (hselect : find_memory_type_with_properties
      (driver.vkGetPhysicalDeviceMemoryProperties self.physical_device)
      memory_requirements.memoryTypeBits
      (VK_MEMORY_PROPERTY_HOST_VISIBLE_BIT ||| VK_MEMORY_PROPERTY_HOST_COHERENT_BIT) =
        Except.ok memory_type_index)
    (hreplace : self.staging_chunk_size < memory_requirements.size ∨
      self.staging_memory_type_index ≠ memory_type_index) :
    ∃ (result : VkResult) (memory : VkDeviceMemory),
      (result, memory) = driver.vkAllocateMemory
        (history ++ if self.staging_chunk ≠ VK_NULL_HANDLE then
          [MemoryCall.vkFreeMemory self.device self.staging_chunk] else [])
        self.device memory_requirements.size memory_type_index ∧
      (allocate_staging_memory driver history self memory_requirements).calls =
        (if self.staging_chunk ≠ VK_NULL_HANDLE then
          [MemoryCall.vkFreeMemory self.device self.staging_chunk] else []) ++
        [MemoryCall.vkAllocateMemory self.device memory_requirements.size memory_type_index
          result memory] ∧
      (result = VK_SUCCESS →
        (allocate_staging_memory driver history self memory_requirements).result =
          Except.ok memory ∧
        (allocate_staging_memory driver history self memory_requirements).allocator =
          { self with
            staging_chunk := memory
            staging_chunk_size := memory_requirements.size
            staging_memory_type_index := memory_type_index }) := by
  obtain ⟨result, memory, hanswer, hcalls, hok, _⟩ :=
    allocate_staging_memory_replace driver history self memory_requirements memory_type_index
      hselect hreplace
  refine ⟨result, memory, hanswer, hcalls, ?_⟩
  intro hsuccess
  apply hok
  rw [hsuccess]
  exact le_refl _

theorem staging_replacement_witness :
    (holding_allocator.staging_chunk_size < 16 ∨
      holding_allocator.staging_memory_type_index ≠ 1) ∧
    ∃ (result : VkResult) (memory : VkDeviceMemory),
      (result, memory) = sample_driver.vkAllocateMemory
        ([] ++ if holding_allocator.staging_chunk ≠ VK_NULL_HANDLE then
          [MemoryCall.vkFreeMemory holding_allocator.device holding_allocator.staging_chunk]
          else [])
        holding_allocator.device 16 1 ∧
      (allocate_staging_memory sample_driver [] holding_allocator
          { size := 16, alignment := 1, memoryTypeBits := 2 }).calls =
        (if holding_allocator.staging_chunk ≠ VK_NULL_HANDLE then
          [MemoryCall.vkFreeMemory holding_allocator.device holding_allocator.staging_chunk]
          else []) ++
        [MemoryCall.vkAllocateMemory holding_allocator.device 16 1 result memory] ∧
      (result = VK_SUCCESS →
        (allocate_staging_memory sample_driver [] holding_allocator
          { size := 16, alignment := 1, memoryTypeBits := 2 }).result = Except.ok memory ∧
        (allocate_staging_memory sample_driver [] holding_allocator
          { size := 16, alignment := 1, memoryTypeBits := 2 }).allocator =
          { holding_allocator with
            staging_chunk := memory
            staging_chunk_size := 16
            staging_memory_type_index := 1 }) :=
  ⟨Or.inr (by decide),
    staging_replacement sample_driver [] holding_allocator
      { size := 16, alignment := 1, memoryTypeBits := 2 } 1 rfl (Or.inr (by decide))⟩

/-! ## Sequences of requests -/

/-- The two ways a staging request returns: the chunk is reused, or it is replaced by a
new allocation. -/
theorem allocate_staging_memory_cases (driver : Driver) (history : List MemoryCall)
    (self : Device_Memory_Allocator) (memory_requirements : VkMemoryRequirements)
    (memory : VkDeviceMemory)
    (h : (allocate_staging_memory driver history self memory_requirements).result =
      Except.ok memory) :
    (memory = self.staging_chunk ∧
      allocate_staging_memory driver history self memory_requirements =
        { result := Except.ok self.staging_chunk, allocator := self, calls := [] }) ∨
    ∃ (memory_type_index : Nat) (result : VkResult),
      0 ≤ result ∧
      (result, memory) = driver.vkAllocateMemory
        (history ++ if self.staging_chunk ≠ VK_NULL_HANDLE then
          [MemoryCall.vkFreeMemory self.device self.staging_chunk] else [])
        self.device memory_requirements.size memory_type_index ∧
      (allocate_staging_memory driver history self memory_requirements).calls =
        (if self.staging_chunk ≠ VK_NULL_HANDLE then
          [MemoryCall.vkFreeMemory self.device self.staging_chunk] else []) ++
        [MemoryCall.vkAllocateMemory self.device memory_requirements.size memory_type_index
          result memory] ∧
      (allocate_staging_memory driver history self memory_requirements).allocator =
        { self with
          staging_chunk := memory
          staging_chunk_size := memory_requirements.size
          staging_memory_type_index := memory_type_index } := by
  cases hfind : find_memory_type_with_properties
      (driver.vkGetPhysicalDeviceMemoryProperties self.physical_device)
      memory_requirements.memoryTypeBits
      (VK_MEMORY_PROPERTY_HOST_VISIBLE_BIT ||| VK_MEMORY_PROPERTY_HOST_COHERENT_BIT) with
  | error message =>
    rw [allocate_staging_memory_fatal driver history self memory_requirements message hfind] at h
    cases h
  | ok memory_type_index =>
    by_cases hcond : self.staging_chunk_size < memory_requirements.size ∨
        self.staging_memory_type_index ≠ memory_type_index
    · right
      obtain ⟨result, handle, hanswer, hcalls, hok, herr⟩ :=
        allocate_staging_memory_replace driver history self memory_requirements
          memory_type_index hfind hcond
      by_cases hres : 0 ≤ result
      · obtain ⟨h1, h2⟩ := hok hres
        rw [h1] at h
        cases h
        exact ⟨memory_type_index, result, hres, hanswer, hcalls, h2⟩
      · obtain ⟨message, h1⟩ := herr (not_le.mp hres)
        rw [h1] at h
        cases h
    · left
      have hsize : memory_requirements.size ≤ self.staging_chunk_size := by
        by_contra hlt
        exact hcond (Or.inl (Nat.not_le.mp hlt))
      have htype : self.staging_memory_type_index = memory_type_index := by
        by_contra hne
        exact hcond (Or.inr hne)
      have hreuse := allocate_staging_memory_reuse driver history self memory_requirements
        memory_type_index hfind hsize htype
      rw [hreuse] at h
      cases h
      exact ⟨rfl, hreuse⟩

/-- The one way a device-local request returns. -/
theorem allocate_device_local_memory_cases (driver : Driver) (history : List MemoryCall)
    (self : Device_Memory_Allocator) (memory_requirements : VkMemoryRequirements)
    (memory : VkDeviceMemory)
    (h : (allocate_device_local_memory driver history self memory_requirements).result =
      Except.ok memory) :
    ∃ (memory_type_index : Nat) (result : VkResult),
      0 ≤ result ∧
      (result, memory) = driver.vkAllocateMemory history self.device memory_requirements.size
        memory_type_index ∧
      (allocate_device_local_memory driver history self memory_requirements).calls =
        [MemoryCall.vkAllocateMemory self.device memory_requirements.size memory_type_index
          result memory] ∧
      (allocate_device_local_memory driver history self memory_requirements).allocator =
        { self with device_local_chunks := self.device_local_chunks ++ [memory] } := by
  cases hfind : find_memory_type_with_properties
      (driver.vkGetPhysicalDeviceMemoryProperties self.physical_device)
      memory_requirements.memoryTypeBits VK_MEMORY_PROPERTY_DEVICE_LOCAL_BIT with
  | error message =>
    rw [allocate_device_local_memory_fatal driver history self memory_requirements message
      hfind] at h
    cases h
  | ok memory_type_index =>
    obtain ⟨result, handle, hanswer, hcalls, hok, herr⟩ :=
      allocate_device_local_memory_calls driver history self memory_requirements
        memory_type_index hfind
    by_cases hres : 0 ≤ result
    · obtain ⟨h1, h2⟩ := hok hres
      rw [h1] at h
      cases h
      exact ⟨memory_type_index, result, hres, hanswer, hcalls, h2⟩
    · obtain ⟨_, message, h1⟩ := herr (not_le.mp hres)
      rw [h1] at h
      cases h

/-- What one returned request does to the device handle and to the chunk list. -/
theorem serve_returned (driver : Driver) (history : List MemoryCall)
    (self : Device_Memory_Allocator) (request : Request) (memory : VkDeviceMemory)
    (h : (serve driver history self request).result = Except.ok memory) :
    (serve driver history self request).allocator.device = self.device ∧
    (serve driver history self request).allocator.device_local_chunks =
      self.device_local_chunks ++ (if request.is_device_local then [memory] else []) ∧
    (request.is_device_local = true →
      ∃ (memory_type_index : Nat) (result : VkResult),
        (serve driver history self request).calls =
          [MemoryCall.vkAllocateMemory self.device request.memory_requirements.size
            memory_type_index result memory]) ∧
    (∀ (device : VkDevice) (freed : VkDeviceMemory),
      MemoryCall.vkFreeMemory device freed ∈ (serve driver history self request).calls →
        request.is_device_local = false ∧ freed = self.staging_chunk ∧
          freed ≠ VK_NULL_HANDLE) := by
  cases request with
  | staging memory_requirements =>
    simp only [serve] at h ⊢
    rcases allocate_staging_memory_cases driver history self memory_requirements memory h with
      ⟨_, hreuse⟩ | ⟨memory_type_index, result, _, _, hcalls, hstate⟩
    · rw [hreuse]
      simp [Request.is_device_local]
    · rw [hcalls, hstate]
      refine ⟨rfl, by simp [Request.is_device_local], by simp [Request.is_device_local], ?_⟩
      intro device freed hmem
      by_cases hnull : self.staging_chunk ≠ VK_NULL_HANDLE
      · rw [if_pos hnull] at hmem
        simp only [List.singleton_append, List.mem_cons, List.mem_singleton, List.not_mem_nil,
          or_false] at hmem
        rcases hmem with hmem | hmem
        · cases hmem
          exact ⟨rfl, rfl, hnull⟩
        · cases hmem
      · rw [if_neg hnull] at hmem
        simp only [List.nil_append, List.mem_singleton] at hmem
        cases hmem
  | device_local memory_requirements =>
    simp only [serve] at h ⊢
    obtain ⟨memory_type_index, result, _, _, hcalls, hstate⟩ :=
      allocate_device_local_memory_cases driver history self memory_requirements memory h
    rw [hcalls, hstate]
    refine ⟨rfl, by simp [Request.is_device_local], ?_, ?_⟩
    · intro _
      exact ⟨memory_type_index, result, rfl⟩
    · intro device freed hmem
      simp only [List.mem_singleton] at hmem
      cases hmem

/-- A sequence that returned: its first request returned, and so did the rest. -/
theorem serve_all_cons_returned (driver : Driver) (history : List MemoryCall)
    (self : Device_Memory_Allocator) (request : Request) (later : List Request)
    (served : List Served)
    (h : (serve_all driver history self (request :: later)).result = Except.ok served) :
    ∃ (memory : VkDeviceMemory) (rest : List Served),
      (serve driver history self request).result = Except.ok memory ∧
      (serve_all driver (history ++ (serve driver history self request).calls)
        (serve driver history self request).allocator later).result = Except.ok rest ∧
      served = { request := request, before := self, memory := memory,
                 calls := (serve driver history self request).calls } :: rest ∧
      (serve_all driver history self (request :: later)).allocator =
        (serve_all driver (history ++ (serve driver history self request).calls)
          (serve driver history self request).allocator later).allocator ∧
      (serve_all driver history self (request :: later)).calls =
        (serve driver history self request).calls ++
        (serve_all driver (history ++ (serve driver history self request).calls)
          (serve driver history self request).allocator later).calls := by
  cases hfirst : (serve driver history self request).result with
  | error message =>
    simp only [serve_all, hfirst] at h
    cases h
  | ok memory =>
    cases hrest : (serve_all driver (history ++ (serve driver history self request).calls)
        (serve driver history self request).allocator later).result with
    | error message =>
      simp only [serve_all, hfirst, hrest] at h
      cases h
    | ok rest =>
      simp only [serve_all, hfirst, hrest] at h
      cases h
      refine ⟨memory, rest, rfl, rfl, rfl, ?_, ?_⟩
      · simp only [serve_all, hfirst]
      · simp only [serve_all, hfirst]

theorem live_memory_free (history : List MemoryCall) (device : VkDevice)
    (memory : VkDeviceMemory) :
    live_memory (history ++ [MemoryCall.vkFreeMemory device memory]) =
      (live_memory history).erase memory := by
  simp [live_memory, List.foldl_append]

theorem live_memory_allocate (history : List MemoryCall) (device : VkDevice)
    (size : VkDeviceSize) (index : Nat) (result : VkResult) (memory : VkDeviceMemory) :
    live_memory (history ++ [MemoryCall.vkAllocateMemory device size index result memory]) =
      if result = VK_SUCCESS then memory :: live_memory history else live_memory history := by
  simp [live_memory, List.foldl_append]

/-- With a well-behaved driver a returned request keeps the allocator consistent. -/
theorem serve_consistent (driver : Driver) (hdriver : driver.well_behaved)
    (history : List MemoryCall) (self : Device_Memory_Allocator) (request : Request)
    (memory : VkDeviceMemory) (hself : self.consistent history)
    (h : (serve driver history self request).result = Except.ok memory) :
    (serve driver history self request).allocator.consistent
      (history ++ (serve driver history self request).calls) := by
  obtain ⟨hstaging, hchunks⟩ := hself
  cases request with
  | staging memory_requirements =>
    simp only [serve] at h ⊢
    rcases allocate_staging_memory_cases driver history self memory_requirements memory h with
      ⟨_, hreuse⟩ | ⟨memory_type_index, result, hres, hanswer, hcalls, hstate⟩
    · rw [hreuse]
      simp only [List.append_nil]
      exact ⟨hstaging, hchunks⟩
    · rw [hcalls, hstate, ← List.append_assoc]
      obtain ⟨hcode, hfresh⟩ := hdriver
        (history ++ if self.staging_chunk ≠ VK_NULL_HANDLE then
          [MemoryCall.vkFreeMemory self.device self.staging_chunk] else [])
        self.device memory_requirements.size memory_type_index
      rw [← hanswer] at hcode hfresh
      simp only at hcode hfresh
      have hsuccess : result = VK_SUCCESS := by
        rcases hcode with hc | hc
        · exact hc
        · exact absurd hres (not_le.mpr hc)
      obtain ⟨hnonnull, hnotlive⟩ := hfresh hsuccess
      unfold Device_Memory_Allocator.consistent
      rw [live_memory_allocate, if_pos hsuccess]
      have hkept : ∀ chunk ∈ self.device_local_chunks,
          chunk ∈ live_memory (history ++ if self.staging_chunk ≠ VK_NULL_HANDLE then
            [MemoryCall.vkFreeMemory self.device self.staging_chunk] else []) := by
        intro chunk hchunk
        by_cases hnull : self.staging_chunk ≠ VK_NULL_HANDLE
        · rw [if_pos hnull, live_memory_free]
          have hne : chunk ≠ self.staging_chunk := by
            intro heq
            rw [heq] at hchunk
            exact (hstaging hnull).2 hchunk
          exact (List.mem_erase_of_ne hne).mpr (hchunks chunk hchunk)
        · rw [if_neg hnull, List.append_nil]
          exact hchunks chunk hchunk
      constructor
      · intro _
        refine ⟨List.mem_cons_self _ _, ?_⟩
        intro hmem
        exact hnotlive (hkept memory hmem)
      · intro chunk hchunk
        exact List.mem_cons_of_mem _ (hkept chunk hchunk)
  | device_local memory_requirements =>
    simp only [serve] at h ⊢
    obtain ⟨memory_type_index, result, hres, hanswer, hcalls, hstate⟩ :=
      allocate_device_local_memory_cases driver history self memory_requirements memory h
    rw [hcalls, hstate]
    obtain ⟨hcode, hfresh⟩ := hdriver history self.device memory_requirements.size
      memory_type_index
    rw [← hanswer] at hcode hfresh
    simp only at hcode hfresh
    have hsuccess : result = VK_SUCCESS := by
      rcases hcode with hc | hc
      · exact hc
      · exact absurd hres (not_le.mpr hc)
    obtain ⟨hnonnull, hnotlive⟩ := hfresh hsuccess
    unfold Device_Memory_Allocator.consistent
    rw [live_memory_allocate, if_pos hsuccess]
    constructor
    · intro hnull
      obtain ⟨hlive, hnot⟩ := hstaging hnull
      refine ⟨List.mem_cons_of_mem _ hlive, ?_⟩
      intro hmem
      rw [List.mem_append, List.mem_singleton] at hmem
      rcases hmem with hmem | hmem
      · exact hnot hmem
      · change self.staging_chunk = memory at hmem
        rw [hmem] at hlive
        exact hnotlive hlive
    · intro chunk hchunk
      rw [List.mem_append, List.mem_singleton] at hchunk
      rcases hchunk with hchunk | hchunk
      · exact List.mem_cons_of_mem _ (hchunks chunk hchunk)
      · rw [hchunk]
        exact List.mem_cons_self _ _

/-- With a well-behaved driver every request of a returned sequence is made on a
consistent allocator, and the allocator is consistent at the end. -/
theorem serve_all_consistent (driver : Driver) (hdriver : driver.well_behaved)
    (requests : List Request) :
    ∀ (history : List MemoryCall) (self : Device_Memory_Allocator) (served : List Served),
      self.consistent history →
      (serve_all driver history self requests).result = Except.ok served →
      (serve_all driver history self requests).allocator.consistent
        (history ++ (serve_all driver history self requests).calls) ∧
      ∀ s ∈ served, s.before.staging_chunk ≠ VK_NULL_HANDLE →
        s.before.staging_chunk ∉ s.before.device_local_chunks := by
  induction requests with
  | nil =>
    intro history self served hself h
    simp only [serve_all] at h ⊢
    cases h
    simp only [List.append_nil]
    exact ⟨hself, fun s hs => absurd hs (List.not_mem_nil s)⟩
  | cons request later ih =>
    intro history self served hself h
    obtain ⟨memory, rest, hfirst, hrest, hserved, hallocator, hcalls⟩ :=
      serve_all_cons_returned driver history self request later served h
    have hnext := serve_consistent driver hdriver history self request memory hself hfirst
    obtain ⟨hfinal, hall⟩ := ih _ _ rest hnext hrest
    rw [hallocator, hcalls, ← List.append_assoc]
    refine ⟨hfinal, ?_⟩
    intro s hs
    rw [hserved, List.mem_cons] at hs
    rcases hs with hs | hs
    · rw [hs]
      intro hnull
      exact (hself.1 hnull).2
    · exact hall s hs

/-- The records of a returned sequence: they follow the requests, each is the record of
one returned request, and the chunk list at the end is the list at the start followed by
the handles returned to the device-local requests. -/
theorem serve_all_records (driver : Driver) (requests : List Request) :
    ∀ (history : List MemoryCall) (self : Device_Memory_Allocator) (served : List Served),
      (serve_all driver history self requests).result = Except.ok served →
      served.map (fun s => s.request) = requests ∧
      (serve_all driver history self requests).allocator.device = self.device ∧
      (serve_all driver history self requests).allocator.device_local_chunks =
        self.device_local_chunks ++
          (served.filter fun s => s.request.is_device_local).map (fun s => s.memory) ∧
      (serve_all driver history self requests).calls =
        (served.map fun s => s.calls).flatten ∧
      ∀ s ∈ served, ∃ (before : List MemoryCall) (later : List VkDeviceMemory),
        s.before.device = self.device ∧
        (serve driver before s.before s.request).result = Except.ok s.memory ∧
        s.calls = (serve driver before s.before s.request).calls ∧
        (serve_all driver history self requests).allocator.device_local_chunks =
          (serve driver before s.before s.request).allocator.device_local_chunks ++ later := by
  induction requests with
  | nil =>
    intro history self served h
    simp only [serve_all] at h ⊢
    cases h
    simp
  | cons request later ih =>
    intro history self served h
    obtain ⟨memory, rest, hfirst, hrest, hserved, hallocator, hcalls⟩ :=
      serve_all_cons_returned driver history self request later served h
    obtain ⟨hdevice, hchunks, _, _⟩ := serve_returned driver history self request memory hfirst
    obtain ⟨hmap, hdev, hlist, htrace, hall⟩ := ih _ _ rest hrest
    rw [hallocator, hcalls, hserved]
    refine ⟨?_, ?_, ?_, ?_, ?_⟩
    · rw [List.map_cons, hmap]
    · rw [hdev, hdevice]
    · rw [hlist, hchunks, List.filter_cons]
      by_cases hlocal : request.is_device_local = true
      · simp [hlocal]
      · simp [hlocal]
    · rw [htrace, List.map_cons, List.flatten_cons]
    · intro s hs
      rw [List.mem_cons] at hs
      rcases hs with hs | hs
      · rw [hs]
        exact ⟨history, _, rfl, hfirst, rfl, hlist⟩
      · obtain ⟨before, tail, h1, h2, h3, h4⟩ := hall s hs
        exact ⟨before, tail, by rw [h1, hdevice], h2, h3, h4⟩

theorem largest_handle_append (history : List MemoryCall) (call : MemoryCall) :
    largest_handle (history ++ [call]) =
      max (largest_handle history) (largest_handle [call]) := by
  induction history with
  | nil =>
    cases call <;> simp [largest_handle]
  | cons first rest ih =>
    cases first with
    | vkFreeMemory device memory =>
      show max memory (largest_handle (rest ++ [call])) = _
      rw [ih]
      simp only [largest_handle, max_assoc]
    | vkAllocateMemory device size index result memory =>
      show max memory (largest_handle (rest ++ [call])) = _
      rw [ih]
      simp only [largest_handle, max_assoc]

theorem live_memory_le_largest (history : List MemoryCall) :
    ∀ memory ∈ live_memory history, memory ≤ largest_handle history := by
  induction history using List.reverseRecOn with
  | nil =>
    intro memory hmem
    simp [live_memory] at hmem
  | append_singleton history call ih =>
    intro memory hmem
    rw [largest_handle_append]
    cases call with
    | vkFreeMemory device freed =>
      rw [live_memory_free] at hmem
      exact le_trans (ih memory (List.mem_of_mem_erase hmem)) (le_max_left _ _)
    | vkAllocateMemory device size index result allocated =>
      rw [live_memory_allocate] at hmem
      by_cases hres : result = VK_SUCCESS
      · rw [if_pos hres, List.mem_cons] at hmem
        rcases hmem with hmem | hmem
        · rw [hmem]
          apply le_trans _ (le_max_right _ _)
          simp [largest_handle]
        · exact le_trans (ih memory hmem) (le_max_left _ _)
      · rw [if_neg hres] at hmem
        exact le_trans (ih memory hmem) (le_max_left _ _)

/-- The sample driver is well behaved: the hypothesis on drivers can be met. -/
theorem sample_driver_well_behaved : sample_driver.well_behaved := by
  intro history device size index
  refine ⟨Or.inl rfl, fun _ => ⟨?_, ?_⟩⟩
  · simp [sample_driver, VK_NULL_HANDLE]
  · intro hmem
    have := live_memory_le_largest history _ hmem
    simp [sample_driver] at this

/-- C3. Device-local accumulation. Take an allocator as the constructor leaves it (no
device-local chunk, no staging chunk) and any sequence of staging and device-local
requests that all return. Then the records of the requests follow the requests;
`device_local_chunks` is exactly the list of the handles returned to the device-local
requests, in request order, so it has as many entries as there are device-local requests;
each device-local request issued exactly one call, a `vkAllocateMemory` on the device of
the allocator whose `allocationSize` is the size of that request and whose handle is the
one it returned; the chunks held before any request are still in the list, in place, at
the end; a `vkFreeMemory` is only ever issued by a staging request, for the staging chunk
it found; and with a well-behaved driver the handle of such a free is not a device-local
chunk. -/
theorem device_local_accumulation (driver : Driver) (self : Device_Memory_Allocator)
    (requests : List Request) (served : List Served)
    (hchunks : self.device_local_chunks = [])
    (hstaging : self.staging_chunk = VK_NULL_HANDLE)
    (h : (serve_all driver [] self requests).result = Except.ok served) :
    served.map (fun s => s.request) = requests ∧
    (serve_all driver [] self requests).allocator.device_local_chunks =
      (served.filter fun s => s.request.is_device_local).map (fun s => s.memory) ∧
    (serve_all driver [] self requests).allocator.device_local_chunks.length =
      (requests.filter Request.is_device_local).length ∧
    (serve_all driver [] self requests).calls = (served.map fun s => s.calls).flatten ∧
    (∀ s ∈ served, s.request.is_device_local = true →
      ∃ (memory_type_index : Nat) (result : VkResult),
        s.calls = [MemoryCall.vkAllocateMemory self.device
          s.request.memory_requirements.size memory_type_index result s.memory]) ∧
    (∀ s ∈ served, ∃ later : List VkDeviceMemory,
      (serve_all driver [] self requests).allocator.device_local_chunks =
        s.before.device_local_chunks ++ later) ∧
    (∀ s ∈ served, ∀ (freed_on : VkDevice) (freed : VkDeviceMemory),
      MemoryCall.vkFreeMemory freed_on freed ∈ s.calls →
        s.request.is_device_local = false ∧ freed = s.before.staging_chunk) ∧
    (driver.well_behaved →
      ∀ s ∈ served, ∀ (freed_on : VkDevice) (freed : VkDeviceMemory),
        MemoryCall.vkFreeMemory freed_on freed ∈ s.calls →
          freed ∉ s.before.device_local_chunks) := by
  obtain ⟨hmap, _, hlist, htrace, hall⟩ := serve_all_records driver requests [] self served h
  have hfinal : (serve_all driver [] self requests).allocator.device_local_chunks =
      (served.filter fun s => s.request.is_device_local).map (fun s => s.memory) := by
    rw [hlist, hchunks, List.nil_append]
  refine ⟨hmap, hfinal, ?_, htrace, ?_, ?_, ?_, ?_⟩
  · rw [hfinal, List.length_map, ← hmap, List.filter_map, List.length_map]
    rfl
  · intro s hs hlocal
    obtain ⟨before, later, hdev, hret, hcalls, _⟩ := hall s hs
    obtain ⟨_, _, hone, _⟩ := serve_returned driver before s.before s.request s.memory hret
    obtain ⟨memory_type_index, result, hcall⟩ := hone hlocal
    rw [hdev] at hcall
    exact ⟨memory_type_index, result, by rw [hcalls, hcall]⟩
  · intro s hs
    obtain ⟨before, later, _, hret, _, hend⟩ := hall s hs
    obtain ⟨_, hgrow, _, _⟩ := serve_returned driver before s.before s.request s.memory hret
    rw [hend, hgrow, List.append_assoc]
    exact ⟨_, rfl⟩
  · intro s hs freed_on freed hmem
    obtain ⟨before, later, _, hret, hcalls, _⟩ := hall s hs
    obtain ⟨_, _, _, hfree⟩ := serve_returned driver before s.before s.request s.memory hret
    rw [hcalls] at hmem
    exact ⟨(hfree freed_on freed hmem).1, (hfree freed_on freed hmem).2.1⟩
  · intro hdriver s hs freed_on freed hmem
    obtain ⟨before, later, _, hret, hcalls, _⟩ := hall s hs
    obtain ⟨_, _, _, hfree⟩ := serve_returned driver before s.before s.request s.memory hret
    rw [hcalls] at hmem
    obtain ⟨_, hfreed, hnull⟩ := hfree freed_on freed hmem
    have hfresh : self.consistent [] := by
      constructor
      · intro hne
        exact absurd hstaging hne
      · intro chunk hchunk
        rw [hchunks] at hchunk
        cases hchunk
    obtain ⟨_, hsep⟩ := serve_all_consistent driver hdriver requests [] self served hfresh h
    rw [hfreed] at hnull ⊢
    exact hsep s hs hnull

theorem device_local_accumulation_witness :
    (serve_all sample_driver [] (Device_Memory_Allocator.construct 1 1)
      sample_requests).allocator.device_local_chunks = [1, 3] ∧
    (serve_all sample_driver [] (Device_Memory_Allocator.construct 1 1) sample_requests).calls =
      [MemoryCall.vkAllocateMemory 1 32 0 VK_SUCCESS 1,
       MemoryCall.vkAllocateMemory 1 16 1 VK_SUCCESS 2,
       MemoryCall.vkAllocateMemory 1 8 0 VK_SUCCESS 3,
       MemoryCall.vkFreeMemory 1 2,
       MemoryCall.vkAllocateMemory 1 64 1 VK_SUCCESS 4] ∧
    ∃ served : List Served,
      (serve_all sample_driver [] (Device_Memory_Allocator.construct 1 1)
        sample_requests).result = Except.ok served ∧
      (serve_all sample_driver [] (Device_Memory_Allocator.construct 1 1)
        sample_requests).allocator.device_local_chunks.length =
          (sample_requests.filter Request.is_device_local).length ∧
      ∀ s ∈ served, ∀ (freed_on : VkDevice) (freed : VkDeviceMemory),
        MemoryCall.vkFreeMemory freed_on freed ∈ s.calls →
          freed ∉ s.before.device_local_chunks :=
  ⟨rfl, rfl, _, rfl,
    (device_local_accumulation sample_driver (Device_Memory_Allocator.construct 1 1)
      sample_requests _ rfl rfl rfl).2.2.1,
    (device_local_accumulation sample_driver (Device_Memory_Allocator.construct 1 1)
      sample_requests _ rfl rfl rfl).2.2.2.2.2.2.2 sample_driver_well_behaved⟩

/-! ## Command runner: the claim -/

/-- C7. Command Runner call order. For every recorder, when every native call succeeds,
`record_and_run_commands` returns and issues exactly this trace: allocate one primary
command buffer from the given pool, begin it with the one-time-submit flag, call the
recorder once with that buffer, end the buffer, submit to the given queue exactly that one
buffer with no wait semaphore, no signal semaphore and no fence, wait for the queue to be
idle, free that same buffer to the same pool. The free is the last call: the queue-idle
wait is among the calls before it and no free is. -/
theorem record_and_run_commands_trace {κ : Type} (driver : RunnerDriver κ)
    (history : List (RunnerCall κ)) (device : VkDevice) (command_pool : VkCommandPool)
    (queue : VkQueue) (recorder : VkCommandBuffer → κ)
    (hallocate : ∀ calls device pool level count,
      (driver.vkAllocateCommandBuffers calls device pool level count).1 = VK_SUCCESS)
    (hbegin : ∀ calls buffer flags, driver.vkBeginCommandBuffer calls buffer flags = VK_SUCCESS)
    (hend : ∀ calls buffer, driver.vkEndCommandBuffer calls buffer = VK_SUCCESS)
    (hsubmit : ∀ calls queue count info fence,
      driver.vkQueueSubmit calls queue count info fence = VK_SUCCESS)
    (hidle : ∀ calls queue, driver.vkQueueWaitIdle calls queue = VK_SUCCESS) :
    ∃ command_buffer : VkCommandBuffer,
      command_buffer = (driver.vkAllocateCommandBuffers history device command_pool
        VK_COMMAND_BUFFER_LEVEL_PRIMARY 1).2 ∧
      (record_and_run_commands driver history device command_pool queue recorder).result =
        Except.ok () ∧
      (record_and_run_commands driver history device command_pool queue recorder).calls =
        [RunnerCall.vkAllocateCommandBuffers device command_pool
            VK_COMMAND_BUFFER_LEVEL_PRIMARY 1 VK_SUCCESS command_buffer,
          RunnerCall.vkBeginCommandBuffer command_buffer
            VK_COMMAND_BUFFER_USAGE_ONE_TIME_SUBMIT_BIT VK_SUCCESS,
          RunnerCall.recorder command_buffer (recorder command_buffer),
          RunnerCall.vkEndCommandBuffer command_buffer VK_SUCCESS,
          RunnerCall.vkQueueSubmit queue 1
            { waitSemaphoreCount := 0
              pWaitSemaphores := []
              pWaitDstStageMask := []
              commandBufferCount := 1
              pCommandBuffers := [command_buffer]
              signalSemaphoreCount := 0
              pSignalSemaphores := [] }
            VK_NULL_HANDLE VK_SUCCESS,
          RunnerCall.vkQueueWaitIdle queue VK_SUCCESS,
          RunnerCall.vkFreeCommandBuffers device command_pool 1 [command_buffer]] ∧
      ∃ earlier : List (RunnerCall κ),
        (record_and_run_commands driver history device command_pool queue recorder).calls =
          earlier ++ [RunnerCall.vkFreeCommandBuffers device command_pool 1 [command_buffer]] ∧
        RunnerCall.vkQueueWaitIdle queue VK_SUCCESS ∈ earlier ∧
        ∀ call ∈ earlier, ∀ device pool count buffers,
          call ≠ RunnerCall.vkFreeCommandBuffers device pool count buffers := by
  refine ⟨_, rfl, ?_⟩
  simp only [record_and_run_commands, hallocate, hbegin, hend, hsubmit, hidle,
    check_vk_result_success, List.cons_append, List.nil_append, true_and]
  refine ⟨[_, _, _, _, _, _], rfl, ?_, ?_⟩
  · simp
  · intro call hcall device2 pool count buffers
    simp only [List.mem_cons, List.mem_singleton, List.not_mem_nil, or_false] at hcall
    rcases hcall with h | h | h | h | h | h <;> rw [h] <;> intro hne <;> cases hne

theorem record_and_run_commands_trace_witness :
    (record_and_run_commands sample_runner_driver [] 1 2 3 (fun _ => "copy")).calls =
      [RunnerCall.vkAllocateCommandBuffers 1 2 0 1 0 9,
        RunnerCall.vkBeginCommandBuffer 9 1 0,
        RunnerCall.recorder 9 "copy",
        RunnerCall.vkEndCommandBuffer 9 0,
        RunnerCall.vkQueueSubmit 3 1
          { waitSemaphoreCount := 0
            pWaitSemaphores := []
            pWaitDstStageMask := []
            commandBufferCount := 1
            pCommandBuffers := [9]
            signalSemaphoreCount := 0
            pSignalSemaphores := [] }
          0 0,
        RunnerCall.vkQueueWaitIdle 3 0,
        RunnerCall.vkFreeCommandBuffers 1 2 1 [9]] ∧
    ∃ command_buffer : VkCommandBuffer,
      command_buffer = (sample_runner_driver.vkAllocateCommandBuffers [] 1 2
        VK_COMMAND_BUFFER_LEVEL_PRIMARY 1).2 ∧
      (record_and_run_commands sample_runner_driver [] 1 2 3 (fun _ => "copy")).result =
        Except.ok () ∧
      (record_and_run_commands sample_runner_driver [] 1 2 3 (fun _ => "copy")).calls =
        [RunnerCall.vkAllocateCommandBuffers 1 2
            VK_COMMAND_BUFFER_LEVEL_PRIMARY 1 VK_SUCCESS command_buffer,
          RunnerCall.vkBeginCommandBuffer command_buffer
            VK_COMMAND_BUFFER_USAGE_ONE_TIME_SUBMIT_BIT VK_SUCCESS,
          RunnerCall.recorder command_buffer ((fun _ => "copy") command_buffer),
          RunnerCall.vkEndCommandBuffer command_buffer VK_SUCCESS,
          RunnerCall.vkQueueSubmit 3 1
            { waitSemaphoreCount := 0
              pWaitSemaphores := []
              pWaitDstStageMask := []
              commandBufferCount := 1
              pCommandBuffers := [command_buffer]
              signalSemaphoreCount := 0
              pSignalSemaphores := [] }
            VK_NULL_HANDLE VK_SUCCESS,
          RunnerCall.vkQueueWaitIdle 3 VK_SUCCESS,
          RunnerCall.vkFreeCommandBuffers 1 2 1 [command_buffer]] ∧
      ∃ earlier : List (RunnerCall String),
        (record_and_run_commands sample_runner_driver [] 1 2 3 (fun _ => "copy")).calls =
          earlier ++ [RunnerCall.vkFreeCommandBuffers 1 2 1 [command_buffer]] ∧
        RunnerCall.vkQueueWaitIdle 3 VK_SUCCESS ∈ earlier ∧
        ∀ call ∈ earlier, ∀ device pool count buffers,
          call ≠ RunnerCall.vkFreeCommandBuffers device pool count buffers :=
  ⟨rfl,
    record_and_run_commands_trace sample_runner_driver [] 1 2 3 (fun _ => "copy")
      (fun _ _ _ _ _ => rfl) (fun _ _ _ => rfl) (fun _ _ => rfl) (fun _ _ _ _ _ => rfl)
      (fun _ _ => rfl)⟩

/-! ## Frame cycle: the claims -/

theorem CheckVkResult_success (function_name : String) :
    CheckVkResult VK_SUCCESS function_name = Except.ok () := by
  simp [CheckVkResult, VK_SUCCESS]

/-- C9. Frame-cycle wiring. In a `RunFrame` cycle in which the acquire succeeds with image
index `i` and the submit succeeds, the calls are exactly: the acquire on the swapchain of
the state with timeout `UINT64_MAX`, the image-available semaphore and no fence; one submit
on the present queue of exactly the command buffer `presentQueueCommandBuffers[i]`, which
waits on exactly the image-available semaphore at the transfer stage and signals exactly
the rendering-finished semaphore, with no fence; one present on the present queue for
image index `i` of the same swapchain, which waits on exactly the rendering-finished
semaphore. The frame returns when the present succeeds. -/
theorem frame_cycle_wiring (driver : FrameDriver) (history : List MainCall)
    (vulkanState : VulkanState) (i : Nat) (command_buffer : VkCommandBuffer)
    (hacquire : driver.vkAcquireNextImageKHR history vulkanState.device
      vulkanState.swapchainInfo.handle UINT64_MAX vulkanState.imageAvailableSemaphore
      VK_NULL_HANDLE = (VK_SUCCESS, i))
    (hbuffer : vulkanState.presentQueueCommandBuffers[i]? = some command_buffer)
    (hsubmit : ∀ calls queue count info fence,
      driver.vkQueueSubmit calls queue count info fence = VK_SUCCESS) :
    ∃ presented : VkResult,
      (RunFrame driver history vulkanState).calls =
        [MainCall.vkAcquireNextImageKHR vulkanState.device vulkanState.swapchainInfo.handle
            UINT64_MAX vulkanState.imageAvailableSemaphore VK_NULL_HANDLE VK_SUCCESS i,
          MainCall.vkQueueSubmit vulkanState.presentQueue 1
            { waitSemaphoreCount := 1
              pWaitSemaphores := [vulkanState.imageAvailableSemaphore]
              pWaitDstStageMask := [VK_PIPELINE_STAGE_TRANSFER_BIT]
              commandBufferCount := 1
              pCommandBuffers := [some command_buffer]
              signalSemaphoreCount := 1
              pSignalSemaphores := [vulkanState.renderingFinishedSemaphore] }
            VK_NULL_HANDLE VK_SUCCESS,
          MainCall.vkQueuePresentKHR vulkanState.presentQueue
            { waitSemaphoreCount := 1
              pWaitSemaphores := [vulkanState.renderingFinishedSemaphore]
              swapchainCount := 1
              pSwapchains := [vulkanState.swapchainInfo.handle]
              pImageIndices := [i] }
            presented] ∧
      (presented = VK_SUCCESS → (RunFrame driver history vulkanState).result = Except.ok ()) := by
  simp only [RunFrame, hacquire, hsubmit, hbuffer, CheckVkResult_success, List.cons_append,
    List.nil_append]
  generalize driver.vkQueuePresentKHR _ _ _ = presented
  refine ⟨presented, ?_, ?_⟩
  · cases CheckVkResult presented "vkQueuePresentKHR" <;> rfl
  · intro hpresented
    rw [hpresented, CheckVkResult_success]

theorem frame_cycle_wiring_witness :
    (RunFrame sample_frame_driver
        [MainCall.vkAcquireNextImageKHR 2 6 UINT64_MAX 7 0 0 0] sample_state).calls =
      [MainCall.vkAcquireNextImageKHR 2 6 18446744073709551615 7 0 0 1,
        MainCall.vkQueueSubmit 4 1
          { waitSemaphoreCount := 1
            pWaitSemaphores := [7]
            pWaitDstStageMask := [4096]
            commandBufferCount := 1
            pCommandBuffers := [some 31]
            signalSemaphoreCount := 1
            pSignalSemaphores := [8] }
          0 0,
        MainCall.vkQueuePresentKHR 4
          { waitSemaphoreCount := 1
            pWaitSemaphores := [8]
            swapchainCount := 1
            pSwapchains := [6]
            pImageIndices := [1] }
          0] ∧
    ∃ presented : VkResult,
      (RunFrame sample_frame_driver
          [MainCall.vkAcquireNextImageKHR 2 6 UINT64_MAX 7 0 0 0] sample_state).calls =
        [MainCall.vkAcquireNextImageKHR sample_state.device sample_state.swapchainInfo.handle
            UINT64_MAX sample_state.imageAvailableSemaphore VK_NULL_HANDLE VK_SUCCESS 1,
          MainCall.vkQueueSubmit sample_state.presentQueue 1
            { waitSemaphoreCount := 1
              pWaitSemaphores := [sample_state.imageAvailableSemaphore]
              pWaitDstStageMask := [VK_PIPELINE_STAGE_TRANSFER_BIT]
              commandBufferCount := 1
              pCommandBuffers := [some 31]
              signalSemaphoreCount := 1
              pSignalSemaphores := [sample_state.renderingFinishedSemaphore] }
            VK_NULL_HANDLE VK_SUCCESS,
          MainCall.vkQueuePresentKHR sample_state.presentQueue
            { waitSemaphoreCount := 1
              pWaitSemaphores := [sample_state.renderingFinishedSemaphore]
              swapchainCount := 1
              pSwapchains := [sample_state.swapchainInfo.handle]
              pImageIndices := [1] }
            presented] ∧
      (presented = VK_SUCCESS →
        (RunFrame sample_frame_driver
          [MainCall.vkAcquireNextImageKHR 2 6 UINT64_MAX 7 0 0 0] sample_state).result =
            Except.ok ()) :=
  ⟨rfl,
    frame_cycle_wiring sample_frame_driver
      [MainCall.vkAcquireNextImageKHR 2 6 UINT64_MAX 7 0 0 0] sample_state 1 31 rfl rfl
      (fun _ _ _ _ _ => rfl)⟩

theorem poll_events_false (pending : List SDL_Event) : poll_events pending false = false := by
  induction pending with
  | nil => rfl
  | cons event rest ih =>
    simp only [poll_events, List.foldl_cons, ite_self]
    exact ih

theorem poll_events_cons (event : SDL_Event) (rest : List SDL_Event) (running : Bool) :
    poll_events (event :: rest) running =
      poll_events rest (if event.type = SDL_QUIT then false else running) := by
  simp only [poll_events, List.foldl_cons]

/-- The loop keeps running exactly when no pending event is `SDL_QUIT`. -/
theorem poll_events_true_iff (pending : List SDL_Event) :
    poll_events pending true = true ↔ ∀ event ∈ pending, event.type ≠ SDL_QUIT := by
  induction pending with
  | nil => simp [poll_events]
  | cons event rest ih =>
    rw [poll_events_cons]
    by_cases hquit : event.type = SDL_QUIT
    · rw [if_pos hquit, poll_events_false]
      constructor
      · intro h
        cases h
      · intro h
        exact absurd hquit (h event (List.mem_cons_self _ _))
    · rw [if_neg hquit, ih]
      constructor
      · intro h e he
        rw [List.mem_cons] at he
        rcases he with he | he
        · rw [he]
          exact hquit
        · exact h e he
      · intro h e he
        exact h e (List.mem_cons_of_mem _ he)

/-- A frame in which every call succeeds returns after acquire, submit, present. -/
theorem RunFrame_returns (driver : FrameDriver) (history : List MainCall)
    (vulkanState : VulkanState)
    (hacquire : ∀ calls device swapchain timeout semaphore fence,
      (driver.vkAcquireNextImageKHR calls device swapchain timeout semaphore fence).1 =
        VK_SUCCESS)
    (hsubmit : ∀ calls queue count info fence,
      driver.vkQueueSubmit calls queue count info fence = VK_SUCCESS)
    (hpresent : ∀ calls queue info, driver.vkQueuePresentKHR calls queue info = VK_SUCCESS) :
    (RunFrame driver history vulkanState).result = Except.ok () ∧
    (RunFrame driver history vulkanState).calls.map MainCall.kind =
      [CallKind.acquire, CallKind.submit, CallKind.present] ∧
    (RunFrame driver history vulkanState).calls.filter is_cycle_call =
      (RunFrame driver history vulkanState).calls := by
  refine ⟨?_, ?_, ?_⟩ <;>
    simp [RunFrame, hacquire, hsubmit, hpresent, CheckVkResult_success, MainCall.kind,
      is_cycle_call]

/-- Position `n` of acquire, submit, present repeated `k` times. -/
theorem cycle_pattern_index (k : Nat) :
    ∀ n, n < 3 * k →
      (List.replicate k [CallKind.acquire, CallKind.submit, CallKind.present]).flatten[n]? =
        some (if n % 3 = 0 then CallKind.acquire
          else if n % 3 = 1 then CallKind.submit else CallKind.present) := by
  induction k with
  | zero =>
    intro n hn
    omega
  | succ k ih =>
    intro n hn
    rw [List.replicate_succ, List.flatten_cons]
    by_cases hsmall : n < 3
    · interval_cases n <;> simp
    · rw [List.getElem?_append_right (by simp; omega)]
      have h3 : n % 3 = (n - 3) % 3 := by omega
      simp only [List.length_cons, List.length_nil]
      rw [ih (n - 3) (by omega), h3]

/-- C8. Frame-cycle single-flight. When every native call succeeds and the main loop runs
`k` frames (the events polled in each of the first `k` passes hold no `SDL_QUIT`, those of
the next pass do), `RunMainLoop` returns, and its acquire, submit and present calls are
exactly acquire, submit, present repeated `k` times; with the delays of the loop the whole
trace is acquire, submit, present, delay repeated `k` times. Position by position: the
`n`-th of the acquire, submit and present calls is an acquire when `n` is a multiple of 3,
a submit when `n` is 1 modulo 3 and a present when `n` is 2 modulo 3, so an acquire is only
issued first or right after the present of the cycle before, and every submit and present
follows the acquire of its own cycle. -/
theorem frame_cycle_single_flight (driver : FrameDriver) (vulkanState : VulkanState)
    (history : List MainCall) (frames : List (List SDL_Event)) (quitting : List SDL_Event)
    (later : List (List SDL_Event))
    (hacquire : ∀ calls device swapchain timeout semaphore fence,
      (driver.vkAcquireNextImageKHR calls device swapchain timeout semaphore fence).1 =
        VK_SUCCESS)
    (hsubmit : ∀ calls queue count info fence,
      driver.vkQueueSubmit calls queue count info fence = VK_SUCCESS)
    (hpresent : ∀ calls queue info, driver.vkQueuePresentKHR calls queue info = VK_SUCCESS)
    (hframes : ∀ pending ∈ frames, ∀ event ∈ pending, event.type ≠ SDL_QUIT)
    (hquit : ∃ event ∈ quitting, event.type = SDL_QUIT) :
    (RunMainLoop driver vulkanState history (frames ++ quitting :: later)).result =
      Except.ok LoopStatus.returned ∧
    ((RunMainLoop driver vulkanState history (frames ++ quitting :: later)).calls.filter
      is_cycle_call).map MainCall.kind =
      (List.replicate frames.length
        [CallKind.acquire, CallKind.submit, CallKind.present]).flatten ∧
    (RunMainLoop driver vulkanState history (frames ++ quitting :: later)).calls.map
      MainCall.kind =
      (List.replicate frames.length
        [CallKind.acquire, CallKind.submit, CallKind.present, CallKind.delay]).flatten ∧
    ∀ n, n < 3 * frames.length →
      (((RunMainLoop driver vulkanState history (frames ++ quitting :: later)).calls.filter
        is_cycle_call).map MainCall.kind)[n]? =
        some (if n % 3 = 0 then CallKind.acquire
          else if n % 3 = 1 then CallKind.submit else CallKind.present) := by
  have hmain : (RunMainLoop driver vulkanState history (frames ++ quitting :: later)).result =
        Except.ok LoopStatus.returned ∧
      ((RunMainLoop driver vulkanState history (frames ++ quitting :: later)).calls.filter
        is_cycle_call).map MainCall.kind =
        (List.replicate frames.length
          [CallKind.acquire, CallKind.submit, CallKind.present]).flatten ∧
      (RunMainLoop driver vulkanState history (frames ++ quitting :: later)).calls.map
        MainCall.kind =
        (List.replicate frames.length
          [CallKind.acquire, CallKind.submit, CallKind.present, CallKind.delay]).flatten := by
    induction frames generalizing history with
    | nil =>
      have hstop : poll_events quitting true = false := by
        cases hp : poll_events quitting true with
        | false => rfl
        | true =>
          obtain ⟨event, hmem, htype⟩ := hquit
          exact absurd htype ((poll_events_true_iff quitting).mp hp event hmem)
      simp [RunMainLoop, hstop]
    | cons pending rest ih =>
      have hgo : poll_events pending true = true :=
        (poll_events_true_iff pending).mpr (hframes pending (List.mem_cons_self _ _))
      obtain ⟨hresult, hkinds, hcycle⟩ :=
        RunFrame_returns driver history vulkanState hacquire hsubmit hpresent
      obtain ⟨h1, h2, h3⟩ := ih
        (history ++ ((RunFrame driver history vulkanState).calls ++ [MainCall.SDL_Delay 1]))
        (fun p hp => hframes p (List.mem_cons_of_mem _ hp))
      simp only [List.cons_append, RunMainLoop, hgo, if_true, hresult, List.append_eq]
      refine ⟨h1, ?_, ?_⟩
      · rw [List.filter_append, List.filter_append, List.map_append, List.map_append, hcycle,
          hkinds, h2]
        simp [List.replicate_succ, is_cycle_call]
      · rw [List.map_append, List.map_append, hkinds, h3]
        simp [List.replicate_succ, MainCall.kind]
  refine ⟨hmain.1, hmain.2.1, hmain.2.2, ?_⟩
  intro n hn
  rw [hmain.2.1]
  exact cycle_pattern_index frames.length n hn

theorem frame_cycle_single_flight_witness :
    (RunMainLoop sample_frame_driver sample_state []
      ([[], [{ type := 0x300 }]] ++ [{ type := SDL_QUIT }] :: [[]])).calls.map MainCall.kind =
      [CallKind.acquire, CallKind.submit, CallKind.present, CallKind.delay,
        CallKind.acquire, CallKind.submit, CallKind.present, CallKind.delay] ∧
    (RunMainLoop sample_frame_driver sample_state []
      ([[], [{ type := 0x300 }]] ++ [{ type := SDL_QUIT }] :: [[]])).result =
      Except.ok LoopStatus.returned ∧
    ((RunMainLoop sample_frame_driver sample_state []
      ([[], [{ type := 0x300 }]] ++ [{ type := SDL_QUIT }] :: [[]])).calls.filter
      is_cycle_call).map MainCall.kind =
      (List.replicate ([[], [{ type := 0x300 }]] : List (List SDL_Event)).length
        [CallKind.acquire, CallKind.submit, CallKind.present]).flatten :=
  ⟨rfl,
    (frame_cycle_single_flight sample_frame_driver sample_state []
      [[], [{ type := 0x300 }]] [{ type := SDL_QUIT }] [[]]
      (fun _ _ _ _ _ _ => rfl) (fun _ _ _ _ _ => rfl) (fun _ _ _ => rfl)
      (by
        intro pending hp event he
        simp only [List.mem_cons, List.mem_singleton, List.not_mem_nil, or_false] at hp
        rcases hp with hp | hp
        · subst hp
          cases he
        · subst hp
          simp only [List.mem_singleton] at he
          subst he
          decide)
      ⟨{ type := SDL_QUIT }, List.mem_singleton.mpr rfl, rfl⟩).1,
    (frame_cycle_single_flight sample_frame_driver sample_state []
      [[], [{ type := 0x300 }]] [{ type := SDL_QUIT }] [[]]
      (fun _ _ _ _ _ _ => rfl) (fun _ _ _ _ _ => rfl) (fun _ _ _ => rfl)
      (by
        intro pending hp event he
        simp only [List.mem_cons, List.mem_singleton, List.not_mem_nil, or_false] at hp
        rcases hp with hp | hp
        · subst hp
          cases he
        · subst hp
          simp only [List.mem_singleton] at he
          subst he
          decide)
      ⟨{ type := SDL_QUIT }, List.mem_singleton.mpr rfl, rfl⟩).2.1⟩

theorem CheckVkResult_negative (result : VkResult) (function_name : String)
    (h : result < 0) :
    CheckVkResult result function_name =
      Except.error (function_name ++ " has returned an error code") := by
  simp [CheckVkResult, error, h]

/-- A frame whose acquire succeeds, as do submit and present. -/
theorem RunFrame_returns_at (driver : FrameDriver) (history : List MainCall)
    (vulkanState : VulkanState)
    (hacquire : (driver.vkAcquireNextImageKHR history vulkanState.device
      vulkanState.swapchainInfo.handle UINT64_MAX vulkanState.imageAvailableSemaphore
      VK_NULL_HANDLE).1 = VK_SUCCESS)
    (hsubmit : ∀ calls queue count info fence,
      driver.vkQueueSubmit calls queue count info fence = VK_SUCCESS)
    (hpresent : ∀ calls queue info, driver.vkQueuePresentKHR calls queue info = VK_SUCCESS) :
    (RunFrame driver history vulkanState).result = Except.ok () ∧
    (RunFrame driver history vulkanState).calls.map MainCall.kind =
      [CallKind.acquire, CallKind.submit, CallKind.present] ∧
    List.countP is_acquire (RunFrame driver history vulkanState).calls = 1 ∧
    List.countP is_rebuild (RunFrame driver history vulkanState).calls = 0 := by
  refine ⟨?_, ?_, ?_, ?_⟩ <;>
    simp [RunFrame, hacquire, hsubmit, hpresent, CheckVkResult_success, MainCall.kind,
      is_acquire, is_rebuild]

/-- A frame whose acquire reports an error: the frame ends in the fatal error right after
the acquire. -/
theorem RunFrame_fatal_acquire (driver : FrameDriver) (history : List MainCall)
    (vulkanState : VulkanState)
    (hacquire : (driver.vkAcquireNextImageKHR history vulkanState.device
      vulkanState.swapchainInfo.handle UINT64_MAX vulkanState.imageAvailableSemaphore
      VK_NULL_HANDLE).1 < 0) :
    (RunFrame driver history vulkanState).result =
      Except.error ("vkAcquireNextImageKHR" ++ " has returned an error code") ∧
    (RunFrame driver history vulkanState).calls.map MainCall.kind = [CallKind.acquire] ∧
    List.countP is_rebuild (RunFrame driver history vulkanState).calls = 0 := by
  refine ⟨?_, ?_, ?_⟩ <;>
    simp [RunFrame, CheckVkResult_negative _ _ hacquire, MainCall.kind, is_rebuild]

/-- C10, as the code has it. When the third acquire of a run reports out-of-date and every
other call succeeds, and the loop is not asked to quit in its first three passes, the run
completes two cycles, issues the third acquire and ends there in the fatal error of
`CheckVkResult`: no swapchain is rebuilt (`CreateSwapchain` is not called), no submit or
present follows the third acquire, and no later frame runs. -/
theorem stale_acquire_is_fatal (driver : FrameDriver) (vulkanState : VulkanState)
    (history : List MainCall) (first second third : List SDL_Event)
    (later : List (List SDL_Event))
    (hhistory : List.countP is_acquire history = 0)
    (hacquire : ∀ calls device swapchain timeout semaphore fence,
      (driver.vkAcquireNextImageKHR calls device swapchain timeout semaphore fence).1 =
        if List.countP is_acquire calls = 2 then VK_ERROR_OUT_OF_DATE_KHR else VK_SUCCESS)
    (hsubmit : ∀ calls queue count info fence,
      driver.vkQueueSubmit calls queue count info fence = VK_SUCCESS)
    (hpresent : ∀ calls queue info, driver.vkQueuePresentKHR calls queue info = VK_SUCCESS)
    (hfirst : ∀ event ∈ first, event.type ≠ SDL_QUIT)
    (hsecond : ∀ event ∈ second, event.type ≠ SDL_QUIT)
    (hthird : ∀ event ∈ third, event.type ≠ SDL_QUIT) :
    (RunMainLoop driver vulkanState history (first :: second :: third :: later)).result =
      Except.error ("vkAcquireNextImageKHR" ++ " has returned an error code") ∧
    (RunMainLoop driver vulkanState history (first :: second :: third :: later)).calls.map
      MainCall.kind =
      [CallKind.acquire, CallKind.submit, CallKind.present, CallKind.delay,
        CallKind.acquire, CallKind.submit, CallKind.present, CallKind.delay,
        CallKind.acquire] ∧
    List.countP is_rebuild
      (RunMainLoop driver vulkanState history (first :: second :: third :: later)).calls = 0 ∧
    ¬ recovers_from_staleness
      (RunMainLoop driver vulkanState history (first :: second :: third :: later)) := by
  have hgo1 := (poll_events_true_iff first).mpr hfirst
  have hgo2 := (poll_events_true_iff second).mpr hsecond
  have hgo3 := (poll_events_true_iff third).mpr hthird
  obtain ⟨hr1, hk1, ha1, hb1⟩ := RunFrame_returns_at driver history vulkanState
    (by rw [hacquire, hhistory]; rfl) hsubmit hpresent
  have hcount1 : List.countP is_acquire
      (history ++ ((RunFrame driver history vulkanState).calls ++ [MainCall.SDL_Delay 1])) =
        1 := by
    simp [List.countP_append, hhistory, ha1, is_acquire]
  obtain ⟨hr2, hk2, ha2, hb2⟩ := RunFrame_returns_at driver
    (history ++ ((RunFrame driver history vulkanState).calls ++ [MainCall.SDL_Delay 1]))
    vulkanState (by rw [hacquire, hcount1]; rfl) hsubmit hpresent
  have hcount2 : List.countP is_acquire
      (history ++ ((RunFrame driver history vulkanState).calls ++ [MainCall.SDL_Delay 1]) ++
        ((RunFrame driver
          (history ++ ((RunFrame driver history vulkanState).calls ++ [MainCall.SDL_Delay 1]))
          vulkanState).calls ++ [MainCall.SDL_Delay 1])) = 2 := by
    rw [List.countP_append, hcount1]
    simp [List.countP_append, ha2, is_acquire]
  obtain ⟨hr3, hk3, hb3⟩ := RunFrame_fatal_acquire driver
    (history ++ ((RunFrame driver history vulkanState).calls ++ [MainCall.SDL_Delay 1]) ++
      ((RunFrame driver
        (history ++ ((RunFrame driver history vulkanState).calls ++ [MainCall.SDL_Delay 1]))
        vulkanState).calls ++ [MainCall.SDL_Delay 1]))
    vulkanState (by rw [hacquire, hcount2]; decide)
  have hresult : (RunMainLoop driver vulkanState history
      (first :: second :: third :: later)).result =
        Except.error ("vkAcquireNextImageKHR" ++ " has returned an error code") := by
    simp only [RunMainLoop, hgo1, hgo2, hgo3, if_true, hr1, hr2, hr3]
  have hrebuild : List.countP is_rebuild
      (RunMainLoop driver vulkanState history (first :: second :: third :: later)).calls =
        0 := by
    simp only [RunMainLoop, hgo1, hgo2, hgo3, if_true, hr1, hr2, hr3, List.countP_append, hb1,
      hb2, hb3]
    simp [is_rebuild]
  refine ⟨hresult, ?_, hrebuild, ?_⟩
  · simp only [RunMainLoop, hgo1, hgo2, hgo3, if_true, hr1, hr2, hr3, List.map_append, hk1,
      hk2, hk3]
    simp [MainCall.kind]
  · rintro ⟨hone, _⟩
    rw [hrebuild] at hone
    cases hone

theorem stale_acquire_is_fatal_witness :
    (RunMainLoop stale_frame_driver sample_state []
      ([] :: [] :: [] :: [[], [], [{ type := SDL_QUIT }]])).result =
      Except.error ("vkAcquireNextImageKHR" ++ " has returned an error code") ∧
    (RunMainLoop stale_frame_driver sample_state []
      ([] :: [] :: [] :: [[], [], [{ type := SDL_QUIT }]])).calls.map MainCall.kind =
      [CallKind.acquire, CallKind.submit, CallKind.present, CallKind.delay,
        CallKind.acquire, CallKind.submit, CallKind.present, CallKind.delay,
        CallKind.acquire] ∧
    List.countP is_rebuild
      (RunMainLoop stale_frame_driver sample_state []
        ([] :: [] :: [] :: [[], [], [{ type := SDL_QUIT }]])).calls = 0 ∧
    ¬ recovers_from_staleness
      (RunMainLoop stale_frame_driver sample_state []
        ([] :: [] :: [] :: [[], [], [{ type := SDL_QUIT }]])) :=
  stale_acquire_is_fatal stale_frame_driver sample_state [] [] [] []
    [[], [], [{ type := SDL_QUIT }]] rfl
    (fun _ _ _ _ _ _ => rfl) (fun _ _ _ _ _ => rfl) (fun _ _ _ => rfl)
    (fun _ h => absurd h (List.not_mem_nil _)) (fun _ h => absurd h (List.not_mem_nil _))
    (fun _ h => absurd h (List.not_mem_nil _))

/-- C10, as the claim states it, fails: with a mock acquire that reports out-of-date on its
third invocation the run ends in the fatal error after the third acquire, having rebuilt no
swapchain. -/
theorem recoverable_staleness_counterexample :
    (stale_frame_driver.vkAcquireNextImageKHR
      (RunMainLoop sample_frame_driver sample_state [] [[], []]).calls 2 6 UINT64_MAX 7 0).1 =
        VK_ERROR_OUT_OF_DATE_KHR ∧
    (RunMainLoop stale_frame_driver sample_state []
      [[], [], [], [], [], [{ type := SDL_QUIT }]]).result =
      Except.error "vkAcquireNextImageKHR has returned an error code" ∧
    (RunMainLoop stale_frame_driver sample_state []
      [[], [], [], [], [], [{ type := SDL_QUIT }]]).calls.map MainCall.kind =
      [CallKind.acquire, CallKind.submit, CallKind.present, CallKind.delay,
        CallKind.acquire, CallKind.submit, CallKind.present, CallKind.delay,
        CallKind.acquire] ∧
    ¬ recovers_from_staleness
      (RunMainLoop stale_frame_driver sample_state []
        [[], [], [], [], [], [{ type := SDL_QUIT }]]) := by
  refine ⟨rfl, rfl, rfl, ?_⟩
  rintro ⟨hone, _⟩
  have hzero : List.countP is_rebuild
      (RunMainLoop stale_frame_driver sample_state []
        [[], [], [], [], [], [{ type := SDL_QUIT }]]).calls = 0 := rfl
  rw [hzero] at hone
  cases hone

/-! ## Staging texture upload: the claim -/

theorem wrap_int_of_range (x : Int) (h0 : -2 ^ 31 ≤ x) (h1 : x < 2 ^ 31) :
    wrap_int x = x := by
  unfold wrap_int
  omega

theorem to_uint64_natCast (n : Nat) (h : n < 2 ^ 64) : to_uint64 (n : Int) = n := by
  unfold to_uint64
  omega

theorem memcpy_inside (data : MappedMemory) (dst : Nat) (pixels : PixelBuffer) (src : Int)
    (count offset : Nat) (h1 : dst ≤ offset) (h2 : offset < dst + count) :
    memcpy data dst pixels src count offset = pixels (src + ((offset - dst : Nat) : Int)) := by
  unfold memcpy
  rw [if_pos ⟨h1, h2⟩]

theorem memcpy_outside (data : MappedMemory) (dst : Nat) (pixels : PixelBuffer) (src : Int)
    (count offset : Nat) (h : ¬ (dst ≤ offset ∧ offset < dst + count)) :
    memcpy data dst pixels src count offset = data offset := by
  unfold memcpy
  rw [if_neg h]

/-- One pass of the row loop, with the loop variable a natural number. -/
theorem copy_rows_succ (rowPitch bytes_per_row : Nat) (pixels : PixelBuffer)
    (remaining i : Nat) (data : MappedMemory)
    (hdst : i * rowPitch < 2 ^ 64) (hsrc : i * bytes_per_row < 2 ^ 31) :
    copy_rows rowPitch (bytes_per_row : Int) pixels (remaining + 1) (i : Int) data =
      copy_rows rowPitch (bytes_per_row : Int) pixels remaining ((i + 1 : Nat) : Int)
        (memcpy data (i * rowPitch) pixels ((i * bytes_per_row : Nat) : Int)
          (to_uint64 (bytes_per_row : Int))) := by
  have hi : i < 2 ^ 64 ∨ rowPitch = 0 := by
    by_cases hp : rowPitch = 0
    · exact Or.inr hp
    · left
      have : i * 1 ≤ i * rowPitch := Nat.mul_le_mul_left i (by omega)
      omega
  have h1 : (to_uint64 (i : Int) * rowPitch) % 2 ^ 64 = i * rowPitch := by
    rcases hi with hi | hi
    · rw [to_uint64_natCast i hi]
      exact Nat.mod_eq_of_lt hdst
    · rw [hi]
      simp
  have h2 : wrap_int ((i : Int) * (bytes_per_row : Int)) = ((i * bytes_per_row : Nat) : Int) := by
    rw [← Nat.cast_mul]
    apply wrap_int_of_range
    · have : (0 : Int) ≤ ((i * bytes_per_row : Nat) : Int) := Int.natCast_nonneg _
      omega
    · exact_mod_cast hsrc
  show copy_rows rowPitch (bytes_per_row : Int) pixels remaining ((i : Int) + 1) _ = _
  rw [h1, h2]
  rfl

/-- The row loop leaves alone every offset that is in none of its rows. -/
theorem copy_rows_untouched (rowPitch bytes_per_row : Nat) (pixels : PixelBuffer)
    (hrow : bytes_per_row < 2 ^ 64) (remaining : Nat) :
    ∀ (i : Nat) (data : MappedMemory) (offset : Nat),
      (∀ j, i ≤ j → j < i + remaining →
        j * rowPitch < 2 ^ 64 ∧ j * bytes_per_row < 2 ^ 31 ∧
          ¬ (j * rowPitch ≤ offset ∧ offset < j * rowPitch + bytes_per_row)) →
      copy_rows rowPitch (bytes_per_row : Int) pixels remaining (i : Int) data offset =
        data offset := by
  induction remaining with
  | zero =>
    intro i data offset _
    rfl
  | succ n ih =>
    intro i data offset hrows
    obtain ⟨hdst, hsrc, hout⟩ := hrows i (le_refl _) (by omega)
    rw [copy_rows_succ rowPitch bytes_per_row pixels n i data hdst hsrc,
      ih (i + 1) _ offset (fun j hj1 hj2 => hrows j (by omega) (by omega)),
      to_uint64_natCast bytes_per_row hrow]
    exact memcpy_outside _ _ _ _ _ _ hout

/-- The row loop leaves row `r` of the source at offset `r * rowPitch`. -/
theorem copy_rows_written (rowPitch bytes_per_row : Nat) (pixels : PixelBuffer)
    (hrow : bytes_per_row < 2 ^ 64) (hpitch : bytes_per_row ≤ rowPitch) (remaining : Nat) :
    ∀ (i : Nat) (data : MappedMemory) (r k : Nat),
      i ≤ r → r < i + remaining → k < bytes_per_row →
      (∀ j, i ≤ j → j < i + remaining →
        j * rowPitch < 2 ^ 64 ∧ j * bytes_per_row < 2 ^ 31) →
      copy_rows rowPitch (bytes_per_row : Int) pixels remaining (i : Int) data
          (r * rowPitch + k) =
        pixels ((r * bytes_per_row + k : Nat) : Int) := by
  induction remaining with
  | zero =>
    intro i data r k h1 h2
    omega
  | succ n ih =>
    intro i data r k h1 h2 hk hrows
    obtain ⟨hdst, hsrc⟩ := hrows i (le_refl _) (by omega)
    rw [copy_rows_succ rowPitch bytes_per_row pixels n i data hdst hsrc]
    by_cases hri : r = i
    · subst hri
      rw [copy_rows_untouched rowPitch bytes_per_row pixels hrow n (r + 1) _ _ ?_,
        to_uint64_natCast bytes_per_row hrow,
        memcpy_inside _ _ _ _ _ _ (Nat.le_add_right _ _) (by omega)]
      · congr 1
        rw [Nat.add_sub_cancel_left]
        push_cast
        ring
      · intro j hj1 hj2
        obtain ⟨h3, h4⟩ := hrows j (by omega) (by omega)
        refine ⟨h3, h4, ?_⟩
        rintro ⟨h5, _⟩
        have h6 : (r + 1) * rowPitch ≤ j * rowPitch := Nat.mul_le_mul_right _ hj1
        rw [Nat.add_mul, Nat.one_mul] at h6
        omega
    · exact ih (i + 1) _ r k (by omega) (by omega) hk
        (fun j hj1 hj2 => hrows j (by omega) (by omega))

/-- C6, as the code has it. Row-pitch upload correctness within the range of `int`: for
every width `W`, height `H`, bytes per pixel `B` with `W * B * H < 2 ^ 31` (the products
`image_width * bytes_per_pixel`, `bytes_per_row * image_height` and `i * bytes_per_row`
are computed in `int`) and every row pitch `P ≥ W * B` whose rows end within the 64-bit
offsets of the mapping, after the copy of `create_staging_texture` the mapped memory at
offset `r * P + k` holds `pixels[r * W * B + k]`, for every row `r < H` and every byte
`k < W * B`; this covers the bulk branch (`P = W * B`) and the row-by-row branch
(`P > W * B`). -/
theorem row_pitch_upload (W H B P : Nat) (pixels : PixelBuffer) (data : MappedMemory)
    (hpitch : W * B ≤ P) (hint : W * B * H < 2 ^ 31)
    (hmapped : (H - 1) * P + W * B ≤ 2 ^ 64) (r k : Nat) (hr : r < H) (hk : k < W * B) :
    create_staging_texture_copy (W : Int) (H : Int) (B : Int) P pixels data (r * P + k) =
      pixels ((r * (W * B) + k : Nat) : Int) := by
  have hrows : ∀ j, j < H → j * (W * B) + W * B ≤ W * B * H := by
    intro j hj
    have h1 : (j + 1) * (W * B) ≤ H * (W * B) := Nat.mul_le_mul_right _ hj
    rw [Nat.add_mul, Nat.one_mul, Nat.mul_comm H] at h1
    exact h1
  have hrow : W * B < 2 ^ 31 := by
    have := hrows 0 (by omega)
    omega
  have hbytes : wrap_int ((W : Int) * (B : Int)) = ((W * B : Nat) : Int) := by
    rw [← Nat.cast_mul]
    apply wrap_int_of_range
    · have : (0 : Int) ≤ ((W * B : Nat) : Int) := Int.natCast_nonneg _
      omega
    · exact_mod_cast hrow
  have hcount : to_uint64 (wrap_int (((W * B : Nat) : Int) * (H : Int))) = W * B * H := by
    rw [← Nat.cast_mul, wrap_int_of_range]
    · exact to_uint64_natCast _ (by omega)
    · have : (0 : Int) ≤ ((W * B * H : Nat) : Int) := Int.natCast_nonneg _
      omega
    · exact_mod_cast hint
  have hwidth : to_uint64 ((W * B : Nat) : Int) = W * B := to_uint64_natCast _ (by omega)
  unfold create_staging_texture_copy
  simp only [hbytes, hwidth, hcount, Int.toNat_ofNat]
  by_cases htight : P = W * B
  · rw [if_pos htight, memcpy_inside _ _ _ _ _ _ (Nat.zero_le _)]
    · rw [htight]
      simp
    · rw [htight]
      have := hrows r hr
      omega
  · rw [if_neg htight]
    have hzero : (0 : Int) = ((0 : Nat) : Int) := rfl
    rw [hzero]
    apply copy_rows_written P (W * B) pixels (by omega) hpitch H 0 data r k (Nat.zero_le _)
      (by omega) hk
    intro j _ hj
    have hj2 : j < H := by omega
    constructor
    · have h1 : j * P ≤ (H - 1) * P := Nat.mul_le_mul_right _ (by omega)
      omega
    · have := hrows j hj2
      omega

theorem row_pitch_upload_witness :
    create_staging_texture_copy 2 2 1 4 counting_pixels zeroed_memory 5 = 3 ∧
    create_staging_texture_copy 2 2 1 4 counting_pixels zeroed_memory 3 = 0 ∧
    create_staging_texture_copy ((2 : Nat) : Int) ((2 : Nat) : Int) ((1 : Nat) : Int) 4
        counting_pixels zeroed_memory (1 * 4 + 1) =
      counting_pixels ((1 * (2 * 1) + 1 : Nat) : Int) :=
  ⟨by decide, by decide,
    row_pitch_upload 2 2 1 4 counting_pixels zeroed_memory (by decide) (by decide) (by decide)
      1 1 (by decide) (by decide)⟩

/-- C6, as the claim states it, fails: for a 32768 x 32768 image of 4 bytes per pixel with
the tight row pitch 131072 the byte count `bytes_per_row * image_height` of the bulk copy
is `2 ^ 32`, which in `int` is 0, so nothing is copied and the first byte of the mapped
memory is not the first byte of the source. -/
theorem row_pitch_upload_counterexample :
    32768 * 4 ≤ 131072 ∧
    to_uint64 (wrap_int (wrap_int (32768 * 4) * 32768)) = 0 ∧
    create_staging_texture_copy 32768 32768 4 131072 white_pixels zeroed_memory
        (0 * 131072 + 0) = 0 ∧
    white_pixels ((0 * (32768 * 4) + 0 : Nat) : Int) = 255 ∧
    create_staging_texture_copy 32768 32768 4 131072 white_pixels zeroed_memory
        (0 * 131072 + 0) ≠
      white_pixels ((0 * (32768 * 4) + 0 : Nat) : Int) := by
  refine ⟨by decide, by decide, by decide, by decide, by decide⟩

/-! ## Result checks: the claim -/

/-- C12. Fatal iff negative status. For every result code `r`, `VK_CHECK` and
`VK_CHECK_RESULT` end in the fatal error if and only if `r < 0`; for `r ≥ 0` (success and
the positive status codes such as suboptimal) they raise nothing and execution continues.
The message of `VK_CHECK` is "Vulkan: ", the name of the result code, " returned by " and
the text of the call; the message of `VK_CHECK_RESULT` is "Vulkan error ", the name of the
result code, ":  " and the message of the caller; so both contain the name of the code
and the operation text. -/
theorem fatal_iff_negative (string_VkResult : VkResult → String) (r : VkResult)
    (text : String) :
    ((∃ message, VK_CHECK string_VkResult r text = Except.error message) ↔ r < 0) ∧
    ((∃ message, VK_CHECK_RESULT string_VkResult r text = Except.error message) ↔ r < 0) ∧
    (0 ≤ r → VK_CHECK string_VkResult r text = Except.ok () ∧
      VK_CHECK_RESULT string_VkResult r text = Except.ok ()) ∧
    (r < 0 →
      VK_CHECK string_VkResult r text =
        Except.error ("Vulkan: " ++ string_VkResult r ++ " returned by " ++ text) ∧
      VK_CHECK_RESULT string_VkResult r text =
        Except.error ("Vulkan error " ++ string_VkResult r ++ ":  " ++ text)) ∧
    (∀ message, VK_CHECK string_VkResult r text = Except.error message →
      (∃ before after, message = before ++ string_VkResult r ++ after) ∧
      (∃ before after, message = before ++ text ++ after)) ∧
    (∀ message, VK_CHECK_RESULT string_VkResult r text = Except.error message →
      (∃ before after, message = before ++ string_VkResult r ++ after) ∧
      (∃ before after, message = before ++ text ++ after)) := by
  by_cases hneg : r < 0
  · have h1 : VK_CHECK string_VkResult r text =
        Except.error ("Vulkan: " ++ string_VkResult r ++ " returned by " ++ text) := by
      simp [VK_CHECK, error, hneg]
    have h2 : VK_CHECK_RESULT string_VkResult r text =
        Except.error ("Vulkan error " ++ string_VkResult r ++ ":  " ++ text) := by
      simp [VK_CHECK_RESULT, error, hneg]
    refine ⟨⟨fun _ => hneg, fun _ => ⟨_, h1⟩⟩, ⟨fun _ => hneg, fun _ => ⟨_, h2⟩⟩, ?_,
      fun _ => ⟨h1, h2⟩, ?_, ?_⟩
    · intro hle
      exact absurd hneg (not_lt.mpr hle)
    · intro message hmessage
      rw [h1] at hmessage
      cases hmessage
      refine ⟨⟨"Vulkan: ", " returned by " ++ text, ?_⟩,
        ⟨"Vulkan: " ++ string_VkResult r ++ " returned by ", "", ?_⟩⟩
      · simp [String.append_assoc]
      · simp
    · intro message hmessage
      rw [h2] at hmessage
      cases hmessage
      refine ⟨⟨"Vulkan error ", ":  " ++ text, ?_⟩,
        ⟨"Vulkan error " ++ string_VkResult r ++ ":  ", "", ?_⟩⟩
      · simp [String.append_assoc]
      · simp
  · have h1 : VK_CHECK string_VkResult r text = Except.ok () := by
      simp [VK_CHECK, hneg]
    have h2 : VK_CHECK_RESULT string_VkResult r text = Except.ok () := by
      simp [VK_CHECK_RESULT, hneg]
    refine ⟨⟨?_, fun h => absurd h hneg⟩, ⟨?_, fun h => absurd h hneg⟩, fun _ => ⟨h1, h2⟩,
      fun h => absurd h hneg, ?_, ?_⟩
    · rintro ⟨message, hmessage⟩
      rw [h1] at hmessage
      cases hmessage
    · rintro ⟨message, hmessage⟩
      rw [h2] at hmessage
      cases hmessage
    · intro message hmessage
      rw [h1] at hmessage
      cases hmessage
    · intro message hmessage
      rw [h2] at hmessage
      cases hmessage

theorem fatal_iff_negative_witness :
    VK_CHECK sample_string_VkResult VK_ERROR_OUT_OF_DATE_KHR "vkQueuePresentKHR(queue, &info)" =
      Except.error
        "Vulkan: VK_ERROR_OUT_OF_DATE_KHR returned by vkQueuePresentKHR(queue, &info)" ∧
    VK_CHECK sample_string_VkResult VK_SUBOPTIMAL_KHR "vkQueuePresentKHR(queue, &info)" =
      Except.ok () ∧
    VK_CHECK_RESULT sample_string_VkResult VK_SUBOPTIMAL_KHR "present" = Except.ok () :=
  ⟨((fatal_iff_negative sample_string_VkResult VK_ERROR_OUT_OF_DATE_KHR
      "vkQueuePresentKHR(queue, &info)").2.2.2.1 (by decide)).1,
    ((fatal_iff_negative sample_string_VkResult VK_SUBOPTIMAL_KHR
      "vkQueuePresentKHR(queue, &info)").2.2.1 (by decide)).1,
    ((fatal_iff_negative sample_string_VkResult VK_SUBOPTIMAL_KHR "present").2.2.1
      (by decide)).2⟩

/-! ## Teardown: the claims -/

theorem CheckVkResult_ok_iff (result : VkResult) (function_name : String) :
    CheckVkResult result function_name = Except.ok () ↔ 0 ≤ result := by
  unfold CheckVkResult error
  by_cases h : result < 0
  · simp [h]
  · simp [h]
    exact not_lt.mp h

/-- A run of the teardown whose wait reports an error ends there. -/
theorem CleanupVulkanResources_fatal (vkDeviceWaitIdle : VkDevice → VkResult)
    (globals : Globals) (h : vkDeviceWaitIdle globals.vulkanState.device < 0) :
    CleanupVulkanResources vkDeviceWaitIdle globals =
      { result := Except.error ("vkDeviceWaitIdle" ++ " has returned an error code")
        globals := globals
        calls := [CleanupCall.vkDeviceWaitIdle globals.vulkanState.device
          (vkDeviceWaitIdle globals.vulkanState.device)] } := by
  simp only [CleanupVulkanResources, CheckVkResult_negative _ _ h]

/-- A run of the teardown whose wait reports no error: the calls and the globals after. -/
theorem CleanupVulkanResources_returns (vkDeviceWaitIdle : VkDevice → VkResult)
    (globals : Globals) (h : 0 ≤ vkDeviceWaitIdle globals.vulkanState.device) :
    CleanupVulkanResources vkDeviceWaitIdle globals =
      { result := Except.ok ()
        globals :=
          { vulkanState := { globals.vulkanState with
              vkInstance := VK_NULL_HANDLE
              device := VK_NULL_HANDLE
              surface := VK_NULL_HANDLE
              swapchainInfo := SwapchainInfo.default
              imageAvailableSemaphore := VK_NULL_HANDLE
              renderingFinishedSemaphore := VK_NULL_HANDLE
              presentQueueCommandPool := VK_NULL_HANDLE }
            renderPass := VK_NULL_HANDLE
            framebuffers := [] }
        calls :=
          (CleanupCall.vkDeviceWaitIdle globals.vulkanState.device
              (vkDeviceWaitIdle globals.vulkanState.device) ::
            globals.framebuffers.map
              (CleanupCall.vkDestroyFramebuffer globals.vulkanState.device) ++
            globals.vulkanState.swapchainInfo.imageViews.map
              (CleanupCall.vkDestroyImageView globals.vulkanState.device) ++
            [CleanupCall.vkDestroyRenderPass globals.vulkanState.device globals.renderPass,
              CleanupCall.vkDestroySemaphore globals.vulkanState.device
                globals.vulkanState.imageAvailableSemaphore,
              CleanupCall.vkDestroySemaphore globals.vulkanState.device
                globals.vulkanState.renderingFinishedSemaphore,
              CleanupCall.vkDestroyCommandPool globals.vulkanState.device
                globals.vulkanState.presentQueueCommandPool]) ++
          [CleanupCall.vkDestroySwapchainKHR globals.vulkanState.device
              globals.vulkanState.swapchainInfo.handle,
            CleanupCall.vkDestroySurfaceKHR globals.vulkanState.vkInstance
              globals.vulkanState.surface,
            CleanupCall.vkDestroyDevice globals.vulkanState.device,
            CleanupCall.vkDestroyInstance globals.vulkanState.vkInstance] } := by
  have hcheck := (CheckVkResult_ok_iff _ "vkDeviceWaitIdle").mpr h
  simp only [CleanupVulkanResources, hcheck, List.cons_append, List.nil_append,
    List.append_assoc]

/-- The order of four calls that close a list in which they do not occur. -/
theorem tail_order {α : Type} (calls : List α) (b1 b2 b3 b4 : α)
    (h1 : b1 ∉ calls) (h2 : b2 ∉ calls) (h3 : b3 ∉ calls) (h4 : b4 ∉ calls)
    (h12 : b1 ≠ b2) (h13 : b1 ≠ b3) (h14 : b1 ≠ b4) (h23 : b2 ≠ b3) (h24 : b2 ≠ b4)
    (h34 : b3 ≠ b4) :
    (∀ a ∈ calls, comes_before a b1 (calls ++ [b1, b2, b3, b4])) ∧
    comes_before b1 b2 (calls ++ [b1, b2, b3, b4]) ∧
    comes_before b2 b3 (calls ++ [b1, b2, b3, b4]) ∧
    comes_before b3 b4 (calls ++ [b1, b2, b3, b4]) ∧
    (∀ a ∈ calls, comes_before a b3 (calls ++ [b1, b2, b3, b4])) ∧
    comes_before b1 b3 (calls ++ [b1, b2, b3, b4]) := by
  refine ⟨?_, ?_, ?_, ?_, ?_, ?_⟩
  · intro a ha
    refine ⟨calls, [b2, b3, b4], rfl, ha, h1, ?_⟩
    simp [h12, h13, h14]
  · refine ⟨calls ++ [b1], [b3, b4], by simp, by simp, ?_, ?_⟩
    · simp [h2, Ne.symm h12]
    · simp [h23, h24]
  · refine ⟨calls ++ [b1, b2], [b4], by simp, by simp, ?_, ?_⟩
    · simp [h3, Ne.symm h13, Ne.symm h23]
    · simp [h34]
  · refine ⟨calls ++ [b1, b2, b3], [], by simp, by simp, ?_, ?_⟩
    · simp [h4, Ne.symm h14, Ne.symm h24, Ne.symm h34]
    · simp
  · intro a ha
    refine ⟨calls ++ [b1, b2], [b4], by simp, by simp [ha], ?_, ?_⟩
    · simp [h3, Ne.symm h13, Ne.symm h23]
    · simp [h34]
  · refine ⟨calls ++ [b1, b2], [b4], by simp, by simp, ?_, ?_⟩
    · simp [h3, Ne.symm h13, Ne.symm h23]
    · simp [h34]

/-- C11. Destruction order. In every run of `CleanupVulkanResources` the device-idle wait
is the first native call. When the wait reports an error the run ends there, in the fatal
error, with nothing destroyed. Otherwise the run returns and: the destroy of every
framebuffer, of every swapchain image view and of the render pass comes before the one
`vkDestroySwapchainKHR`; that comes before the one `vkDestroySurfaceKHR`, that before the
one `vkDestroyDevice`, and that before the one `vkDestroyInstance`; and the destroy of
every device child (both semaphores, the command pool, every image view, every
framebuffer, the render pass and the swapchain) comes before `vkDestroyDevice`. -/
theorem destruction_order (vkDeviceWaitIdle : VkDevice → VkResult) (globals : Globals) :
    (CleanupVulkanResources vkDeviceWaitIdle globals).calls.head? =
      some (CleanupCall.vkDeviceWaitIdle globals.vulkanState.device
        (vkDeviceWaitIdle globals.vulkanState.device)) ∧
    (vkDeviceWaitIdle globals.vulkanState.device < 0 →
      (∃ message, (CleanupVulkanResources vkDeviceWaitIdle globals).result =
        Except.error message) ∧
      (CleanupVulkanResources vkDeviceWaitIdle globals).calls =
        [CleanupCall.vkDeviceWaitIdle globals.vulkanState.device
          (vkDeviceWaitIdle globals.vulkanState.device)]) ∧
    (0 ≤ vkDeviceWaitIdle globals.vulkanState.device →
      (CleanupVulkanResources vkDeviceWaitIdle globals).result = Except.ok () ∧
      (∀ framebuffer ∈ globals.framebuffers,
        comes_before
          (CleanupCall.vkDestroyFramebuffer globals.vulkanState.device framebuffer)
          (CleanupCall.vkDestroySwapchainKHR globals.vulkanState.device
            globals.vulkanState.swapchainInfo.handle)
          (CleanupVulkanResources vkDeviceWaitIdle globals).calls) ∧
      (∀ imageView ∈ globals.vulkanState.swapchainInfo.imageViews,
        comes_before
          (CleanupCall.vkDestroyImageView globals.vulkanState.device imageView)
          (CleanupCall.vkDestroySwapchainKHR globals.vulkanState.device
            globals.vulkanState.swapchainInfo.handle)
          (CleanupVulkanResources vkDeviceWaitIdle globals).calls) ∧
      comes_before
        (CleanupCall.vkDestroyRenderPass globals.vulkanState.device globals.renderPass)
        (CleanupCall.vkDestroySwapchainKHR globals.vulkanState.device
          globals.vulkanState.swapchainInfo.handle)
        (CleanupVulkanResources vkDeviceWaitIdle globals).calls ∧
      comes_before
        (CleanupCall.vkDestroySwapchainKHR globals.vulkanState.device
          globals.vulkanState.swapchainInfo.handle)
        (CleanupCall.vkDestroySurfaceKHR globals.vulkanState.vkInstance
          globals.vulkanState.surface)
        (CleanupVulkanResources vkDeviceWaitIdle globals).calls ∧
      comes_before
        (CleanupCall.vkDestroySurfaceKHR globals.vulkanState.vkInstance
          globals.vulkanState.surface)
        (CleanupCall.vkDestroyDevice globals.vulkanState.device)
        (CleanupVulkanResources vkDeviceWaitIdle globals).calls ∧
      comes_before
        (CleanupCall.vkDestroyDevice globals.vulkanState.device)
        (CleanupCall.vkDestroyInstance globals.vulkanState.vkInstance)
        (CleanupVulkanResources vkDeviceWaitIdle globals).calls ∧
      (∀ child,
        (child = CleanupCall.vkDestroySemaphore globals.vulkanState.device
            globals.vulkanState.imageAvailableSemaphore ∨
          child = CleanupCall.vkDestroySemaphore globals.vulkanState.device
            globals.vulkanState.renderingFinishedSemaphore ∨
          child = CleanupCall.vkDestroyCommandPool globals.vulkanState.device
            globals.vulkanState.presentQueueCommandPool ∨
          (∃ imageView ∈ globals.vulkanState.swapchainInfo.imageViews,
            child = CleanupCall.vkDestroyImageView globals.vulkanState.device imageView) ∨
          (∃ framebuffer ∈ globals.framebuffers,
            child = CleanupCall.vkDestroyFramebuffer globals.vulkanState.device framebuffer) ∨
          child = CleanupCall.vkDestroyRenderPass globals.vulkanState.device
            globals.renderPass ∨
          child = CleanupCall.vkDestroySwapchainKHR globals.vulkanState.device
            globals.vulkanState.swapchainInfo.handle) →
        comes_before child (CleanupCall.vkDestroyDevice globals.vulkanState.device)
          (CleanupVulkanResources vkDeviceWaitIdle globals).calls)) := by
  refine ⟨?_, ?_, ?_⟩
  · by_cases h : 0 ≤ vkDeviceWaitIdle globals.vulkanState.device
    · rw [CleanupVulkanResources_returns vkDeviceWaitIdle globals h]
      rfl
    · rw [CleanupVulkanResources_fatal vkDeviceWaitIdle globals (not_le.mp h)]
      rfl
  · intro h
    rw [CleanupVulkanResources_fatal vkDeviceWaitIdle globals h]
    exact ⟨⟨_, rfl⟩, rfl⟩
  · intro h
    rw [CleanupVulkanResources_returns vkDeviceWaitIdle globals h]
    obtain ⟨hfirst, h12, h23, h34, hthird, h13⟩ := tail_order
      (CleanupCall.vkDeviceWaitIdle globals.vulkanState.device
          (vkDeviceWaitIdle globals.vulkanState.device) ::
        globals.framebuffers.map
          (CleanupCall.vkDestroyFramebuffer globals.vulkanState.device) ++
        globals.vulkanState.swapchainInfo.imageViews.map
          (CleanupCall.vkDestroyImageView globals.vulkanState.device) ++
        [CleanupCall.vkDestroyRenderPass globals.vulkanState.device globals.renderPass,
          CleanupCall.vkDestroySemaphore globals.vulkanState.device
            globals.vulkanState.imageAvailableSemaphore,
          CleanupCall.vkDestroySemaphore globals.vulkanState.device
            globals.vulkanState.renderingFinishedSemaphore,
          CleanupCall.vkDestroyCommandPool globals.vulkanState.device
            globals.vulkanState.presentQueueCommandPool])
      (CleanupCall.vkDestroySwapchainKHR globals.vulkanState.device
        globals.vulkanState.swapchainInfo.handle)
      (CleanupCall.vkDestroySurfaceKHR globals.vulkanState.vkInstance
        globals.vulkanState.surface)
      (CleanupCall.vkDestroyDevice globals.vulkanState.device)
      (CleanupCall.vkDestroyInstance globals.vulkanState.vkInstance)
      (by simp) (by simp) (by simp) (by simp) (by simp) (by simp) (by simp) (by simp)
      (by simp) (by simp)
    have hframebuffer : ∀ framebuffer ∈ globals.framebuffers,
        CleanupCall.vkDestroyFramebuffer globals.vulkanState.device framebuffer ∈
          (CleanupCall.vkDeviceWaitIdle globals.vulkanState.device
              (vkDeviceWaitIdle globals.vulkanState.device) ::
            globals.framebuffers.map
              (CleanupCall.vkDestroyFramebuffer globals.vulkanState.device) ++
            globals.vulkanState.swapchainInfo.imageViews.map
              (CleanupCall.vkDestroyImageView globals.vulkanState.device) ++
            [CleanupCall.vkDestroyRenderPass globals.vulkanState.device globals.renderPass,
              CleanupCall.vkDestroySemaphore globals.vulkanState.device
                globals.vulkanState.imageAvailableSemaphore,
              CleanupCall.vkDestroySemaphore globals.vulkanState.device
                globals.vulkanState.renderingFinishedSemaphore,
              CleanupCall.vkDestroyCommandPool globals.vulkanState.device
                globals.vulkanState.presentQueueCommandPool]) := by
      intro framebuffer hmem
      simp only [List.cons_append, List.mem_cons, List.mem_append, List.mem_map]
      exact Or.inr (Or.inl (Or.inl ⟨framebuffer, hmem, rfl⟩))
    have himageView : ∀ imageView ∈ globals.vulkanState.swapchainInfo.imageViews,
        CleanupCall.vkDestroyImageView globals.vulkanState.device imageView ∈
          (CleanupCall.vkDeviceWaitIdle globals.vulkanState.device
              (vkDeviceWaitIdle globals.vulkanState.device) ::
            globals.framebuffers.map
              (CleanupCall.vkDestroyFramebuffer globals.vulkanState.device) ++
            globals.vulkanState.swapchainInfo.imageViews.map
              (CleanupCall.vkDestroyImageView globals.vulkanState.device) ++
            [CleanupCall.vkDestroyRenderPass globals.vulkanState.device globals.renderPass,
              CleanupCall.vkDestroySemaphore globals.vulkanState.device
                globals.vulkanState.imageAvailableSemaphore,
              CleanupCall.vkDestroySemaphore globals.vulkanState.device
                globals.vulkanState.renderingFinishedSemaphore,
              CleanupCall.vkDestroyCommandPool globals.vulkanState.device
                globals.vulkanState.presentQueueCommandPool]) := by
      intro imageView hmem
      simp only [List.cons_append, List.mem_cons, List.mem_append, List.mem_map]
      exact Or.inr (Or.inl (Or.inr ⟨imageView, hmem, rfl⟩))
    refine ⟨rfl, fun framebuffer hmem => hfirst _ (hframebuffer framebuffer hmem),
      fun imageView hmem => hfirst _ (himageView imageView hmem),
      hfirst _ (by simp), h12, h23, h34, ?_⟩
    intro child hchild
    rcases hchild with h1 | h1 | h1 | ⟨v, hv, h1⟩ | ⟨f, hf, h1⟩ | h1 | h1
    · exact hthird _ (by rw [h1]; simp)
    · exact hthird _ (by rw [h1]; simp)
    · exact hthird _ (by rw [h1]; simp)
    · rw [h1]
      exact hthird _ (himageView v hv)
    · rw [h1]
      exact hthird _ (hframebuffer f hf)
    · exact hthird _ (by rw [h1]; simp)
    · rw [h1]
      exact h13

theorem destruction_order_witness :
    (CleanupVulkanResources (fun _ => VK_SUCCESS) sample_globals).calls =
      [CleanupCall.vkDeviceWaitIdle 2 0,
        CleanupCall.vkDestroyFramebuffer 2 50,
        CleanupCall.vkDestroyFramebuffer 2 51,
        CleanupCall.vkDestroyImageView 2 20,
        CleanupCall.vkDestroyImageView 2 21,
        CleanupCall.vkDestroyRenderPass 2 40,
        CleanupCall.vkDestroySemaphore 2 7,
        CleanupCall.vkDestroySemaphore 2 8,
        CleanupCall.vkDestroyCommandPool 2 9,
        CleanupCall.vkDestroySwapchainKHR 2 6,
        CleanupCall.vkDestroySurfaceKHR 1 5,
        CleanupCall.vkDestroyDevice 2,
        CleanupCall.vkDestroyInstance 1] ∧
    (CleanupVulkanResources (fun _ => -4) sample_globals).calls =
      [CleanupCall.vkDeviceWaitIdle 2 (-4)] ∧
    (CleanupVulkanResources (fun _ => VK_SUCCESS) sample_globals).calls.head? =
      some (CleanupCall.vkDeviceWaitIdle sample_globals.vulkanState.device
        ((fun _ => VK_SUCCESS) sample_globals.vulkanState.device)) ∧
    comes_before
      (CleanupCall.vkDestroySwapchainKHR sample_globals.vulkanState.device
        sample_globals.vulkanState.swapchainInfo.handle)
      (CleanupCall.vkDestroySurfaceKHR sample_globals.vulkanState.vkInstance
        sample_globals.vulkanState.surface)
      (CleanupVulkanResources (fun _ => VK_SUCCESS) sample_globals).calls :=
  ⟨rfl, rfl, (destruction_order (fun _ => VK_SUCCESS) sample_globals).1,
    ((destruction_order (fun _ => VK_SUCCESS) sample_globals).2.2 (by decide)).2.2.2.2.1⟩

/-- C14. Swapchain teardown releases exactly N views before the chain. In a run of
`CleanupVulkanResources` whose device-idle wait reports no error, on a swapchain with the
image views `imageViews` (N of them), the `vkDestroyImageView` calls are exactly one for
each `imageViews[i]`, in order, so N calls; `vkDestroySwapchainKHR` is called exactly
once, on the handle of the swapchain; all N view destroys are issued before it and none
after it; and afterwards the stored image-view list is empty and the stored
`SwapchainInfo` is the default value. -/
theorem swapchain_teardown (vkDeviceWaitIdle : VkDevice → VkResult) (globals : Globals)
    (hwait : 0 ≤ vkDeviceWaitIdle globals.vulkanState.device) :
    (CleanupVulkanResources vkDeviceWaitIdle globals).result = Except.ok () ∧
    (CleanupVulkanResources vkDeviceWaitIdle globals).calls.filter is_destroy_image_view =
      globals.vulkanState.swapchainInfo.imageViews.map
        (CleanupCall.vkDestroyImageView globals.vulkanState.device) ∧
    ((CleanupVulkanResources vkDeviceWaitIdle globals).calls.filter
      is_destroy_image_view).length = globals.vulkanState.swapchainInfo.imageViews.length ∧
    (CleanupVulkanResources vkDeviceWaitIdle globals).calls.filter is_destroy_swapchain =
      [CleanupCall.vkDestroySwapchainKHR globals.vulkanState.device
        globals.vulkanState.swapchainInfo.handle] ∧
    (∃ before after,
      (CleanupVulkanResources vkDeviceWaitIdle globals).calls =
        before ++ CleanupCall.vkDestroySwapchainKHR globals.vulkanState.device
          globals.vulkanState.swapchainInfo.handle :: after ∧
      before.filter is_destroy_image_view =
        globals.vulkanState.swapchainInfo.imageViews.map
          (CleanupCall.vkDestroyImageView globals.vulkanState.device) ∧
      after.filter is_destroy_image_view = [] ∧
      before.filter is_destroy_swapchain = [] ∧
      after.filter is_destroy_swapchain = []) ∧
    (CleanupVulkanResources vkDeviceWaitIdle globals).globals.vulkanState.swapchainInfo.imageViews
      = [] ∧
    (CleanupVulkanResources vkDeviceWaitIdle globals).globals.vulkanState.swapchainInfo =
      SwapchainInfo.default := by
  have hframebuffers : ∀ (device : VkDevice) (framebuffers : List VkFramebuffer),
      (framebuffers.map (CleanupCall.vkDestroyFramebuffer device)).filter
          is_destroy_image_view = [] ∧
        (framebuffers.map (CleanupCall.vkDestroyFramebuffer device)).filter
          is_destroy_swapchain = [] := by
    intro device framebuffers
    constructor <;>
      · rw [List.filter_eq_nil_iff]
        intro call hcall
        rw [List.mem_map] at hcall
        obtain ⟨_, _, hcall⟩ := hcall
        rw [← hcall]
        simp [is_destroy_image_view, is_destroy_swapchain]
  have hviews : ∀ (device : VkDevice) (views : List VkImageView),
      (views.map (CleanupCall.vkDestroyImageView device)).filter is_destroy_image_view =
          views.map (CleanupCall.vkDestroyImageView device) ∧
        (views.map (CleanupCall.vkDestroyImageView device)).filter is_destroy_swapchain =
          [] := by
    intro device views
    constructor
    · rw [List.filter_eq_self]
      intro call hcall
      rw [List.mem_map] at hcall
      obtain ⟨_, _, hcall⟩ := hcall
      rw [← hcall]
      rfl
    · rw [List.filter_eq_nil_iff]
      intro call hcall
      rw [List.mem_map] at hcall
      obtain ⟨_, _, hcall⟩ := hcall
      rw [← hcall]
      simp [is_destroy_swapchain]
  have hbefore :
      (CleanupCall.vkDeviceWaitIdle globals.vulkanState.device
          (vkDeviceWaitIdle globals.vulkanState.device) ::
        globals.framebuffers.map
          (CleanupCall.vkDestroyFramebuffer globals.vulkanState.device) ++
        globals.vulkanState.swapchainInfo.imageViews.map
          (CleanupCall.vkDestroyImageView globals.vulkanState.device) ++
        [CleanupCall.vkDestroyRenderPass globals.vulkanState.device globals.renderPass,
          CleanupCall.vkDestroySemaphore globals.vulkanState.device
            globals.vulkanState.imageAvailableSemaphore,
          CleanupCall.vkDestroySemaphore globals.vulkanState.device
            globals.vulkanState.renderingFinishedSemaphore,
          CleanupCall.vkDestroyCommandPool globals.vulkanState.device
            globals.vulkanState.presentQueueCommandPool]).filter is_destroy_image_view =
        globals.vulkanState.swapchainInfo.imageViews.map
          (CleanupCall.vkDestroyImageView globals.vulkanState.device) ∧
      (CleanupCall.vkDeviceWaitIdle globals.vulkanState.device
          (vkDeviceWaitIdle globals.vulkanState.device) ::
        globals.framebuffers.map
          (CleanupCall.vkDestroyFramebuffer globals.vulkanState.device) ++
        globals.vulkanState.swapchainInfo.imageViews.map
          (CleanupCall.vkDestroyImageView globals.vulkanState.device) ++
        [CleanupCall.vkDestroyRenderPass globals.vulkanState.device globals.renderPass,
          CleanupCall.vkDestroySemaphore globals.vulkanState.device
            globals.vulkanState.imageAvailableSemaphore,
          CleanupCall.vkDestroySemaphore globals.vulkanState.device
            globals.vulkanState.renderingFinishedSemaphore,
          CleanupCall.vkDestroyCommandPool globals.vulkanState.device
            globals.vulkanState.presentQueueCommandPool]).filter is_destroy_swapchain =
        [] := by
    constructor
    · rw [List.cons_append, List.cons_append, List.filter_cons_of_neg (by simp [is_destroy_image_view]),
        List.filter_append, List.filter_append, (hframebuffers _ _).1, (hviews _ _).1]
      simp [is_destroy_image_view]
    · rw [List.cons_append, List.cons_append, List.filter_cons_of_neg (by simp [is_destroy_swapchain]),
        List.filter_append, List.filter_append, (hframebuffers _ _).2, (hviews _ _).2]
      simp [is_destroy_swapchain]
  rw [CleanupVulkanResources_returns vkDeviceWaitIdle globals hwait]
  refine ⟨rfl, ?_, ?_, ?_, ⟨_, _, rfl, hbefore.1, ?_, hbefore.2, ?_⟩, rfl, rfl⟩
  · show List.filter is_destroy_image_view (_ ++ _) = _
    rw [List.filter_append, hbefore.1]
    simp [is_destroy_image_view]
  · show (List.filter is_destroy_image_view (_ ++ _)).length = _
    rw [List.filter_append, hbefore.1]
    simp [is_destroy_image_view]
  · show List.filter is_destroy_swapchain (_ ++ _) = _
    rw [List.filter_append, hbefore.2]
    simp [is_destroy_swapchain]
  · simp [is_destroy_image_view]
  · simp [is_destroy_swapchain]

theorem swapchain_teardown_witness :
    (CleanupVulkanResources (fun _ => VK_SUCCESS) sample_globals).calls.filter
      is_destroy_image_view =
      [CleanupCall.vkDestroyImageView 2 20, CleanupCall.vkDestroyImageView 2 21] ∧
    ((CleanupVulkanResources (fun _ => VK_SUCCESS) sample_globals).calls.filter
      is_destroy_image_view).length =
      sample_globals.vulkanState.swapchainInfo.imageViews.length ∧
    (CleanupVulkanResources (fun _ => VK_SUCCESS)
      sample_globals).globals.vulkanState.swapchainInfo = SwapchainInfo.default :=
  ⟨rfl,
    (swapchain_teardown (fun _ => VK_SUCCESS) sample_globals (by decide)).2.2.1,
    (swapchain_teardown (fun _ => VK_SUCCESS) sample_globals (by decide)).2.2.2.2.2.2⟩

/-! ## Allocator ownership and teardown -/

theorem frees_only_live_nil : frees_only_live [] := by
  intro before device memory after h
  cases before <;> cases h

theorem frees_only_live_append (history : List MemoryCall) (call : MemoryCall)
    (hhistory : frees_only_live history)
    (hcall : ∀ device memory, call = MemoryCall.vkFreeMemory device memory →
      memory ∈ live_memory history) :
    frees_only_live (history ++ [call]) := by
  intro before device memory after h
  rw [List.append_eq_append_iff] at h
  rcases h with ⟨middle, hbefore, hcalls⟩ | ⟨middle, hhist, hcalls⟩
  · cases middle with
    | nil =>
      simp only [List.nil_append, List.cons.injEq] at hcalls
      rw [hbefore, List.append_nil]
      exact hcall device memory hcalls.1
    | cons first rest =>
      simp only [List.cons_append, List.cons.injEq] at hcalls
      cases rest <;> simp at hcalls
  · cases middle with
    | nil =>
      simp only [List.nil_append, List.cons.injEq] at hcalls
      rw [List.append_nil] at hhist
      rw [← hhist]
      exact hcall device memory hcalls.1.symm
    | cons first rest =>
      simp only [List.cons_append, List.cons.injEq] at hcalls
      rw [← hcalls.1] at hhist
      exact hhistory before device memory rest hhist

theorem frees_only_live_left (history later : List MemoryCall)
    (h : frees_only_live (history ++ later)) : frees_only_live history := by
  intro before device memory after hsplit
  apply h before device memory (after ++ later)
  rw [hsplit]
  simp

theorem frees_only_live_last (history : List MemoryCall) (device : VkDevice)
    (memory : VkDeviceMemory)
    (h : frees_only_live (history ++ [MemoryCall.vkFreeMemory device memory])) :
    memory ∈ live_memory history :=
  h history device memory [] rfl

/-- Freeing handles that are live, one after the other. -/
theorem free_all_live (device : VkDevice) (handles : List VkDeviceMemory) :
    ∀ (history : List MemoryCall) (others : List VkDeviceMemory),
      List.Perm (live_memory history) (handles ++ others) →
      frees_only_live history →
      List.Perm (live_memory (history ++ handles.map (MemoryCall.vkFreeMemory device)))
          others ∧
        frees_only_live (history ++ handles.map (MemoryCall.vkFreeMemory device)) := by
  induction handles with
  | nil =>
    intro history others hperm hfrees
    simp only [List.map_nil, List.append_nil]
    exact ⟨hperm, hfrees⟩
  | cons handle rest ih =>
    intro history others hperm hfrees
    have hmem : handle ∈ live_memory history :=
      hperm.symm.subset (List.mem_cons_self _ _)
    have hnext : List.Perm
        (live_memory (history ++ [MemoryCall.vkFreeMemory device handle]))
        (rest ++ others) := by
      rw [live_memory_free]
      have := hperm.erase handle
      rw [List.cons_append, List.erase_cons_head] at this
      exact this
    have hfrees2 : frees_only_live (history ++ [MemoryCall.vkFreeMemory device handle]) := by
      apply frees_only_live_append history _ hfrees
      intro d m hcall
      cases hcall
      exact hmem
    have := ih (history ++ [MemoryCall.vkFreeMemory device handle]) others hnext hfrees2
    rw [List.map_cons]
    rw [List.append_assoc] at this
    exact this

theorem destroy_eq (self : Device_Memory_Allocator) :
    self.destroy =
      (self.device_local_chunks ++ self.staging_chunks).map
        (MemoryCall.vkFreeMemory self.device) := by
  unfold Device_Memory_Allocator.destroy Device_Memory_Allocator.staging_chunks
  by_cases h : self.staging_chunk ≠ VK_NULL_HANDLE
  · simp [h]
  · simp [h]

/-- With a valid driver a returned request keeps the accounts of the allocator. -/
theorem serve_accounts (driver : Driver) (hdriver : driver.valid)
    (history : List MemoryCall) (self : Device_Memory_Allocator) (request : Request)
    (memory : VkDeviceMemory) (hself : self.accounts history)
    (h : (serve driver history self request).result = Except.ok memory) :
    (serve driver history self request).allocator.accounts
      (history ++ (serve driver history self request).calls) := by
  obtain ⟨hperm, hfrees⟩ := hself
  cases request with
  | staging memory_requirements =>
    simp only [serve] at h ⊢
    rcases allocate_staging_memory_cases driver history self memory_requirements memory h with
      ⟨_, hreuse⟩ | ⟨memory_type_index, result, hres, hanswer, hcalls, hstate⟩
    · rw [hreuse]
      simp only [List.append_nil]
      exact ⟨hperm, hfrees⟩
    · rw [hcalls, hstate, ← List.append_assoc]
      obtain ⟨hcode, hnonnull⟩ := hdriver
        (history ++ if self.staging_chunk ≠ VK_NULL_HANDLE then
          [MemoryCall.vkFreeMemory self.device self.staging_chunk] else [])
        self.device memory_requirements.size memory_type_index
      rw [← hanswer] at hcode hnonnull
      simp only at hcode hnonnull
      have hsuccess : result = VK_SUCCESS := by
        rcases hcode with hc | hc
        · exact hc
        · exact absurd hres (not_le.mpr hc)
      have hmemory : memory ≠ VK_NULL_HANDLE := hnonnull hsuccess
      have hfreed : List.Perm
            (live_memory (history ++ if self.staging_chunk ≠ VK_NULL_HANDLE then
              [MemoryCall.vkFreeMemory self.device self.staging_chunk] else []))
            self.device_local_chunks ∧
          frees_only_live (history ++ if self.staging_chunk ≠ VK_NULL_HANDLE then
            [MemoryCall.vkFreeMemory self.device self.staging_chunk] else []) := by
        have := free_all_live self.device self.staging_chunks history self.device_local_chunks
          (hperm.trans List.perm_append_comm) hfrees
        unfold Device_Memory_Allocator.staging_chunks at this
        by_cases hnull : self.staging_chunk ≠ VK_NULL_HANDLE
        · rw [if_pos hnull] at this ⊢
          exact this
        · rw [if_neg hnull] at this ⊢
          exact this
      unfold Device_Memory_Allocator.accounts Device_Memory_Allocator.staging_chunks
      constructor
      · rw [live_memory_allocate, if_pos hsuccess]
        simp only [hmemory, ne_eq, not_false_eq_true, if_true]
        exact (List.Perm.cons memory hfreed.1).trans (@List.perm_append_comm _ [memory] _)
      · apply frees_only_live_append _ _ hfreed.2
        intro d m hcall
        cases hcall
  | device_local memory_requirements =>
    simp only [serve] at h ⊢
    obtain ⟨memory_type_index, result, hres, hanswer, hcalls, hstate⟩ :=
      allocate_device_local_memory_cases driver history self memory_requirements memory h
    rw [hcalls, hstate]
    obtain ⟨hcode, _⟩ := hdriver history self.device memory_requirements.size
      memory_type_index
    rw [← hanswer] at hcode
    simp only at hcode
    have hsuccess : result = VK_SUCCESS := by
      rcases hcode with hc | hc
      · exact hc
      · exact absurd hres (not_le.mpr hc)
    unfold Device_Memory_Allocator.accounts Device_Memory_Allocator.staging_chunks
    constructor
    · rw [live_memory_allocate, if_pos hsuccess]
      simp only
      have h1 : List.Perm (memory :: live_memory history)
          (memory :: (self.device_local_chunks ++ self.staging_chunks)) :=
        List.Perm.cons memory hperm
      refine h1.trans ?_
      unfold Device_Memory_Allocator.staging_chunks
      rw [List.append_assoc]
      exact (@List.perm_middle _ memory self.device_local_chunks _).symm
    · apply frees_only_live_append _ _ hfrees
      intro d m hcall
      cases hcall

/-- With a valid driver a returned sequence keeps the accounts of the allocator. -/
theorem serve_all_accounts (driver : Driver) (hdriver : driver.valid)
    (requests : List Request) :
    ∀ (history : List MemoryCall) (self : Device_Memory_Allocator) (served : List Served),
      self.accounts history →
      (serve_all driver history self requests).result = Except.ok served →
      (serve_all driver history self requests).allocator.accounts
        (history ++ (serve_all driver history self requests).calls) := by
  induction requests with
  | nil =>
    intro history self served hself h
    simp only [serve_all, List.append_nil]
    exact hself
  | cons request later ih =>
    intro history self served hself h
    obtain ⟨memory, rest, hfirst, hrest, hserved, hallocator, hcalls⟩ :=
      serve_all_cons_returned driver history self request later served h
    have hnext := serve_accounts driver hdriver history self request memory hself hfirst
    have hfinal := ih _ _ rest hnext hrest
    rw [hallocator, hcalls, ← List.append_assoc]
    exact hfinal

/-- When a sequence returns, so does every initial part of it. -/
theorem serve_all_initial_returned (driver : Driver) (done later : List Request) :
    ∀ (history : List MemoryCall) (self : Device_Memory_Allocator) (served : List Served),
      (serve_all driver history self (done ++ later)).result = Except.ok served →
      ∃ part : List Served, (serve_all driver history self done).result = Except.ok part := by
  induction done with
  | nil =>
    intro history self served _
    exact ⟨[], rfl⟩
  | cons request rest ih =>
    intro history self served h
    rw [List.cons_append] at h
    obtain ⟨memory, others, hfirst, hrest, _, _, _⟩ :=
      serve_all_cons_returned driver history self request (rest ++ later) served h
    obtain ⟨part, hpart⟩ := ih _ _ others hrest
    refine ⟨{ request := request, before := self, memory := memory,
              calls := (serve driver history self request).calls } :: part, ?_⟩
    simp only [serve_all, hfirst, hpart]

/-- When no free is a double free, a handle is live as often as it was allocated and not
yet freed. -/
theorem allocation_balance (memory : VkDeviceMemory) (calls : List MemoryCall) :
    frees_only_live calls →
      (live_memory calls).count memory + times_freed memory calls =
        times_allocated memory calls := by
  induction calls using List.reverseRecOn with
  | nil =>
    intro _
    rfl
  | append_singleton calls call ih =>
    intro h
    have hbalance := ih (frees_only_live_left calls [call] h)
    cases call with
    | vkFreeMemory device freed =>
      have hlive := frees_only_live_last calls device freed h
      rw [live_memory_free]
      simp only [times_freed, times_allocated, List.countP_append, List.countP_singleton]
        at hbalance ⊢
      by_cases hsame : freed = memory
      · subst hsame
        have hpos : 0 < (live_memory calls).count freed := List.count_pos_iff.mpr hlive
        rw [List.count_erase_self]
        simp only [decide_True, if_true] at hbalance ⊢
        simp only [Bool.false_eq_true, if_false]
        omega
      · rw [List.count_erase_of_ne (Ne.symm hsame)]
        simp only [hsame, decide_False, Bool.false_eq_true, if_false] at hbalance ⊢
        omega
    | vkAllocateMemory device size index result allocated =>
      rw [live_memory_allocate]
      simp only [times_freed, times_allocated, List.countP_append, List.countP_singleton]
        at hbalance ⊢
      by_cases hres : result = VK_SUCCESS
      · rw [if_pos hres, List.count_cons]
        by_cases hsame : allocated = memory
        · simp only [hres, hsame, and_self, decide_True, if_true, beq_self_eq_true,
            Bool.false_eq_true, if_false] at hbalance ⊢
          omega
        · simp only [hres, hsame, and_false, true_and, decide_False, Bool.false_eq_true,
            if_false, beq_iff_eq] at hbalance ⊢
          omega
      · rw [if_neg hres]
        simp only [hres, false_and, decide_False, Bool.false_eq_true, if_false] at hbalance ⊢
        omega

theorem valid_of_well_behaved (driver : Driver) (h : driver.well_behaved) : driver.valid := by
  intro history device size index
  obtain ⟨hcode, hfresh⟩ := h history device size index
  exact ⟨hcode, fun hsuccess => (hfresh hsuccess).1⟩

theorem staging_chunks_length (self : Device_Memory_Allocator) :
    self.staging_chunks.length ≤ 1 := by
  unfold Device_Memory_Allocator.staging_chunks
  by_cases h : self.staging_chunk ≠ VK_NULL_HANDLE
  · simp [h]
  · simp [h]

/-- The points inside a staging request that returns: after every initial part of its
calls the live allocations are the device-local chunks and at most one further
allocation, the staging chunk held before the request or the handle it returns. -/
theorem staging_points (driver : Driver) (hdriver : driver.valid)
    (history : List MemoryCall) (self : Device_Memory_Allocator)
    (memory_requirements : VkMemoryRequirements) (memory : VkDeviceMemory)
    (hself : self.accounts history)
    (h : (allocate_staging_memory driver history self memory_requirements).result =
      Except.ok memory)
    (before after : List MemoryCall)
    (hsplit : (allocate_staging_memory driver history self memory_requirements).calls =
      before ++ after) :
    ∃ staging : List VkDeviceMemory,
      List.Perm (live_memory (history ++ before)) (self.device_local_chunks ++ staging) ∧
      staging.length ≤ 1 ∧
      ∀ chunk ∈ staging, chunk = self.staging_chunk ∨ chunk = memory := by
  have hafter := serve_accounts driver hdriver history self
    (Request.staging memory_requirements) memory hself h
  simp only [serve] at hafter
  obtain ⟨hperm, hfrees⟩ := hself
  have hold : ∀ chunk ∈ self.staging_chunks, chunk = self.staging_chunk ∨ chunk = memory := by
    intro chunk hchunk
    unfold Device_Memory_Allocator.staging_chunks at hchunk
    by_cases hnull : self.staging_chunk ≠ VK_NULL_HANDLE
    · rw [if_pos hnull, List.mem_singleton] at hchunk
      exact Or.inl hchunk
    · rw [if_neg hnull] at hchunk
      cases hchunk
  rcases allocate_staging_memory_cases driver history self memory_requirements memory h with
    ⟨_, hreuse⟩ | ⟨memory_type_index, result, hres, hanswer, hcalls, hstate⟩
  · rw [hreuse] at hsplit
    have hnil := List.append_eq_nil.mp hsplit.symm
    rw [hnil.1, List.append_nil]
    exact ⟨self.staging_chunks, hperm, staging_chunks_length self, hold⟩
  · have hwhole : ∃ staging : List VkDeviceMemory,
        List.Perm (live_memory (history ++
          (allocate_staging_memory driver history self memory_requirements).calls))
          (self.device_local_chunks ++ staging) ∧
        staging.length ≤ 1 ∧
        ∀ chunk ∈ staging, chunk = self.staging_chunk ∨ chunk = memory := by
      have hlive := hafter.1
      rw [hstate] at hlive
      refine ⟨_, hlive, staging_chunks_length _, ?_⟩
      intro chunk hchunk
      unfold Device_Memory_Allocator.staging_chunks at hchunk
      by_cases hnull : memory ≠ VK_NULL_HANDLE
      · rw [if_pos hnull, List.mem_singleton] at hchunk
        exact Or.inr hchunk
      · rw [if_neg hnull] at hchunk
        cases hchunk
    rw [hcalls] at hsplit hwhole
    by_cases hnull : self.staging_chunk ≠ VK_NULL_HANDLE
    · rw [if_pos hnull] at hsplit hwhole
      have hfreed := free_all_live self.device [self.staging_chunk] history
        self.device_local_chunks
        (by
          have := hperm
          unfold Device_Memory_Allocator.staging_chunks at this
          rw [if_pos hnull] at this
          exact this.trans List.perm_append_comm)
        hfrees
      rcases before with _ | ⟨first, _ | ⟨second, rest⟩⟩
      · rw [List.append_nil]
        exact ⟨self.staging_chunks, hperm, staging_chunks_length self, hold⟩
      · simp only [List.cons_append, List.nil_append, List.cons.injEq] at hsplit
        rw [← hsplit.1]
        refine ⟨[], ?_, by simp, ?_⟩
        · rw [List.append_nil]
          exact hfreed.1
        · intro chunk hchunk
          cases hchunk
      · simp only [List.cons_append, List.nil_append, List.cons.injEq] at hsplit
        have hrest : rest = [] := by
          have := hsplit.2.2
          exact (List.append_eq_nil.mp this.symm).1
        rw [← hsplit.1, ← hsplit.2.1, hrest]
        exact hwhole
    · rw [if_neg hnull] at hsplit hwhole
      rcases before with _ | ⟨first, rest⟩
      · rw [List.append_nil]
        exact ⟨self.staging_chunks, hperm, staging_chunks_length self, hold⟩
      · simp only [List.cons_append, List.nil_append, List.cons.injEq] at hsplit
        have hrest : rest = [] := by
          have := hsplit.2
          exact (List.append_eq_nil.mp this.symm).1
        rw [← hsplit.1, hrest]
        exact hwhole

/-- A returned request keeps the device-local chunks it found, in order. -/
theorem serve_chunks_initial (driver : Driver) (history : List MemoryCall)
    (self : Device_Memory_Allocator) (request : Request) (memory : VkDeviceMemory)
    (h : (serve driver history self request).result = Except.ok memory) :
    self.device_local_chunks <+:
      (serve driver history self request).allocator.device_local_chunks := by
  cases request with
  | staging memory_requirements =>
    simp only [serve] at h ⊢
    rcases allocate_staging_memory_cases driver history self memory_requirements memory h with
      ⟨_, hreuse⟩ | ⟨_, _, _, _, _, hstate⟩
    · rw [hreuse]
    · rw [hstate]
  | device_local memory_requirements =>
    simp only [serve] at h ⊢
    obtain ⟨_, _, _, _, _, hstate⟩ :=
      allocate_device_local_memory_cases driver history self memory_requirements memory h
    rw [hstate]
    exact List.prefix_append _ _

theorem serve_all_chunks_initial (driver : Driver) (requests : List Request) :
    ∀ (history : List MemoryCall) (self : Device_Memory_Allocator) (served : List Served),
      (serve_all driver history self requests).result = Except.ok served →
      self.device_local_chunks <+:
        (serve_all driver history self requests).allocator.device_local_chunks := by
  induction requests with
  | nil =>
    intro history self served _
    exact List.prefix_refl _
  | cons request later ih =>
    intro history self served h
    obtain ⟨memory, rest, hfirst, hrest, _, hallocator, _⟩ :=
      serve_all_cons_returned driver history self request later served h
    rw [hallocator]
    exact (serve_chunks_initial driver history self request memory hfirst).trans
      (ih _ _ rest hrest)

/-- The points inside a request that returns: after every initial part of its calls the
live allocations are an initial part of the device-local chunks the request leaves and at
most one further allocation. -/
theorem serve_points (driver : Driver) (hdriver : driver.valid)
    (history : List MemoryCall) (self : Device_Memory_Allocator) (request : Request)
    (memory : VkDeviceMemory) (hself : self.accounts history)
    (h : (serve driver history self request).result = Except.ok memory)
    (before after : List MemoryCall)
    (hsplit : (serve driver history self request).calls = before ++ after) :
    ∃ device_local staging : List VkDeviceMemory,
      List.Perm (live_memory (history ++ before)) (device_local ++ staging) ∧
      device_local <+: (serve driver history self request).allocator.device_local_chunks ∧
      staging.length ≤ 1 := by
  have hinitial := serve_chunks_initial driver history self request memory h
  cases request with
  | staging memory_requirements =>
    simp only [serve] at h hsplit hinitial ⊢
    obtain ⟨staging, hperm, hlength, _⟩ := staging_points driver hdriver history self
      memory_requirements memory hself h before after hsplit
    exact ⟨self.device_local_chunks, staging, hperm, hinitial, hlength⟩
  | device_local memory_requirements =>
    have hafter := serve_accounts driver hdriver history self
      (Request.device_local memory_requirements) memory hself h
    simp only [serve] at h hsplit hinitial hafter ⊢
    obtain ⟨_, _, _, _, hcalls, hstate⟩ :=
      allocate_device_local_memory_cases driver history self memory_requirements memory h
    rw [hcalls] at hsplit
    rcases before with _ | ⟨first, rest⟩
    · rw [List.append_nil]
      exact ⟨self.device_local_chunks, self.staging_chunks, hself.1, hinitial,
        staging_chunks_length self⟩
    · simp only [List.cons_append, List.cons.injEq] at hsplit
      have hrest : rest = [] := (List.append_eq_nil.mp hsplit.2.symm).1
      rw [hcalls] at hafter
      rw [← hsplit.1, hrest]
      exact ⟨_, _, hafter.1, List.prefix_refl _, staging_chunks_length _⟩

/-- The points of a returned sequence: after every initial part of its calls the live
allocations are an initial part of the device-local chunks the sequence leaves and at most
one further allocation. -/
theorem serve_all_points (driver : Driver) (hdriver : driver.valid)
    (requests : List Request) :
    ∀ (history : List MemoryCall) (self : Device_Memory_Allocator) (served : List Served),
      self.accounts history →
      (serve_all driver history self requests).result = Except.ok served →
      ∀ before after, (serve_all driver history self requests).calls = before ++ after →
        ∃ device_local staging : List VkDeviceMemory,
          List.Perm (live_memory (history ++ before)) (device_local ++ staging) ∧
          device_local <+:
            (serve_all driver history self requests).allocator.device_local_chunks ∧
          staging.length ≤ 1 := by
  induction requests with
  | nil =>
    intro history self served hself _ before after hsplit
    simp only [serve_all] at hsplit ⊢
    have hnil := List.append_eq_nil.mp hsplit.symm
    rw [hnil.1, List.append_nil]
    exact ⟨self.device_local_chunks, self.staging_chunks, hself.1, List.prefix_refl _,
      staging_chunks_length self⟩
  | cons request later ih =>
    intro history self served hself h before after hsplit
    obtain ⟨memory, rest, hfirst, hrest, _, hallocator, hcalls⟩ :=
      serve_all_cons_returned driver history self request later served h
    have hnext := serve_accounts driver hdriver history self request memory hself hfirst
    rw [hallocator]
    rw [hcalls, List.append_eq_append_iff] at hsplit
    rcases hsplit with ⟨middle, hbefore, hlater⟩ | ⟨middle, hrequest, _⟩
    · obtain ⟨device_local, staging, hperm, hinitial, hlength⟩ :=
        ih _ _ rest hnext hrest middle after hlater
      rw [List.append_assoc, ← hbefore] at hperm
      exact ⟨device_local, staging, hperm, hinitial, hlength⟩
    · obtain ⟨device_local, staging, hperm, hinitial, hlength⟩ :=
        serve_points driver hdriver history self request memory hself hfirst before middle
          hrequest
      exact ⟨device_local, staging, hperm,
        hinitial.trans (serve_all_chunks_initial driver later _ _ rest hrest), hlength⟩

/-- The points of the destructor: after every initial part of its calls the live
allocations are a final part of the device-local chunks and at most one further
allocation. -/
theorem destroy_points (self : Device_Memory_Allocator) (history : List MemoryCall)
    (hself : self.accounts history) (before after : List MemoryCall)
    (hsplit : self.destroy = before ++ after) :
    ∃ device_local staging : List VkDeviceMemory,
      List.Perm (live_memory (history ++ before)) (device_local ++ staging) ∧
      device_local <:+ self.device_local_chunks ∧
      staging.length ≤ 1 := by
  rw [destroy_eq, List.map_eq_append_iff] at hsplit
  obtain ⟨freed, kept, hlist, hbefore, _⟩ := hsplit
  have hfreed := free_all_live self.device freed history kept
    (by rw [← hlist]; exact hself.1) hself.2
  rw [hbefore] at hfreed
  rw [List.append_eq_append_iff] at hlist
  rcases hlist with ⟨middle, _, hstaging⟩ | ⟨middle, hchunks, hkept⟩
  · refine ⟨[], kept, by rw [List.nil_append]; exact hfreed.1, List.nil_suffix, ?_⟩
    have hlength := staging_chunks_length self
    rw [hstaging, List.length_append] at hlength
    omega
  · refine ⟨middle, self.staging_chunks, by rw [← hkept]; exact hfreed.1, ?_,
      staging_chunks_length self⟩
    rw [hchunks]
    exact List.suffix_append _ _

/-- When a sequence returns, so does the request made after any initial part of it. -/
theorem serve_all_next_returned (driver : Driver) (done : List Request) (request : Request)
    (later : List Request) :
    ∀ (history : List MemoryCall) (self : Device_Memory_Allocator) (served : List Served),
      (serve_all driver history self (done ++ request :: later)).result = Except.ok served →
      ∃ memory : VkDeviceMemory,
        (serve driver (history ++ (serve_all driver history self done).calls)
          (serve_all driver history self done).allocator request).result =
            Except.ok memory := by
  induction done with
  | nil =>
    intro history self served h
    rw [List.nil_append] at h
    obtain ⟨memory, _, hfirst, _, _, _, _⟩ :=
      serve_all_cons_returned driver history self request later served h
    refine ⟨memory, ?_⟩
    simp only [serve_all, List.append_nil]
    exact hfirst
  | cons first rest ih =>
    intro history self served h
    rw [List.cons_append] at h
    obtain ⟨memory, others, hfirst, hrest, _, _, _⟩ :=
      serve_all_cons_returned driver history self first (rest ++ request :: later) served h
    obtain ⟨answer, hanswer⟩ := ih _ _ others hrest
    refine ⟨answer, ?_⟩
    simp only [serve_all, hfirst, ← List.append_assoc]
    exact hanswer

/-- C13. Allocator ownership and teardown. Take an allocator as the constructor leaves it
(no device-local chunk, no staging chunk), a driver whose successful allocations return
handles that are not null, and any sequence of staging and device-local requests that all
return. At most one staging chunk is live at every point. (1) After every initial part of
the sequence the live allocations are exactly the device-local chunks and the staging
chunks of the allocator, and there is at most one staging chunk. (2) Inside every staging
request, after every initial part of its calls, the live allocations are the device-local
chunks and at most one further allocation, which is the staging chunk held before the
request or the one held after it: the old chunk is freed before the new one is allocated.
A device-local request issues a single call, so it has no point inside it. (3) After
every initial part of the calls of the whole sequence the live allocations are an initial
part of the device-local chunks the sequence leaves and at most one further allocation.
(4) After every initial part of the calls of the destructor the live allocations are a
final part of the device-local chunks and at most one further allocation. When the destructor has run after the sequence, no allocation is live (no
leak), every `vkFreeMemory` of the whole trace freed a handle that was live when it was
issued (no double free), and every handle has been passed to `vkFreeMemory` exactly as
often as `vkAllocateMemory` returned it. The destructor frees the device-local chunks and
then the staging chunks, that is the staging chunk exactly when there is one. -/
theorem allocator_teardown (driver : Driver) (self : Device_Memory_Allocator)
    (requests : List Request) (served : List Served)
    (hdriver : driver.valid)
    (hchunks : self.device_local_chunks = [])
    (hstaging : self.staging_chunk = VK_NULL_HANDLE)
    (h : (serve_all driver [] self requests).result = Except.ok served) :
    (∀ done later, requests = done ++ later →
      List.Perm (live_memory (serve_all driver [] self done).calls)
        ((serve_all driver [] self done).allocator.device_local_chunks ++
          (serve_all driver [] self done).allocator.staging_chunks) ∧
      (serve_all driver [] self done).allocator.staging_chunks.length ≤ 1) ∧
    (∀ done memory_requirements later,
      requests = done ++ Request.staging memory_requirements :: later →
      ∀ before after,
        (allocate_staging_memory driver (serve_all driver [] self done).calls
          (serve_all driver [] self done).allocator memory_requirements).calls =
            before ++ after →
        ∃ staging : List VkDeviceMemory,
          List.Perm (live_memory ((serve_all driver [] self done).calls ++ before))
            ((serve_all driver [] self done).allocator.device_local_chunks ++ staging) ∧
          staging.length ≤ 1 ∧
          ∀ chunk ∈ staging,
            chunk = (serve_all driver [] self done).allocator.staging_chunk ∨
            chunk = (allocate_staging_memory driver (serve_all driver [] self done).calls
              (serve_all driver [] self done).allocator
              memory_requirements).allocator.staging_chunk) ∧
    (∀ done memory_requirements later,
      requests = done ++ Request.device_local memory_requirements :: later →
      (allocate_device_local_memory driver (serve_all driver [] self done).calls
        (serve_all driver [] self done).allocator memory_requirements).calls.length = 1) ∧
    (∀ before after, (serve_all driver [] self requests).calls = before ++ after →
      ∃ device_local staging : List VkDeviceMemory,
        List.Perm (live_memory before) (device_local ++ staging) ∧
        device_local <+: (serve_all driver [] self requests).allocator.device_local_chunks ∧
        staging.length ≤ 1) ∧
    (∀ before after, (serve_all driver [] self requests).allocator.destroy = before ++ after →
      ∃ device_local staging : List VkDeviceMemory,
        List.Perm (live_memory ((serve_all driver [] self requests).calls ++ before))
          (device_local ++ staging) ∧
        device_local <:+ (serve_all driver [] self requests).allocator.device_local_chunks ∧
        staging.length ≤ 1) ∧
    live_memory ((serve_all driver [] self requests).calls ++
      (serve_all driver [] self requests).allocator.destroy) = [] ∧
    frees_only_live ((serve_all driver [] self requests).calls ++
      (serve_all driver [] self requests).allocator.destroy) ∧
    (∀ memory,
      times_freed memory ((serve_all driver [] self requests).calls ++
        (serve_all driver [] self requests).allocator.destroy) =
      times_allocated memory ((serve_all driver [] self requests).calls ++
        (serve_all driver [] self requests).allocator.destroy)) ∧
    (serve_all driver [] self requests).allocator.destroy =
      (serve_all driver [] self requests).allocator.device_local_chunks.map
        (MemoryCall.vkFreeMemory (serve_all driver [] self requests).allocator.device) ++
      (serve_all driver [] self requests).allocator.staging_chunks.map
        (MemoryCall.vkFreeMemory (serve_all driver [] self requests).allocator.device) := by
  have hstart : self.accounts [] := by
    unfold Device_Memory_Allocator.accounts Device_Memory_Allocator.staging_chunks
    rw [hchunks, hstaging]
    exact ⟨by simp [live_memory], frees_only_live_nil⟩
  have hend := serve_all_accounts driver hdriver requests [] self served hstart h
  rw [List.nil_append] at hend
  have hfreed := free_all_live (serve_all driver [] self requests).allocator.device
    ((serve_all driver [] self requests).allocator.device_local_chunks ++
      (serve_all driver [] self requests).allocator.staging_chunks)
    (serve_all driver [] self requests).calls []
    (by rw [List.append_nil]; exact hend.1) hend.2
  rw [← destroy_eq] at hfreed
  have hempty : live_memory ((serve_all driver [] self requests).calls ++
      (serve_all driver [] self requests).allocator.destroy) = [] :=
    List.Perm.eq_nil hfreed.1
  refine ⟨?_, ?_, ?_, ?_, ?_, hempty, hfreed.2, ?_, ?_⟩
  · intro done later hsplit
    rw [hsplit] at h
    obtain ⟨part, hpart⟩ := serve_all_initial_returned driver done later [] self served h
    have hpoint := serve_all_accounts driver hdriver done [] self part hstart hpart
    rw [List.nil_append] at hpoint
    exact ⟨hpoint.1, staging_chunks_length _⟩
  · intro done memory_requirements later hsplit before after hcalls
    rw [hsplit] at h
    obtain ⟨part, hpart⟩ := serve_all_initial_returned driver done
      (Request.staging memory_requirements :: later) [] self served h
    have hpoint := serve_all_accounts driver hdriver done [] self part hstart hpart
    obtain ⟨memory, hmemory⟩ := serve_all_next_returned driver done
      (Request.staging memory_requirements) later [] self served h
    rw [List.nil_append] at hpoint hmemory
    simp only [serve] at hmemory
    obtain ⟨staging, hperm, hlength, hchunk⟩ := staging_points driver hdriver _ _
      memory_requirements memory hpoint hmemory before after hcalls
    rw [(allocate_staging_memory_returned driver _ _ memory_requirements memory hmemory).1]
    exact ⟨staging, hperm, hlength, hchunk⟩
  · intro done memory_requirements later hsplit
    rw [hsplit] at h
    obtain ⟨memory, hmemory⟩ := serve_all_next_returned driver done
      (Request.device_local memory_requirements) later [] self served h
    rw [List.nil_append] at hmemory
    simp only [serve] at hmemory
    obtain ⟨_, _, _, _, hcalls, _⟩ := allocate_device_local_memory_cases driver _ _
      memory_requirements memory hmemory
    rw [hcalls]
    rfl
  · intro before after hcalls
    have hpoints := serve_all_points driver hdriver requests [] self served hstart h before
      after hcalls
    rw [List.nil_append] at hpoints
    exact hpoints
  · intro before after hcalls
    exact destroy_points _ _ hend before after hcalls
  · intro memory
    have hbalance := allocation_balance memory _ hfreed.2
    rw [hempty] at hbalance
    simpa using hbalance
  · rw [destroy_eq, List.map_append]

theorem allocator_teardown_witness :
    (serve_all sample_driver [] (Device_Memory_Allocator.construct 1 1) sample_requests).calls ++
        (serve_all sample_driver [] (Device_Memory_Allocator.construct 1 1)
          sample_requests).allocator.destroy =
      [MemoryCall.vkAllocateMemory 1 32 0 VK_SUCCESS 1,
       MemoryCall.vkAllocateMemory 1 16 1 VK_SUCCESS 2,
       MemoryCall.vkAllocateMemory 1 8 0 VK_SUCCESS 3,
       MemoryCall.vkFreeMemory 1 2,
       MemoryCall.vkAllocateMemory 1 64 1 VK_SUCCESS 4,
       MemoryCall.vkFreeMemory 1 1,
       MemoryCall.vkFreeMemory 1 3,
       MemoryCall.vkFreeMemory 1 4] ∧
    live_memory
      [MemoryCall.vkAllocateMemory 1 32 0 VK_SUCCESS 1,
       MemoryCall.vkAllocateMemory 1 16 1 VK_SUCCESS 2,
       MemoryCall.vkAllocateMemory 1 8 0 VK_SUCCESS 3,
       MemoryCall.vkFreeMemory 1 2] = [3, 1] ∧
    (∃ device_local staging : List VkDeviceMemory,
      List.Perm
        (live_memory
          [MemoryCall.vkAllocateMemory 1 32 0 VK_SUCCESS 1,
           MemoryCall.vkAllocateMemory 1 16 1 VK_SUCCESS 2,
           MemoryCall.vkAllocateMemory 1 8 0 VK_SUCCESS 3,
           MemoryCall.vkFreeMemory 1 2])
        (device_local ++ staging) ∧
      device_local <+:
        (serve_all sample_driver [] (Device_Memory_Allocator.construct 1 1)
          sample_requests).allocator.device_local_chunks ∧
      staging.length ≤ 1) ∧
    live_memory
      ((serve_all sample_driver [] (Device_Memory_Allocator.construct 1 1)
          sample_requests).calls ++
        (serve_all sample_driver [] (Device_Memory_Allocator.construct 1 1)
          sample_requests).allocator.destroy) = [] ∧
    frees_only_live
      ((serve_all sample_driver [] (Device_Memory_Allocator.construct 1 1)
          sample_requests).calls ++
        (serve_all sample_driver [] (Device_Memory_Allocator.construct 1 1)
          sample_requests).allocator.destroy) :=
  ⟨rfl, rfl,
    (allocator_teardown sample_driver (Device_Memory_Allocator.construct 1 1) sample_requests
      _ (valid_of_well_behaved _ sample_driver_well_behaved) rfl rfl rfl).2.2.2.1
      [MemoryCall.vkAllocateMemory 1 32 0 VK_SUCCESS 1,
       MemoryCall.vkAllocateMemory 1 16 1 VK_SUCCESS 2,
       MemoryCall.vkAllocateMemory 1 8 0 VK_SUCCESS 3,
       MemoryCall.vkFreeMemory 1 2]
      [MemoryCall.vkAllocateMemory 1 64 1 VK_SUCCESS 4] rfl,
    (allocator_teardown sample_driver (Device_Memory_Allocator.construct 1 1) sample_requests
      _ (valid_of_well_behaved _ sample_driver_well_behaved) rfl rfl rfl).2.2.2.2.2.1,
    (allocator_teardown sample_driver (Device_Memory_Allocator.construct 1 1) sample_requests
      _ (valid_of_well_behaved _ sample_driver_well_behaved) rfl rfl rfl).2.2.2.2.2.2.1⟩

/-! ## Staging bookkeeping -/

/-- With a valid driver a returned request keeps the bookkeeping of the staging chunk. -/
theorem serve_records_staging (driver : Driver) (hdriver : driver.valid)
    (history : List MemoryCall) (self : Device_Memory_Allocator) (request : Request)
    (memory : VkDeviceMemory) (hself : self.records_staging history)
    (h : (serve driver history self request).result = Except.ok memory) :
    (serve driver history self request).allocator.records_staging
      (history ++ (serve driver history self request).calls) := by
  obtain ⟨hnull, hlive⟩ := hself
  cases request with
  | staging memory_requirements =>
    simp only [serve] at h ⊢
    rcases allocate_staging_memory_cases driver history self memory_requirements memory h with
      ⟨_, hreuse⟩ | ⟨memory_type_index, result, hres, hanswer, hcalls, hstate⟩
    · rw [hreuse]
      simp only [List.append_nil]
      exact ⟨hnull, hlive⟩
    · rw [hcalls, hstate, ← List.append_assoc]
      obtain ⟨hcode, hnonnull⟩ := hdriver
        (history ++ if self.staging_chunk ≠ VK_NULL_HANDLE then
          [MemoryCall.vkFreeMemory self.device self.staging_chunk] else [])
        self.device memory_requirements.size memory_type_index
      rw [← hanswer] at hcode hnonnull
      simp only at hcode hnonnull
      have hsuccess : result = VK_SUCCESS := by
        rcases hcode with hc | hc
        · exact hc
        · exact absurd hres (not_le.mpr hc)
      have hmemory : memory ≠ VK_NULL_HANDLE := hnonnull hsuccess
      constructor
      · intro hzero
        exact absurd hzero hmemory
      · intro _
        exact ⟨_, [], result, rfl, hres, fun call hcall => absurd hcall (List.not_mem_nil _)⟩
  | device_local memory_requirements =>
    simp only [serve] at h ⊢
    obtain ⟨memory_type_index, result, hres, hanswer, hcalls, hstate⟩ :=
      allocate_device_local_memory_cases driver history self memory_requirements memory h
    rw [hcalls, hstate]
    constructor
    · exact hnull
    · intro hchunk
      obtain ⟨earlier, later, code, hsplit, hcode, hfree⟩ := hlive hchunk
      refine ⟨earlier, later ++ [MemoryCall.vkAllocateMemory self.device
        memory_requirements.size memory_type_index result memory], code, ?_, hcode, ?_⟩
      · rw [hsplit]
        simp
      · intro call hcall device freed
        rw [List.mem_append, List.mem_singleton] at hcall
        rcases hcall with hcall | hcall
        · exact hfree call hcall device freed
        · rw [hcall]
          intro hne
          cases hne

theorem serve_all_records_staging (driver : Driver) (hdriver : driver.valid)
    (requests : List Request) :
    ∀ (history : List MemoryCall) (self : Device_Memory_Allocator) (served : List Served),
      self.records_staging history →
      (serve_all driver history self requests).result = Except.ok served →
      (serve_all driver history self requests).allocator.records_staging
        (history ++ (serve_all driver history self requests).calls) := by
  induction requests with
  | nil =>
    intro history self served hself h
    simp only [serve_all, List.append_nil]
    exact hself
  | cons request later ih =>
    intro history self served hself h
    obtain ⟨memory, rest, hfirst, hrest, hserved, hallocator, hcalls⟩ :=
      serve_all_cons_returned driver history self request later served h
    have hnext := serve_records_staging driver hdriver history self request memory hself hfirst
    have hfinal := ih _ _ rest hnext hrest
    rw [hallocator, hcalls, ← List.append_assoc]
    exact hfinal

/-- The index a selection returns is below `memoryTypeCount`. -/
theorem find_memory_type_lt (memory_properties : VkPhysicalDeviceMemoryProperties)
    (memory_type_bits properties found : Nat)
    (h : find_memory_type_with_properties memory_properties memory_type_bits properties =
      Except.ok found) :
    found < memory_properties.memoryTypeCount := by
  rw [find_memory_type_ok_iff, find_memory_type_loop_some] at h
  omega

/-- A staging request never touches the device-local chunks, whatever its outcome. -/
theorem allocate_staging_memory_chunks (driver : Driver) (history : List MemoryCall)
    (self : Device_Memory_Allocator) (memory_requirements : VkMemoryRequirements) :
    (allocate_staging_memory driver history self memory_requirements).allocator.device_local_chunks
      = self.device_local_chunks := by
  unfold allocate_staging_memory
  split
  · rfl
  · split
    · simp only
      split <;> rfl
    · rfl

/-- A device-local request never touches the staging members, whatever its outcome. -/
theorem allocate_device_local_memory_staging (driver : Driver) (history : List MemoryCall)
    (self : Device_Memory_Allocator) (memory_requirements : VkMemoryRequirements) :
    (allocate_device_local_memory driver history self memory_requirements).allocator.staging_chunk
        = self.staging_chunk ∧
    (allocate_device_local_memory driver history self
      memory_requirements).allocator.staging_chunk_size = self.staging_chunk_size ∧
    (allocate_device_local_memory driver history self
      memory_requirements).allocator.staging_memory_type_index =
        self.staging_memory_type_index := by
  unfold allocate_device_local_memory
  split
  · exact ⟨rfl, rfl, rfl⟩
  · simp only
    split <;> exact ⟨rfl, rfl, rfl⟩

/-- C19. Staging bookkeeping invariant. Take an allocator as the constructor leaves it (no
staging chunk, recorded type index -1), a driver whose successful allocations return
handles that are not null, memory tables whose `memoryTypeCount` fits its 32-bit field,
and any sequence of requests that all return. When a staging request made next returns,
the handle it returns is not null and is `staging_chunk`; `staging_chunk_size` is at least
the size of the request; `staging_memory_type_index` is the index selected for the
request; the calls so far hold the `vkAllocateMemory` that returned `staging_chunk`, with
`allocationSize` equal to `staging_chunk_size` and type index equal to
`staging_memory_type_index`, and no `vkFreeMemory` was issued after it; and
`device_local_chunks` is as before. Whatever the allocator and the outcome,
`allocate_staging_memory` leaves `device_local_chunks` unchanged and
`allocate_device_local_memory` leaves `staging_chunk`, `staging_chunk_size` and
`staging_memory_type_index` unchanged. -/
theorem staging_bookkeeping (driver : Driver) (start : Device_Memory_Allocator)
    (requests : List Request) (served : List Served)
    (memory_requirements : VkMemoryRequirements) (memory : VkDeviceMemory)
    (hdriver : driver.valid)
    (hcount : ∀ physical_device,
      (driver.vkGetPhysicalDeviceMemoryProperties physical_device).memoryTypeCount ≤ UINT32_MAX)
    (hchunk : start.staging_chunk = VK_NULL_HANDLE)
    (hindex : start.staging_memory_type_index = UINT32_MAX)
    (hrun : (serve_all driver [] start requests).result = Except.ok served)
    (hreturn : (allocate_staging_memory driver (serve_all driver [] start requests).calls
      (serve_all driver [] start requests).allocator memory_requirements).result =
        Except.ok memory) :
    memory ≠ VK_NULL_HANDLE ∧
    (allocate_staging_memory driver (serve_all driver [] start requests).calls
      (serve_all driver [] start requests).allocator memory_requirements).allocator.staging_chunk
        = memory ∧
    memory_requirements.size ≤
      (allocate_staging_memory driver (serve_all driver [] start requests).calls
        (serve_all driver [] start requests).allocator
        memory_requirements).allocator.staging_chunk_size ∧
    find_memory_type_with_properties
      (driver.vkGetPhysicalDeviceMemoryProperties
        (serve_all driver [] start requests).allocator.physical_device)
      memory_requirements.memoryTypeBits
      (VK_MEMORY_PROPERTY_HOST_VISIBLE_BIT ||| VK_MEMORY_PROPERTY_HOST_COHERENT_BIT) =
      Except.ok (allocate_staging_memory driver (serve_all driver [] start requests).calls
        (serve_all driver [] start requests).allocator
        memory_requirements).allocator.staging_memory_type_index ∧
    (∃ (earlier later : List MemoryCall) (result : VkResult),
      (serve_all driver [] start requests).calls ++
        (allocate_staging_memory driver (serve_all driver [] start requests).calls
          (serve_all driver [] start requests).allocator memory_requirements).calls =
        earlier ++
          MemoryCall.vkAllocateMemory
            (allocate_staging_memory driver (serve_all driver [] start requests).calls
              (serve_all driver [] start requests).allocator
              memory_requirements).allocator.device
            (allocate_staging_memory driver (serve_all driver [] start requests).calls
              (serve_all driver [] start requests).allocator
              memory_requirements).allocator.staging_chunk_size
            (allocate_staging_memory driver (serve_all driver [] start requests).calls
              (serve_all driver [] start requests).allocator
              memory_requirements).allocator.staging_memory_type_index
            result memory :: later ∧
      0 ≤ result ∧
      ∀ call ∈ later, ∀ device freed, call ≠ MemoryCall.vkFreeMemory device freed) ∧
    (∀ (history : List MemoryCall) (self : Device_Memory_Allocator)
        (request : VkMemoryRequirements),
      (allocate_staging_memory driver history self request).allocator.device_local_chunks =
        self.device_local_chunks) ∧
    (∀ (history : List MemoryCall) (self : Device_Memory_Allocator)
        (request : VkMemoryRequirements),
      (allocate_device_local_memory driver history self request).allocator.staging_chunk =
        self.staging_chunk ∧
      (allocate_device_local_memory driver history self request).allocator.staging_chunk_size =
        self.staging_chunk_size ∧
      (allocate_device_local_memory driver history self
        request).allocator.staging_memory_type_index = self.staging_memory_type_index) := by
  have hstart : start.records_staging [] :=
    ⟨fun _ => hindex, fun hne => absurd hchunk hne⟩
  have hreached := serve_all_records_staging driver hdriver requests [] start served hstart hrun
  rw [List.nil_append] at hreached
  have hafter := serve_records_staging driver hdriver _ _ (Request.staging memory_requirements)
    memory hreached hreturn
  simp only [serve] at hafter
  obtain ⟨hreturned, hselected, hsize⟩ :=
    allocate_staging_memory_returned driver _ _ memory_requirements memory hreturn
  have hnonnull : memory ≠ VK_NULL_HANDLE := by
    intro hzero
    rw [← hreturned] at hzero
    have hminus := hafter.1 hzero
    have hlt := find_memory_type_lt _ _ _ _ hselected
    have hle := hcount (serve_all driver [] start requests).allocator.physical_device
    rw [hminus] at hlt
    exact absurd hle (Nat.not_le.mpr hlt)
  refine ⟨hnonnull, hreturned, hsize, hselected, ?_,
    fun history self request => allocate_staging_memory_chunks driver history self request,
    fun history self request => allocate_device_local_memory_staging driver history self request⟩
  have hlive := hafter.2 (by rw [hreturned]; exact hnonnull)
  rw [hreturned] at hlive
  exact hlive

theorem staging_bookkeeping_witness :
    (4 : VkDeviceMemory) ≠ VK_NULL_HANDLE ∧
    (allocate_staging_memory sample_driver
      (serve_all sample_driver [] (Device_Memory_Allocator.construct 1 1) sample_requests).calls
      (serve_all sample_driver [] (Device_Memory_Allocator.construct 1 1)
        sample_requests).allocator
      { size := 48, alignment := 1, memoryTypeBits := 6 }).allocator.staging_chunk = 4 ∧
    (48 : Nat) ≤ (allocate_staging_memory sample_driver
      (serve_all sample_driver [] (Device_Memory_Allocator.construct 1 1) sample_requests).calls
      (serve_all sample_driver [] (Device_Memory_Allocator.construct 1 1)
        sample_requests).allocator
      { size := 48, alignment := 1, memoryTypeBits := 6 }).allocator.staging_chunk_size :=
  ⟨(staging_bookkeeping sample_driver (Device_Memory_Allocator.construct 1 1) sample_requests
      _ { size := 48, alignment := 1, memoryTypeBits := 6 } 4
      (valid_of_well_behaved _ sample_driver_well_behaved)
      (fun _ => (by decide : (3 : Nat) ≤ UINT32_MAX)) rfl rfl rfl
      rfl).1,
    (staging_bookkeeping sample_driver (Device_Memory_Allocator.construct 1 1) sample_requests
      _ { size := 48, alignment := 1, memoryTypeBits := 6 } 4
      (valid_of_well_behaved _ sample_driver_well_behaved)
      (fun _ => (by decide : (3 : Nat) ≤ UINT32_MAX)) rfl rfl rfl
      rfl).2.1,
    (staging_bookkeeping sample_driver (Device_Memory_Allocator.construct 1 1) sample_requests
      _ { size := 48, alignment := 1, memoryTypeBits := 6 } 4
      (valid_of_well_behaved _ sample_driver_well_behaved)
      (fun _ => (by decide : (3 : Nat) ≤ UINT32_MAX)) rfl rfl rfl
      rfl).2.2.1⟩

/-! ## The two branches of the upload -/

theorem create_staging_texture_copy_branches (image_width image_height bytes_per_pixel : Int)
    (rowPitch : Nat) (pixels : PixelBuffer) (data : MappedMemory) :
    create_staging_texture_copy image_width image_height bytes_per_pixel rowPitch pixels data =
      if rowPitch = to_uint64 (wrap_int (image_width * bytes_per_pixel)) then
        create_staging_texture_bulk image_width image_height bytes_per_pixel pixels data
      else
        create_staging_texture_rows image_width image_height bytes_per_pixel rowPitch pixels
          data := rfl

/-- One pass of the row loop when only the destination offset is known not to wrap. -/
theorem copy_rows_step (rowPitch : Nat) (bytes_per_row : Int) (pixels : PixelBuffer)
    (remaining i : Nat) (data : MappedMemory) (hdst : i * rowPitch < 2 ^ 64) :
    copy_rows rowPitch bytes_per_row pixels (remaining + 1) (i : Int) data =
      copy_rows rowPitch bytes_per_row pixels remaining ((i + 1 : Nat) : Int)
        (memcpy data (i * rowPitch) pixels (wrap_int ((i : Int) * bytes_per_row))
          (to_uint64 bytes_per_row)) := by
  have hi : i < 2 ^ 64 ∨ rowPitch = 0 := by
    by_cases hp : rowPitch = 0
    · exact Or.inr hp
    · left
      have : i * 1 ≤ i * rowPitch := Nat.mul_le_mul_left i (by omega)
      omega
  have h1 : (to_uint64 (i : Int) * rowPitch) % 2 ^ 64 = i * rowPitch := by
    rcases hi with hi | hi
    · rw [to_uint64_natCast i hi]
      exact Nat.mod_eq_of_lt hdst
    · rw [hi]
      simp
  show copy_rows rowPitch bytes_per_row pixels remaining ((i : Int) + 1) _ = _
  rw [h1]
  rfl

/-- The row loop leaves alone every offset that is in none of its destination rows. -/
theorem copy_rows_outside (rowPitch : Nat) (bytes_per_row : Int) (pixels : PixelBuffer)
    (remaining : Nat) :
    ∀ (i : Nat) (data : MappedMemory) (offset : Nat),
      (∀ j, i ≤ j → j < i + remaining →
        j * rowPitch < 2 ^ 64 ∧
          ¬ (j * rowPitch ≤ offset ∧ offset < j * rowPitch + to_uint64 bytes_per_row)) →
      copy_rows rowPitch bytes_per_row pixels remaining (i : Int) data offset =
        data offset := by
  induction remaining with
  | zero =>
    intro i data offset _
    rfl
  | succ n ih =>
    intro i data offset hrows
    obtain ⟨hdst, hout⟩ := hrows i (le_refl _) (by omega)
    rw [copy_rows_step rowPitch bytes_per_row pixels n i data hdst,
      ih (i + 1) _ offset (fun j hj1 hj2 => hrows j (by omega) (by omega))]
    exact memcpy_outside _ _ _ _ _ _ hout

/-- The first row of the loop lands at its destination when the later rows start after
it. -/
theorem copy_rows_first (rowPitch : Nat) (bytes_per_row : Int) (pixels : PixelBuffer)
    (remaining i k : Nat) (data : MappedMemory)
    (hk : k < to_uint64 bytes_per_row) (hpitch : to_uint64 bytes_per_row ≤ rowPitch)
    (hrows : ∀ j, i ≤ j → j < i + (remaining + 1) → j * rowPitch < 2 ^ 64) :
    copy_rows rowPitch bytes_per_row pixels (remaining + 1) (i : Int) data
        (i * rowPitch + k) =
      pixels (wrap_int ((i : Int) * bytes_per_row) + (k : Int)) := by
  rw [copy_rows_step rowPitch bytes_per_row pixels remaining i data
    (hrows i (le_refl _) (by omega)),
    copy_rows_outside rowPitch bytes_per_row pixels remaining (i + 1) _ _ ?_,
    memcpy_inside _ _ _ _ _ _ (Nat.le_add_right _ _) (by omega)]
  · rw [Nat.add_sub_cancel_left]
  · intro j hj1 hj2
    refine ⟨hrows j (by omega) (by omega), ?_⟩
    rintro ⟨h5, _⟩
    have h6 : (i + 1) * rowPitch ≤ j * rowPitch := Nat.mul_le_mul_right _ hj1
    rw [Nat.add_mul, Nat.one_mul] at h6
    omega

/-- C16, as the code has it. Bulk copy equals row-by-row copy on tight pitch, within the
range of `int`: for every `W`, `H`, `B` with `W * B < 2 ^ 31` and `W * B * H < 2 ^ 31` and
every source buffer, the bulk branch of `create_staging_texture` is taken if and only if
the reported row pitch equals `W * B`, and the memory the single bulk `memcpy` of
`W * B * H` bytes leaves is, byte for byte, the memory the row-by-row branch leaves with
row pitch `W * B`. -/
theorem bulk_equals_rows (W H B P : Nat) (pixels : PixelBuffer) (data : MappedMemory)
    (hrow : W * B < 2 ^ 31) (hint : W * B * H < 2 ^ 31) :
    (P = W * B →
      create_staging_texture_copy (W : Int) (H : Int) (B : Int) P pixels data =
        create_staging_texture_bulk (W : Int) (H : Int) (B : Int) pixels data) ∧
    (P ≠ W * B →
      create_staging_texture_copy (W : Int) (H : Int) (B : Int) P pixels data =
        create_staging_texture_rows (W : Int) (H : Int) (B : Int) P pixels data) ∧
    create_staging_texture_bulk (W : Int) (H : Int) (B : Int) pixels data =
      memcpy data 0 pixels 0 (W * B * H) ∧
    create_staging_texture_bulk (W : Int) (H : Int) (B : Int) pixels data =
      create_staging_texture_rows (W : Int) (H : Int) (B : Int) (W * B) pixels data := by
  have hbytes : wrap_int ((W : Int) * (B : Int)) = ((W * B : Nat) : Int) := by
    rw [← Nat.cast_mul]
    apply wrap_int_of_range
    · have : (0 : Int) ≤ ((W * B : Nat) : Int) := Int.natCast_nonneg _
      omega
    · exact_mod_cast hrow
  have hcount : to_uint64 (wrap_int (((W * B : Nat) : Int) * (H : Int))) = W * B * H := by
    rw [← Nat.cast_mul, wrap_int_of_range]
    · exact to_uint64_natCast _ (by omega)
    · have : (0 : Int) ≤ ((W * B * H : Nat) : Int) := Int.natCast_nonneg _
      omega
    · exact_mod_cast hint
  have hwidth : to_uint64 ((W * B : Nat) : Int) = W * B := to_uint64_natCast _ (by omega)
  have hbulk : create_staging_texture_bulk (W : Int) (H : Int) (B : Int) pixels data =
      memcpy data 0 pixels 0 (W * B * H) := by
    simp only [create_staging_texture_bulk, hbytes, hcount]
  refine ⟨?_, ?_, hbulk, ?_⟩
  · intro htight
    rw [create_staging_texture_copy_branches, hbytes, hwidth, if_pos htight]
  · intro hloose
    rw [create_staging_texture_copy_branches, hbytes, hwidth, if_neg hloose]
  · rw [hbulk]
    simp only [create_staging_texture_rows, hbytes, Int.toNat_ofNat]
    have hzero : (0 : Int) = ((0 : Nat) : Int) := rfl
    rw [hzero]
    funext offset
    have hrows : ∀ j, j < H → j * (W * B) + W * B ≤ W * B * H := by
      intro j hj
      have h1 : (j + 1) * (W * B) ≤ H * (W * B) := Nat.mul_le_mul_right _ hj
      rw [Nat.add_mul, Nat.one_mul, Nat.mul_comm H] at h1
      exact h1
    by_cases hin : offset < W * B * H
    · have hpos : 0 < W * B := by
        by_contra hz
        have : W * B = 0 := by omega
        rw [this, Nat.zero_mul] at hin
        omega
      have hr : offset / (W * B) < H := by
        apply Nat.div_lt_of_lt_mul
        exact hin
      have hk : offset % (W * B) < W * B := Nat.mod_lt _ hpos
      have hsplit : offset / (W * B) * (W * B) + offset % (W * B) = offset := by
        rw [Nat.mul_comm]
        exact Nat.div_add_mod offset (W * B)
      rw [memcpy_inside _ _ _ _ _ _ (Nat.zero_le _) (by omega)]
      have hwritten := copy_rows_written (W * B) (W * B) pixels (by omega) (le_refl _) H 0 data
        (offset / (W * B)) (offset % (W * B)) (Nat.zero_le _) (by omega) hk
        (by
          intro j _ hj
          have := hrows j (by omega)
          constructor <;> omega)
      rw [hsplit] at hwritten
      rw [hwritten]
      simp
    · rw [memcpy_outside _ _ _ _ _ _ (by omega)]
      symm
      apply copy_rows_untouched (W * B) (W * B) pixels (by omega) H 0 data offset
      intro j _ hj
      have := hrows j (by omega)
      refine ⟨by omega, by omega, ?_⟩
      omega

theorem bulk_equals_rows_witness :
    create_staging_texture_bulk 2 2 1 counting_pixels zeroed_memory 3 = 3 ∧
    create_staging_texture_rows 2 2 1 (2 * 1) counting_pixels zeroed_memory 3 = 3 ∧
    create_staging_texture_bulk ((2 : Nat) : Int) ((2 : Nat) : Int) ((1 : Nat) : Int)
        counting_pixels zeroed_memory =
      create_staging_texture_rows ((2 : Nat) : Int) ((2 : Nat) : Int) ((1 : Nat) : Int)
        (2 * 1) counting_pixels zeroed_memory :=
  ⟨by decide, by decide,
    (bulk_equals_rows 2 2 1 2 counting_pixels zeroed_memory (by decide) (by decide)).2.2.2⟩

/-- C16, as the claim states it, fails: for a 32768 x 32768 image of 4 bytes per pixel the
byte count of the bulk copy is `2 ^ 32`, which in `int` is 0, so the bulk branch leaves the
first byte of the mapped memory as it was, while the row-by-row branch with the tight
pitch 131072 writes the first byte of the source there. -/
theorem bulk_equals_rows_counterexample :
    create_staging_texture_copy 32768 32768 4 (32768 * 4) white_pixels zeroed_memory =
      create_staging_texture_bulk 32768 32768 4 white_pixels zeroed_memory ∧
    create_staging_texture_bulk 32768 32768 4 white_pixels zeroed_memory 0 = 0 ∧
    create_staging_texture_rows 32768 32768 4 (32768 * 4) white_pixels zeroed_memory 0 =
      255 ∧
    create_staging_texture_bulk 32768 32768 4 white_pixels zeroed_memory ≠
      create_staging_texture_rows 32768 32768 4 (32768 * 4) white_pixels zeroed_memory := by
  have hbulk : create_staging_texture_bulk 32768 32768 4 white_pixels zeroed_memory 0 = 0 := by
    decide
  have hrows : create_staging_texture_rows 32768 32768 4 (32768 * 4) white_pixels
      zeroed_memory 0 = 255 := by
    have hheight : (32768 : Int).toNat = 32767 + 1 := by decide
    have hbytes : wrap_int (32768 * 4) = 131072 := by decide
    simp only [create_staging_texture_rows, hheight, hbytes]
    have h := copy_rows_first (32768 * 4) 131072 white_pixels 32767 0 0 zeroed_memory
      (by decide) (by decide)
      (by
        intro j _ hj
        omega)
    simp only [Nat.zero_mul, Nat.zero_add, Nat.cast_zero] at h
    rw [h]
    rfl
  refine ⟨rfl, hbulk, hrows, ?_⟩
  intro hsame
  rw [hsame, hrows] at hbulk
  exact absurd hbulk (by decide)

/-! ## The row loop as a list of `memcpy` calls -/

/-- The call of pass `j` of the row loop. -/
theorem copy_rows_calls_mem (rowPitch : Nat) (bytes_per_row : Int) (remaining : Nat) :
    ∀ (i : Int) (j : Nat), j < remaining →
      ({ dst := (to_uint64 (i + j) * rowPitch) % 2 ^ 64
         src := wrap_int ((i + j) * bytes_per_row)
         count := to_uint64 bytes_per_row } : MemcpyCall) ∈
        copy_rows_calls rowPitch bytes_per_row remaining i := by
  induction remaining with
  | zero =>
    intro i j hj
    omega
  | succ n ih =>
    intro i j hj
    cases j with
    | zero =>
      simp only [copy_rows_calls, Nat.cast_zero, add_zero]
      exact List.mem_cons_self _ _
    | succ j =>
      simp only [copy_rows_calls]
      apply List.mem_cons_of_mem
      have := ih (i + 1) j (by omega)
      have heq : i + 1 + (j : Int) = i + ((j + 1 : Nat) : Int) := by
        push_cast
        ring
      rw [heq] at this
      exact this

theorem vector_resize_length (vector : List Nat) (count : Nat) :
    (vector_resize vector count).length = count := by
  unfold vector_resize
  rw [List.length_append, List.length_take, List.length_replicate]
  omega

/-- The framebuffer loop when every `vkCreateFramebuffer` of it succeeds. -/
theorem create_framebuffers_loop_spec (driver : InitDriver) :
    ∀ (remaining i : Nat) (globals : Globals),
      (∀ j, i ≤ j → j < i + remaining → 0 ≤ (driver.vkCreateFramebuffer j).1) →
      i + remaining ≤ globals.framebuffers.length →
      (create_framebuffers_loop driver remaining i globals).result = Except.ok () ∧
      (create_framebuffers_loop driver remaining i globals).globals.vulkanState =
        globals.vulkanState ∧
      (create_framebuffers_loop driver remaining i globals).globals.renderPass =
        globals.renderPass ∧
      (create_framebuffers_loop driver remaining i globals).globals.framebuffers.length =
        globals.framebuffers.length ∧
      (∀ j, i ≤ j → j < i + remaining →
        (create_framebuffers_loop driver remaining i globals).globals.framebuffers[j]? =
          some (driver.vkCreateFramebuffer j).2) ∧
      (∀ j, j < i →
        (create_framebuffers_loop driver remaining i globals).globals.framebuffers[j]? =
          globals.framebuffers[j]?) ∧
      (create_framebuffers_loop driver remaining i globals).calls =
        (List.range' i remaining).map (fun j =>
          InitCall.vkCreateFramebuffer globals.vulkanState.device
            { renderPass := globals.renderPass
              attachmentCount := 1
              pAttachments := [globals.vulkanState.swapchainInfo.imageViews[j]?]
              width := window_width
              height := window_height
              layers := 1 }
            (driver.vkCreateFramebuffer j).1 (driver.vkCreateFramebuffer j).2) := by
  intro remaining
  induction remaining with
  | zero =>
    intro i globals _ _
    refine ⟨rfl, rfl, rfl, rfl, ?_, fun _ _ => rfl, rfl⟩
    intro j h1 h2
    omega
  | succ n ih =>
    intro i globals hdriver hsize
    have hcheck := (CheckVkResult_ok_iff (driver.vkCreateFramebuffer i).1
      "vkCreateFramebuffer").mpr (hdriver i (Nat.le_refl _) (by omega))
    have hnext := ih (i + 1)
      { globals with framebuffers := globals.framebuffers.set i (driver.vkCreateFramebuffer i).2 }
      (fun j h1 h2 => hdriver j (by omega) (by omega))
      (by rw [List.length_set]; omega)
    obtain ⟨h1, h2, h3, h4, h5, h6, h7⟩ := hnext
    simp only [create_framebuffers_loop, hcheck]
    refine ⟨h1, h2, h3, ?_, ?_, ?_, ?_⟩
    · rw [h4, List.length_set]
    · intro j hj1 hj2
      by_cases hj : j = i
      · subst hj
        rw [h6 j (by omega), List.getElem?_set_self (by omega)]
      · exact h5 j (by omega) (by omega)
    · intro j hj
      rw [h6 j (by omega), List.getElem?_set_ne (by omega)]
    · rw [h7, List.range'_succ, List.map_cons]

/-- The two semaphores and the command pool when the three calls succeed. -/
theorem main_create_semaphores_and_command_pool_spec (driver : InitDriver)
    (presentationQueueFamilyIndex : Nat) (globals : Globals)
    (hsemaphore : ∀ k, k < 2 → 0 ≤ (driver.vkCreateSemaphore k).1)
    (hpool : 0 ≤ driver.vkCreateCommandPool.1) :
    main_create_semaphores_and_command_pool driver presentationQueueFamilyIndex globals =
      { result := Except.ok ()
        globals := { globals with vulkanState := { globals.vulkanState with
          imageAvailableSemaphore := (driver.vkCreateSemaphore 0).2
          renderingFinishedSemaphore := (driver.vkCreateSemaphore 1).2
          presentQueueCommandPool := driver.vkCreateCommandPool.2 } }
        calls :=
          [InitCall.vkCreateSemaphore globals.vulkanState.device (driver.vkCreateSemaphore 0).1
            (driver.vkCreateSemaphore 0).2,
           InitCall.vkCreateSemaphore globals.vulkanState.device (driver.vkCreateSemaphore 1).1
            (driver.vkCreateSemaphore 1).2,
           InitCall.vkCreateCommandPool globals.vulkanState.device presentationQueueFamilyIndex
            driver.vkCreateCommandPool.1 driver.vkCreateCommandPool.2] } := by
  have h0 := (CheckVkResult_ok_iff (driver.vkCreateSemaphore 0).1 "vkCreateSemaphore").mpr
    (hsemaphore 0 (by omega))
  have h1 := (CheckVkResult_ok_iff (driver.vkCreateSemaphore 1).1 "vkCreateSemaphore").mpr
    (hsemaphore 1 (by omega))
  have h2 := (CheckVkResult_ok_iff driver.vkCreateCommandPool.1 "vkCreateCommandPool").mpr hpool
  simp only [main_create_semaphores_and_command_pool, h0, h1, h2]

/-- The recording loop when every `vkEndCommandBuffer` of it succeeds. -/
theorem record_command_buffers_loop_spec (driver : InitDriver) (vulkanState : VulkanState) :
    ∀ (remaining i : Nat),
      (∀ j, i ≤ j → j < i + remaining → 0 ≤ driver.vkEndCommandBuffer j) →
      record_command_buffers_loop driver vulkanState remaining i =
        (Except.ok (), (List.range' i remaining).flatMap (fun j =>
          record_pass vulkanState j (driver.vkBeginCommandBuffer j) ++
            [InitCall.vkEndCommandBuffer
              (vulkanState.presentQueueCommandBuffers.getD j VK_NULL_HANDLE)
              (driver.vkEndCommandBuffer j)])) := by
  intro remaining
  induction remaining with
  | zero =>
    intro i _
    rfl
  | succ n ih =>
    intro i hdriver
    have hcheck := (CheckVkResult_ok_iff (driver.vkEndCommandBuffer i)
      "vkEndCommandBuffer").mpr (hdriver i (Nat.le_refl _) (by omega))
    have hnext := ih (i + 1) (fun j h1 h2 => hdriver j (by omega) (by omega))
    simp only [record_command_buffers_loop, hcheck, hnext, List.range'_succ,
      List.flatMap_cons]

/-- The command buffers when the allocation and every `vkEndCommandBuffer` succeed. -/
theorem main_record_command_buffers_spec (driver : InitDriver) (globals : Globals) (N : Nat)
    (himages : globals.vulkanState.swapchainInfo.images.length = N)
    (hcount : N < 2 ^ 32)
    (hallocate : 0 ≤ driver.vkAllocateCommandBuffers.1)
    (hend : ∀ i, i < N → 0 ≤ driver.vkEndCommandBuffer i) :
    (main_record_command_buffers driver globals).result = Except.ok () ∧
    (main_record_command_buffers driver globals).globals =
      { globals with vulkanState := { globals.vulkanState with
          presentQueueCommandBuffers :=
            (List.range N).map driver.vkAllocateCommandBuffers.2 } } ∧
    (main_record_command_buffers driver globals).calls =
      InitCall.vkAllocateCommandBuffers globals.vulkanState.device
        globals.vulkanState.presentQueueCommandPool VK_COMMAND_BUFFER_LEVEL_PRIMARY N
        driver.vkAllocateCommandBuffers.1
        ((List.range N).map driver.vkAllocateCommandBuffers.2) ::
      (List.range N).flatMap (fun i =>
        [InitCall.vkBeginCommandBuffer (driver.vkAllocateCommandBuffers.2 i)
          VK_COMMAND_BUFFER_USAGE_SIMULTANEOUS_USE_BIT (driver.vkBeginCommandBuffer i),
         InitCall.vkCmdPipelineBarrier (driver.vkAllocateCommandBuffers.2 i)
          VK_PIPELINE_STAGE_TRANSFER_BIT VK_PIPELINE_STAGE_TRANSFER_BIT
          { srcAccessMask := 0
            dstAccessMask := VK_ACCESS_TRANSFER_WRITE_BIT
            oldLayout := VK_IMAGE_LAYOUT_UNDEFINED
            newLayout := VK_IMAGE_LAYOUT_TRANSFER_DST_OPTIMAL
            image := globals.vulkanState.swapchainInfo.images.getD i VK_NULL_HANDLE },
         InitCall.vkCmdClearColorImage (driver.vkAllocateCommandBuffers.2 i)
          (globals.vulkanState.swapchainInfo.images.getD i VK_NULL_HANDLE)
          VK_IMAGE_LAYOUT_TRANSFER_DST_OPTIMAL,
         InitCall.vkCmdPipelineBarrier (driver.vkAllocateCommandBuffers.2 i)
          VK_PIPELINE_STAGE_TRANSFER_BIT VK_PIPELINE_STAGE_BOTTOM_OF_PIPE_BIT
          { srcAccessMask := VK_ACCESS_TRANSFER_WRITE_BIT
            dstAccessMask := VK_ACCESS_MEMORY_READ_BIT
            oldLayout := VK_IMAGE_LAYOUT_TRANSFER_DST_OPTIMAL
            newLayout := VK_IMAGE_LAYOUT_PRESENT_SRC_KHR
            image := globals.vulkanState.swapchainInfo.images.getD i VK_NULL_HANDLE },
         InitCall.vkEndCommandBuffer (driver.vkAllocateCommandBuffers.2 i)
          (driver.vkEndCommandBuffer i)]) := by
  have hmod : globals.vulkanState.swapchainInfo.images.length % 2 ^ 32 = N := by
    rw [himages]
    exact Nat.mod_eq_of_lt hcount
  have hcheck := (CheckVkResult_ok_iff driver.vkAllocateCommandBuffers.1
    "vkAllocateCommandBuffers").mpr hallocate
  have hloop := record_command_buffers_loop_spec driver
    { globals.vulkanState with
      presentQueueCommandBuffers := (List.range N).map driver.vkAllocateCommandBuffers.2 }
    N 0 (fun j _ h2 => hend j (by omega))
  have hpasses : (List.range' 0 N).flatMap (fun j =>
      record_pass { globals.vulkanState with
          presentQueueCommandBuffers := (List.range N).map driver.vkAllocateCommandBuffers.2 }
        j (driver.vkBeginCommandBuffer j) ++
        [InitCall.vkEndCommandBuffer
          (((List.range N).map driver.vkAllocateCommandBuffers.2).getD j VK_NULL_HANDLE)
          (driver.vkEndCommandBuffer j)]) =
      (List.range N).flatMap (fun i =>
        [InitCall.vkBeginCommandBuffer (driver.vkAllocateCommandBuffers.2 i)
          VK_COMMAND_BUFFER_USAGE_SIMULTANEOUS_USE_BIT (driver.vkBeginCommandBuffer i),
         InitCall.vkCmdPipelineBarrier (driver.vkAllocateCommandBuffers.2 i)
          VK_PIPELINE_STAGE_TRANSFER_BIT VK_PIPELINE_STAGE_TRANSFER_BIT
          { srcAccessMask := 0
            dstAccessMask := VK_ACCESS_TRANSFER_WRITE_BIT
            oldLayout := VK_IMAGE_LAYOUT_UNDEFINED
            newLayout := VK_IMAGE_LAYOUT_TRANSFER_DST_OPTIMAL
            image := globals.vulkanState.swapchainInfo.images.getD i VK_NULL_HANDLE },
         InitCall.vkCmdClearColorImage (driver.vkAllocateCommandBuffers.2 i)
          (globals.vulkanState.swapchainInfo.images.getD i VK_NULL_HANDLE)
          VK_IMAGE_LAYOUT_TRANSFER_DST_OPTIMAL,
         InitCall.vkCmdPipelineBarrier (driver.vkAllocateCommandBuffers.2 i)
          VK_PIPELINE_STAGE_TRANSFER_BIT VK_PIPELINE_STAGE_BOTTOM_OF_PIPE_BIT
          { srcAccessMask := VK_ACCESS_TRANSFER_WRITE_BIT
            dstAccessMask := VK_ACCESS_MEMORY_READ_BIT
            oldLayout := VK_IMAGE_LAYOUT_TRANSFER_DST_OPTIMAL
            newLayout := VK_IMAGE_LAYOUT_PRESENT_SRC_KHR
            image := globals.vulkanState.swapchainInfo.images.getD i VK_NULL_HANDLE },
         InitCall.vkEndCommandBuffer (driver.vkAllocateCommandBuffers.2 i)
          (driver.vkEndCommandBuffer i)]) := by
    rw [← List.range_eq_range']
    apply List.flatMap_congr
    intro j hj
    have hj2 : j < N := List.mem_range.mp hj
    have hget : ((List.range N).map driver.vkAllocateCommandBuffers.2).getD j VK_NULL_HANDLE =
        driver.vkAllocateCommandBuffers.2 j := by
      rw [List.getD_eq_getElem?_getD, List.getElem?_map, List.getElem?_range hj2]
      rfl
    simp only [record_pass, hget, List.cons_append, List.nil_append]
  have hdrop : (vector_resize globals.vulkanState.presentQueueCommandBuffers N).drop N = [] :=
    List.drop_eq_nil_of_le (Nat.le_of_eq (vector_resize_length _ _))
  simp only [main_record_command_buffers, hmod, hdrop, List.append_nil, hcheck]
  rw [hloop, hpasses]
  refine ⟨?_, ?_, ?_⟩ <;> first | rfl | trivial

/-- The submit of a `RunFrame` cycle names the command buffer stored at the acquired
index. -/
theorem RunFrame_submits (driver : FrameDriver) (history : List MainCall)
    (vulkanState : VulkanState) (queue : VkQueue) (submitCount : Nat)
    (submitInfo : FrameSubmitInfo) (fence : Nat) (result : VkResult)
    (h : MainCall.vkQueueSubmit queue submitCount submitInfo fence result ∈
      (RunFrame driver history vulkanState).calls) :
    submitInfo.pCommandBuffers =
      [vulkanState.presentQueueCommandBuffers[(driver.vkAcquireNextImageKHR history
        vulkanState.device vulkanState.swapchainInfo.handle UINT64_MAX
        vulkanState.imageAvailableSemaphore VK_NULL_HANDLE).2]?] := by
  unfold RunFrame at h
  simp only at h
  split at h
  · simp at h
  · split at h
    · simp only [List.cons_append, List.nil_append, List.mem_cons, List.mem_singleton,
        reduceCtorEq, false_or, MainCall.vkQueueSubmit.injEq, List.not_mem_nil, or_false] at h
      rw [h.2.2.1]
    · split at h
      · simp only [List.cons_append, List.nil_append, List.mem_cons, List.mem_singleton,
          reduceCtorEq, false_or, MainCall.vkQueueSubmit.injEq, List.not_mem_nil,
          or_false] at h
        rw [h.2.2.1]
      · simp only [List.cons_append, List.nil_append, List.mem_cons, List.mem_singleton,
          reduceCtorEq, false_or, MainCall.vkQueueSubmit.injEq, List.not_mem_nil,
          or_false] at h
        rw [h.2.2.1]

/-- C15. Per-image resources are index-aligned with the swapchain. Take the globals of
`main` with a swapchain of `N` images and `N` image views, and a driver whose calls
succeed. Then lines 270-396 of `main` return; `framebuffers` and
`presentQueueCommandBuffers` have size `N`; for every `i < N` the elements `imageViews[i]`
and `images[i]` exist, `framebuffers[i]` is the handle of the `i`-th `vkCreateFramebuffer`
and `presentQueueCommandBuffers[i]` is the `i`-th handle of `vkAllocateCommandBuffers`;
the calls are one `vkCreateFramebuffer` per index `i`, on `imageViews[i]`, then the two
semaphores and the command pool, then the allocation of `N` command buffers and, per
index `i`, the begin, the barrier on `images[i]`, the clear of `images[i]`, the barrier
on `images[i]` and the end, all on command buffer `i`. Hence a `RunFrame` on the state
that acquires an index `i < N` submits exactly the command buffer stored at `i`: the
access `presentQueueCommandBuffers[i]` is in bounds. -/
theorem per_image_resources (driver : InitDriver) (presentationQueueFamilyIndex : Nat)
    (globals : Globals) (N : Nat)
    (himages : globals.vulkanState.swapchainInfo.images.length = N)
    (hviews : globals.vulkanState.swapchainInfo.imageViews.length = N)
    (hcount : N < 2 ^ 32)
    (hframebuffer : ∀ i, i < N → 0 ≤ (driver.vkCreateFramebuffer i).1)
    (hsemaphore : ∀ k, k < 2 → 0 ≤ (driver.vkCreateSemaphore k).1)
    (hpool : 0 ≤ driver.vkCreateCommandPool.1)
    (hallocate : 0 ≤ driver.vkAllocateCommandBuffers.1)
    (hend : ∀ i, i < N → 0 ≤ driver.vkEndCommandBuffer i) :
    (main_per_image_resources driver presentationQueueFamilyIndex globals).result =
      Except.ok () ∧
    (main_per_image_resources driver presentationQueueFamilyIndex
      globals).globals.vulkanState.swapchainInfo = globals.vulkanState.swapchainInfo ∧
    (main_per_image_resources driver presentationQueueFamilyIndex
      globals).globals.framebuffers.length = N ∧
    (main_per_image_resources driver presentationQueueFamilyIndex
      globals).globals.vulkanState.presentQueueCommandBuffers.length = N ∧
    (∀ i, i < N →
      (∃ imageView, globals.vulkanState.swapchainInfo.imageViews[i]? = some imageView) ∧
      globals.vulkanState.swapchainInfo.images[i]? =
        some (globals.vulkanState.swapchainInfo.images.getD i VK_NULL_HANDLE) ∧
      (main_per_image_resources driver presentationQueueFamilyIndex
        globals).globals.framebuffers[i]? = some (driver.vkCreateFramebuffer i).2 ∧
      (main_per_image_resources driver presentationQueueFamilyIndex
        globals).globals.vulkanState.presentQueueCommandBuffers[i]? =
          some (driver.vkAllocateCommandBuffers.2 i)) ∧
    (main_per_image_resources driver presentationQueueFamilyIndex globals).calls =
      (List.range N).map (fun i =>
        InitCall.vkCreateFramebuffer globals.vulkanState.device
          { renderPass := globals.renderPass
            attachmentCount := 1
            pAttachments := [globals.vulkanState.swapchainInfo.imageViews[i]?]
            width := window_width
            height := window_height
            layers := 1 }
          (driver.vkCreateFramebuffer i).1 (driver.vkCreateFramebuffer i).2) ++
      [InitCall.vkCreateSemaphore globals.vulkanState.device (driver.vkCreateSemaphore 0).1
        (driver.vkCreateSemaphore 0).2,
       InitCall.vkCreateSemaphore globals.vulkanState.device (driver.vkCreateSemaphore 1).1
        (driver.vkCreateSemaphore 1).2,
       InitCall.vkCreateCommandPool globals.vulkanState.device presentationQueueFamilyIndex
        driver.vkCreateCommandPool.1 driver.vkCreateCommandPool.2] ++
      InitCall.vkAllocateCommandBuffers globals.vulkanState.device
        driver.vkCreateCommandPool.2 VK_COMMAND_BUFFER_LEVEL_PRIMARY N
        driver.vkAllocateCommandBuffers.1
        ((List.range N).map driver.vkAllocateCommandBuffers.2) ::
      (List.range N).flatMap (fun i =>
        [InitCall.vkBeginCommandBuffer (driver.vkAllocateCommandBuffers.2 i)
          VK_COMMAND_BUFFER_USAGE_SIMULTANEOUS_USE_BIT (driver.vkBeginCommandBuffer i),
         InitCall.vkCmdPipelineBarrier (driver.vkAllocateCommandBuffers.2 i)
          VK_PIPELINE_STAGE_TRANSFER_BIT VK_PIPELINE_STAGE_TRANSFER_BIT
          { srcAccessMask := 0
            dstAccessMask := VK_ACCESS_TRANSFER_WRITE_BIT
            oldLayout := VK_IMAGE_LAYOUT_UNDEFINED
            newLayout := VK_IMAGE_LAYOUT_TRANSFER_DST_OPTIMAL
            image := globals.vulkanState.swapchainInfo.images.getD i VK_NULL_HANDLE },
         InitCall.vkCmdClearColorImage (driver.vkAllocateCommandBuffers.2 i)
          (globals.vulkanState.swapchainInfo.images.getD i VK_NULL_HANDLE)
          VK_IMAGE_LAYOUT_TRANSFER_DST_OPTIMAL,
         InitCall.vkCmdPipelineBarrier (driver.vkAllocateCommandBuffers.2 i)
          VK_PIPELINE_STAGE_TRANSFER_BIT VK_PIPELINE_STAGE_BOTTOM_OF_PIPE_BIT
          { srcAccessMask := VK_ACCESS_TRANSFER_WRITE_BIT
            dstAccessMask := VK_ACCESS_MEMORY_READ_BIT
            oldLayout := VK_IMAGE_LAYOUT_TRANSFER_DST_OPTIMAL
            newLayout := VK_IMAGE_LAYOUT_PRESENT_SRC_KHR
            image := globals.vulkanState.swapchainInfo.images.getD i VK_NULL_HANDLE },
         InitCall.vkEndCommandBuffer (driver.vkAllocateCommandBuffers.2 i)
          (driver.vkEndCommandBuffer i)]) ∧
    (∀ (frameDriver : FrameDriver) (history : List MainCall) (queue : VkQueue)
      (submitCount : Nat) (submitInfo : FrameSubmitInfo) (fence : Nat) (result : VkResult),
      (frameDriver.vkAcquireNextImageKHR history
        (main_per_image_resources driver presentationQueueFamilyIndex
          globals).globals.vulkanState.device
        (main_per_image_resources driver presentationQueueFamilyIndex
          globals).globals.vulkanState.swapchainInfo.handle UINT64_MAX
        (main_per_image_resources driver presentationQueueFamilyIndex
          globals).globals.vulkanState.imageAvailableSemaphore VK_NULL_HANDLE).2 < N →
      MainCall.vkQueueSubmit queue submitCount submitInfo fence result ∈
        (RunFrame frameDriver history
          (main_per_image_resources driver presentationQueueFamilyIndex
            globals).globals.vulkanState).calls →
      submitInfo.pCommandBuffers =
        [some (driver.vkAllocateCommandBuffers.2
          (frameDriver.vkAcquireNextImageKHR history
            (main_per_image_resources driver presentationQueueFamilyIndex
              globals).globals.vulkanState.device
            (main_per_image_resources driver presentationQueueFamilyIndex
              globals).globals.vulkanState.swapchainInfo.handle UINT64_MAX
            (main_per_image_resources driver presentationQueueFamilyIndex
              globals).globals.vulkanState.imageAvailableSemaphore VK_NULL_HANDLE).2)]) := by
  have hmod : globals.vulkanState.swapchainInfo.images.length % 2 ^ 32 = N := by
    rw [himages]
    exact Nat.mod_eq_of_lt hcount
  have hcreated := create_framebuffers_loop_spec driver N 0
    { globals with framebuffers := vector_resize globals.framebuffers N }
    (fun j _ h2 => hframebuffer j (by omega))
    (by
      show 0 + N ≤ (vector_resize globals.framebuffers N).length
      rw [vector_resize_length]
      omega)
  have hunfold : main_create_framebuffers driver globals =
      create_framebuffers_loop driver N 0
        { globals with framebuffers := vector_resize globals.framebuffers N } := by
    simp only [main_create_framebuffers, hmod]
  rw [← hunfold] at hcreated
  obtain ⟨c1, c2, c3, c4, c5, _, c7⟩ := hcreated
  have hpooled := main_create_semaphores_and_command_pool_spec driver
    presentationQueueFamilyIndex (main_create_framebuffers driver globals).globals
    hsemaphore hpool
  have hrecorded := main_record_command_buffers_spec driver
    (main_create_semaphores_and_command_pool driver presentationQueueFamilyIndex
      (main_create_framebuffers driver globals).globals).globals N
    (by rw [hpooled, c2]; exact himages) hcount hallocate hend
  obtain ⟨r1, r2, r3⟩ := hrecorded
  have hout : main_per_image_resources driver presentationQueueFamilyIndex globals =
      { result := Except.ok ()
        globals := (main_record_command_buffers driver
          (main_create_semaphores_and_command_pool driver presentationQueueFamilyIndex
            (main_create_framebuffers driver globals).globals).globals).globals
        calls := (main_create_framebuffers driver globals).calls ++
          (main_create_semaphores_and_command_pool driver presentationQueueFamilyIndex
            (main_create_framebuffers driver globals).globals).calls ++
          (main_record_command_buffers driver
            (main_create_semaphores_and_command_pool driver presentationQueueFamilyIndex
              (main_create_framebuffers driver globals).globals).globals).calls } := by
    have hp : (main_create_semaphores_and_command_pool driver presentationQueueFamilyIndex
        (main_create_framebuffers driver globals).globals).result = Except.ok () := by
      rw [hpooled]
    simp only [main_per_image_resources, c1, hp, r1]
  have hglobals : (main_per_image_resources driver presentationQueueFamilyIndex
      globals).globals =
      { vulkanState := { globals.vulkanState with
          imageAvailableSemaphore := (driver.vkCreateSemaphore 0).2
          renderingFinishedSemaphore := (driver.vkCreateSemaphore 1).2
          presentQueueCommandPool := driver.vkCreateCommandPool.2
          presentQueueCommandBuffers := (List.range N).map driver.vkAllocateCommandBuffers.2 }
        renderPass := globals.renderPass
        framebuffers := (main_create_framebuffers driver globals).globals.framebuffers } := by
    rw [hout]
    show (main_record_command_buffers driver _).globals = _
    rw [r2, hpooled]
    simp only [c2, c3]
  have hbuffer : ∀ i, i < N →
      ((List.range N).map driver.vkAllocateCommandBuffers.2)[i]? =
        some (driver.vkAllocateCommandBuffers.2 i) := by
    intro i hi
    rw [List.getElem?_map, List.getElem?_range hi]
    rfl
  refine ⟨by rw [hout], by rw [hglobals], ?_, ?_, ?_, ?_, ?_⟩
  · rw [hglobals]
    show (main_create_framebuffers driver globals).globals.framebuffers.length = N
    rw [c4]
    exact vector_resize_length _ _
  · rw [hglobals]
    show ((List.range N).map driver.vkAllocateCommandBuffers.2).length = N
    rw [List.length_map, List.length_range]
  · intro i hi
    refine ⟨⟨globals.vulkanState.swapchainInfo.imageViews[i], ?_⟩, ?_, ?_, ?_⟩
    · exact List.getElem?_eq_getElem (by omega)
    · rw [List.getD_eq_getElem?_getD, List.getElem?_eq_getElem (by omega)]
      rfl
    · rw [hglobals]
      exact c5 i (by omega) (by omega)
    · rw [hglobals]
      exact hbuffer i hi
  · rw [hout]
    show (main_create_framebuffers driver globals).calls ++ _ ++ _ = _
    rw [c7, r3, hpooled, c2, c3, ← List.range_eq_range']
  · intro frameDriver history queue submitCount submitInfo fence result hindex hmem
    have hsubmit := RunFrame_submits frameDriver history _ queue submitCount submitInfo fence
      result hmem
    rw [hsubmit]
    rw [hglobals] at hindex ⊢
    exact congrArg (fun x => [x]) (hbuffer _ hindex)

theorem per_image_resources_witness :
    (main_per_image_resources sample_init_driver 0 swapchain_globals).globals.framebuffers =
      [50, 51] ∧
    (main_per_image_resources sample_init_driver 0
      swapchain_globals).globals.vulkanState.presentQueueCommandBuffers = [30, 31] ∧
    (main_per_image_resources sample_init_driver 0 swapchain_globals).globals.framebuffers.length
      = 2 ∧
    (main_per_image_resources sample_init_driver 0
      swapchain_globals).globals.vulkanState.presentQueueCommandBuffers.length = 2 :=
  ⟨by decide, by decide,
    (per_image_resources sample_init_driver 0 swapchain_globals 2 rfl rfl (by decide)
      (fun _ _ => (by decide : (0 : VkResult) ≤ VK_SUCCESS)) (fun _ _ => (by decide : (0 : VkResult) ≤ VK_SUCCESS)) (by decide) (by decide)
      (fun _ _ => (by decide : (0 : VkResult) ≤ VK_SUCCESS))).2.2.1,
    (per_image_resources sample_init_driver 0 swapchain_globals 2 rfl rfl (by decide)
      (fun _ _ => (by decide : (0 : VkResult) ≤ VK_SUCCESS)) (fun _ _ => (by decide : (0 : VkResult) ≤ VK_SUCCESS)) (by decide) (by decide)
      (fun _ _ => (by decide : (0 : VkResult) ≤ VK_SUCCESS))).2.2.2.1⟩

/-! ## Descriptor sets of Copy_To_Swapchain: the claim -/

theorem VK_CHECK_of_nonneg (string_VkResult : VkResult → String) (result : VkResult)
    (function_call : String) (h : 0 ≤ result) :
    VK_CHECK string_VkResult result function_call = Except.ok () := by
  unfold VK_CHECK
  rw [if_neg (not_lt.mpr h)]

theorem size_t_sub_of_le (a b : Nat) (ha : a < 2 ^ 64) (hb : b ≤ a) :
    size_t_sub a b = a - b := by
  unfold size_t_sub
  rw [Nat.mod_eq_of_lt (by omega : b < 2 ^ 64)]
  have h : a + 2 ^ 64 - b = (a - b) + 2 ^ 64 := by omega
  rw [h, Nat.add_mod_right]
  exact Nat.mod_eq_of_lt (by omega)

/-- The allocation loop when every `vkAllocateDescriptorSets` of it succeeds. -/
theorem allocate_sets_loop_spec (string_VkResult : VkResult → String)
    (vkAllocateDescriptorSets : Nat → VkResult × VkDescriptorSet) (vk : Vk_Instance) :
    ∀ (remaining i : Nat) (self : Copy_To_Swapchain),
      (∀ j, i ≤ j → j < i + remaining → 0 ≤ (vkAllocateDescriptorSets j).1) →
      allocate_sets_loop string_VkResult vkAllocateDescriptorSets vk remaining i self =
        { result := Except.ok ()
          self := { self with sets := self.sets ++
            (List.range' i remaining).map (fun j => (vkAllocateDescriptorSets j).2) }
          calls := (List.range' i remaining).flatMap (fun j =>
            [DescriptorCall.vkAllocateDescriptorSets vk.device vk.descriptor_pool 1
              [self.set_layout] (vkAllocateDescriptorSets j).1 (vkAllocateDescriptorSets j).2,
             DescriptorCall.Descriptor_Writes (some (vkAllocateDescriptorSets j).2)
              [Descriptor_Write.sampler 0 self.point_sampler]]) } := by
  intro remaining
  induction remaining with
  | zero =>
    intro i self _
    simp [allocate_sets_loop]
  | succ n ih =>
    intro i self hdriver
    have hcheck := VK_CHECK_of_nonneg string_VkResult (vkAllocateDescriptorSets i).1
      "vkAllocateDescriptorSets(vk.device, &alloc_info, &set)"
      (hdriver i (Nat.le_refl _) (by omega))
    have hnext := ih (i + 1)
      { self with sets := self.sets ++ [(vkAllocateDescriptorSets i).2] }
      (fun j h1 h2 => hdriver j (by omega) (by omega))
    simp only [allocate_sets_loop, hcheck, hnext, List.range'_succ, List.map_cons,
      List.flatMap_cons, List.append_assoc, List.singleton_append, List.cons_append,
      List.nil_append]

/-- A call on a `Copy_To_Swapchain` that has a set for every image allocates nothing. -/
theorem update_resolution_dependent_descriptors_enough
    (string_VkResult : VkResult → String)
    (vkAllocateDescriptorSets : Nat → VkResult × VkDescriptorSet) (vk : Vk_Instance)
    (self : Copy_To_Swapchain) (output_image_view : VkImageView)
    (h : vk.swapchain_info.images.length ≤ self.sets.length) :
    self.update_resolution_dependent_descriptors string_VkResult vkAllocateDescriptorSets vk
        output_image_view =
      { result := Except.ok (), self := self,
        calls := write_sets vk self output_image_view } := by
  unfold Copy_To_Swapchain.update_resolution_dependent_descriptors
  simp only [if_neg (not_lt.mpr h), List.nil_append]

/-- A call on a `Copy_To_Swapchain` with fewer sets than images, when every allocation
succeeds. -/
theorem update_resolution_dependent_descriptors_fewer
    (string_VkResult : VkResult → String)
    (vkAllocateDescriptorSets : Nat → VkResult × VkDescriptorSet) (vk : Vk_Instance)
    (self : Copy_To_Swapchain) (output_image_view : VkImageView) (m N : Nat)
    (hsets : self.sets.length = m)
    (himages : vk.swapchain_info.images.length = N)
    (h : m < N) (hsize : N < 2 ^ 64)
    (hdriver : ∀ i, i < N - m → 0 ≤ (vkAllocateDescriptorSets i).1) :
    self.update_resolution_dependent_descriptors string_VkResult vkAllocateDescriptorSets vk
        output_image_view =
      { result := Except.ok ()
        self := { self with sets := self.sets ++
          (List.range (N - m)).map (fun j => (vkAllocateDescriptorSets j).2) }
        calls :=
          (List.range (N - m)).flatMap (fun j =>
            [DescriptorCall.vkAllocateDescriptorSets vk.device vk.descriptor_pool 1
              [self.set_layout] (vkAllocateDescriptorSets j).1 (vkAllocateDescriptorSets j).2,
             DescriptorCall.Descriptor_Writes (some (vkAllocateDescriptorSets j).2)
              [Descriptor_Write.sampler 0 self.point_sampler]]) ++
          write_sets vk
            { self with sets := self.sets ++
              (List.range (N - m)).map (fun j => (vkAllocateDescriptorSets j).2) }
            output_image_view } := by
  have hloop := allocate_sets_loop_spec string_VkResult vkAllocateDescriptorSets vk
    (N - m) 0 self (fun j _ h2 => hdriver j (by omega))
  unfold Copy_To_Swapchain.update_resolution_dependent_descriptors
  simp only [hsets, himages, if_pos h, size_t_sub_of_le _ _ hsize (Nat.le_of_lt h), hloop,
    List.range_eq_range']

/-- C17. Descriptor sets track the swapchain image count. Take a `Copy_To_Swapchain` with
`m` sets, a swapchain of `N` images and at least `N` image views, and a driver whose
first `N - m` allocations succeed. Then `update_resolution_dependent_descriptors`
returns; `sets` is the prior vector followed by the `N - m` (0 when `N ≤ m`) sets the
allocations returned, so its size is `max m N`; when the subtraction `N - m` of the
source is computed, `m < N` and its `size_t` value is the difference; the calls are, for
each new set, its allocation from `vk.descriptor_pool` with `set_layout` and the write
of the point sampler at binding 0, and then for each `i < N` the write on `sets[i]` of
the output image view at binding 1 in layout `SHADER_READ_ONLY_OPTIMAL` and of
`image_views[i]` at binding 2; for each `i < N` both `sets[i]` and `image_views[i]`
exist; and a second call with the same swapchain, whatever the driver and the view,
returns with `sets` unchanged and no call but the `N` writes. -/
theorem descriptor_sets_track_swapchain (string_VkResult : VkResult → String)
    (vkAllocateDescriptorSets again : Nat → VkResult × VkDescriptorSet) (vk : Vk_Instance)
    (self : Copy_To_Swapchain) (output_image_view next_image_view : VkImageView) (m N : Nat)
    (hsets : self.sets.length = m)
    (himages : vk.swapchain_info.images.length = N)
    (hviews : N ≤ vk.swapchain_info.image_views.length)
    (hsize : N < 2 ^ 64)
    (hdriver : ∀ i, i < N - m → 0 ≤ (vkAllocateDescriptorSets i).1) :
    (self.update_resolution_dependent_descriptors string_VkResult vkAllocateDescriptorSets vk
      output_image_view).result = Except.ok () ∧
    (self.update_resolution_dependent_descriptors string_VkResult vkAllocateDescriptorSets vk
      output_image_view).self =
      { self with sets := self.sets ++
        (List.range (N - m)).map (fun j => (vkAllocateDescriptorSets j).2) } ∧
    (self.update_resolution_dependent_descriptors string_VkResult vkAllocateDescriptorSets vk
      output_image_view).self.sets.length = max m N ∧
    (m < N → ((size_t_sub N m : Nat) : Int) = (N : Int) - (m : Int)) ∧
    (self.update_resolution_dependent_descriptors string_VkResult vkAllocateDescriptorSets vk
      output_image_view).calls =
      (List.range (N - m)).flatMap (fun j =>
        [DescriptorCall.vkAllocateDescriptorSets vk.device vk.descriptor_pool 1
          [self.set_layout] (vkAllocateDescriptorSets j).1 (vkAllocateDescriptorSets j).2,
         DescriptorCall.Descriptor_Writes (some (vkAllocateDescriptorSets j).2)
          [Descriptor_Write.sampler 0 self.point_sampler]]) ++
      (List.range N).map (fun i =>
        DescriptorCall.Descriptor_Writes
          (self.update_resolution_dependent_descriptors string_VkResult
            vkAllocateDescriptorSets vk output_image_view).self.sets[i]?
          [Descriptor_Write.sampled_image 1 output_image_view
            VK_IMAGE_LAYOUT_SHADER_READ_ONLY_OPTIMAL,
           Descriptor_Write.storage_image 2 vk.swapchain_info.image_views[i]?]) ∧
    (∀ i, i < N →
      (∃ set, (self.update_resolution_dependent_descriptors string_VkResult
        vkAllocateDescriptorSets vk output_image_view).self.sets[i]? = some set) ∧
      (∃ image_view, vk.swapchain_info.image_views[i]? = some image_view)) ∧
    (self.update_resolution_dependent_descriptors string_VkResult vkAllocateDescriptorSets vk
        output_image_view).self.update_resolution_dependent_descriptors string_VkResult again
        vk next_image_view =
      { result := Except.ok ()
        self := (self.update_resolution_dependent_descriptors string_VkResult
          vkAllocateDescriptorSets vk output_image_view).self
        calls := (List.range N).map (fun i =>
          DescriptorCall.Descriptor_Writes
            (self.update_resolution_dependent_descriptors string_VkResult
              vkAllocateDescriptorSets vk output_image_view).self.sets[i]?
            [Descriptor_Write.sampled_image 1 next_image_view
              VK_IMAGE_LAYOUT_SHADER_READ_ONLY_OPTIMAL,
             Descriptor_Write.storage_image 2 vk.swapchain_info.image_views[i]?]) } := by
  have hout : self.update_resolution_dependent_descriptors string_VkResult
      vkAllocateDescriptorSets vk output_image_view =
      { result := Except.ok ()
        self := { self with sets := self.sets ++
          (List.range (N - m)).map (fun j => (vkAllocateDescriptorSets j).2) }
        calls :=
          (List.range (N - m)).flatMap (fun j =>
            [DescriptorCall.vkAllocateDescriptorSets vk.device vk.descriptor_pool 1
              [self.set_layout] (vkAllocateDescriptorSets j).1 (vkAllocateDescriptorSets j).2,
             DescriptorCall.Descriptor_Writes (some (vkAllocateDescriptorSets j).2)
              [Descriptor_Write.sampler 0 self.point_sampler]]) ++
          write_sets vk
            { self with sets := self.sets ++
              (List.range (N - m)).map (fun j => (vkAllocateDescriptorSets j).2) }
            output_image_view } := by
    by_cases hlt : m < N
    · exact update_resolution_dependent_descriptors_fewer string_VkResult
        vkAllocateDescriptorSets vk self output_image_view m N hsets himages hlt hsize hdriver
    · have h := update_resolution_dependent_descriptors_enough string_VkResult
        vkAllocateDescriptorSets vk self output_image_view (by rw [hsets, himages]; omega)
      have hzero : N - m = 0 := by omega
      rw [h, hzero]
      simp
  have hlength : (self.sets ++
      (List.range (N - m)).map (fun j => (vkAllocateDescriptorSets j).2)).length = max m N := by
    rw [List.length_append, List.length_map, List.length_range, hsets]
    omega
  rw [hout]
  refine ⟨rfl, rfl, hlength, ?_, ?_, ?_, ?_⟩
  · intro hlt
    rw [size_t_sub_of_le N m hsize (Nat.le_of_lt hlt)]
    omega
  · show _ ++ write_sets vk _ output_image_view = _
    unfold write_sets
    rw [himages]
  · intro i hi
    have hbound : i < (self.sets ++
        (List.range (N - m)).map (fun j => (vkAllocateDescriptorSets j).2)).length := by
      rw [hlength]
      omega
    exact ⟨⟨_, List.getElem?_eq_getElem hbound⟩,
      ⟨vk.swapchain_info.image_views[i], List.getElem?_eq_getElem (by omega)⟩⟩
  · have h := update_resolution_dependent_descriptors_enough string_VkResult again vk
      { self with sets := self.sets ++
        (List.range (N - m)).map (fun j => (vkAllocateDescriptorSets j).2) }
      next_image_view
      (by
        show vk.swapchain_info.images.length ≤ (self.sets ++ _).length
        rw [hlength, himages]
        omega)
    rw [h]
    unfold write_sets
    rw [himages]

theorem descriptor_sets_track_swapchain_witness :
    (sample_copy_to_swapchain.update_resolution_dependent_descriptors sample_string_VkResult
      sample_vkAllocateDescriptorSets sample_vk 80).self.sets = [70, 71, 72] ∧
    (sample_copy_to_swapchain.update_resolution_dependent_descriptors sample_string_VkResult
      sample_vkAllocateDescriptorSets sample_vk 80).self.sets.length = max 1 3 :=
  ⟨by decide,
    (descriptor_sets_track_swapchain sample_string_VkResult sample_vkAllocateDescriptorSets
      sample_vkAllocateDescriptorSets sample_vk sample_copy_to_swapchain 80 81 1 3 rfl rfl
      (by decide) (by decide)
      (fun _ _ => (by decide : (0 : VkResult) ≤ VK_SUCCESS))).2.2.1⟩

end VulkanBase
